import Mathlib

/-!
Verification of the jira-mcp-server repository (src/server.py) against its
natural-language specification.

The development shallowly embeds the Python source:

* JSON values (the `dict`/`list`/`str`/`int` payloads the server moves
  around) become the inductive type `Json`; Python `dict.get` with a
  default becomes `Args.getD` / `Json.getD`.
* The shared HTTP client becomes an oracle `Net : Nat → HttpRequest →
  NetOutcome`: the i-th request a handler issues is answered by `net i req`.
  An outcome is either a response (status, parsed JSON body if the body was
  parseable, raw text) or a transport failure (`httpx.RequestError`).
* Every tool handler becomes a total function
  `Config → Args → Net → Except String (List TextContent) × List HttpRequest`
  returning the textual result (or, via `Except.error`, an exception that
  escapes the handler to the dispatcher's `except` clause, e.g. Python
  `TypeError`s raised outside the handler's own try-block) together with the
  ordered trace of HTTP requests it constructed and sent.
* Exact texts of Python exception messages (`TypeError`, `JSONDecodeError`)
  are abstracted by fixed descriptive strings; every handler- and
  server-authored message string is copied verbatim from the source.
* Python `json.dumps(..., indent=2)` is abstracted by the compact
  serializer `Json.dumps` (the claims never inspect those serialized
  success payloads), and Python `str()` of a non-string JSON value by
  `pyStr`.
-/

namespace JiraMcp

/-! ## JSON values and argument mappings -/

/-- JSON values, the payloads of tool arguments, request bodies and
responses.  Integers model Python's unbounded `int`. -/
inductive Json where
  | null
  | bool (b : Bool)
  | num (n : Int)
  | str (s : String)
  | arr (items : List Json)
  | obj (fields : List (String × Json))

/-- Association lookup in a JSON object's field list (first binding wins,
like a Python dict converted to an association list). -/
def jfield : List (String × Json) → String → Option Json
  | [], _ => none
  | (k', v) :: rest, k => if k' = k then some v else jfield rest k

/-- Python truthiness (`if not x`) of a JSON value: `None`, `False`, `0`,
`""`, `[]`, `{}` are falsy, everything else truthy. -/
def Json.truthy : Json → Bool
  | .null => false
  | .bool b => b
  | .num n => n != 0
  | .str s => s != ""
  | .arr l => !l.isEmpty
  | .obj l => !l.isEmpty

/-- Python `d.get(k, default)` on a JSON object; on a non-object the source
would raise `AttributeError` — all uses in the embedded handlers sit on
response-shaping paths guarded by the handlers' try/except, and are
abstracted to returning the default. -/
def Json.getD (j : Json) (k : String) (d : Json) : Json :=
  match j with
  | .obj fs => (jfield fs k).getD d
  | _ => d

/-- Python `k in d` membership test on a JSON object. -/
def Json.hasKey (j : Json) (k : String) : Bool :=
  match j with
  | .obj fs => (jfield fs k).isSome
  | _ => false

/-- View a JSON value as a list (Python iteration over a response list). -/
def Json.asArr : Json → List Json
  | .arr l => l
  | _ => []

mutual

/-- Compact JSON serialization, abstracting Python
`json.dumps(..., indent=2)` (claims never inspect the serialized
success payloads, only that they are produced). -/
def Json.dumps : Json → String
  | .null => "null"
  | .bool true => "true"
  | .bool false => "false"
  | .num n => toString n
  | .str s => "\"" ++ s ++ "\""
  | .arr l => "[" ++ dumpsList l ++ "]"
  | .obj fs => "\x7b" ++ dumpsFields fs ++ "\x7d"

/-- Serialize a list of JSON values, comma separated. -/
def dumpsList : List Json → String
  | [] => ""
  | [x] => Json.dumps x
  | x :: xs => Json.dumps x ++ ", " ++ dumpsList xs

/-- Serialize the fields of a JSON object, comma separated. -/
def dumpsFields : List (String × Json) → String
  | [] => ""
  | [(k, v)] => "\"" ++ k ++ "\": " ++ Json.dumps v
  | (k, v) :: xs => "\"" ++ k ++ "\": " ++ Json.dumps v ++ ", " ++ dumpsFields xs

end

/-- Python `str()` of a JSON value: a string is returned as-is, other
values are abstracted by their serialization. -/
def pyStr : Json → String
  | .str s => s
  | j => Json.dumps j

/-- The argument mapping of a tool call (`arguments: Dict[str, Any]`). -/
abbrev Args := List (String × Json)

/-- Python `args.get(k, d)`: the bound value if the key is present
(even if bound to `None`), the default otherwise. -/
def Args.getD : Args → String → Json → Json
  | [], _, d => d
  | (k', v) :: rest, k, d => if k' = k then v else Args.getD rest k d

/-- Python `args.get(k)` (default `None`). -/
def Args.get (a : Args) (k : String) : Json :=
  Args.getD a k Json.null

/-! ## Key validators (src/server.py lines 53-63)

`PROJECT_KEY_PATTERN = re.compile(r'^[A-Z][A-Z0-9_]*$')` and
`ISSUE_KEY_PATTERN = re.compile(r'^[A-Z][A-Z0-9_]*-\d+$')`, applied with
`re.match`.  Two points of Python `re` semantics are embedded exactly:
`$` matches at the end of the string and also just before one newline at
the very end of the string, and `\d` on a `str` pattern is the Unicode
decimal-digit class (category Nd), not only `0-9`.  The literal classes
`[A-Z]` and `[A-Z0-9_]` are ASCII ranges.  Because `-` belongs to
neither class, the greedy scan `dropWhile` is exactly the regex's match
of `[A-Z0-9_]*` followed by `-`. -/

/-- Character class `[A-Z]`. -/
def isUpperAZ (c : Char) : Bool := 'A' ≤ c && c ≤ 'Z'

/-- The ASCII range `0-9` as it occurs literally inside `[A-Z0-9_]`
(also the spec's narrow reading of `\d`). -/
def isDigit09 (c : Char) : Bool := '0' ≤ c && c ≤ '9'

/-- Character class `[A-Z0-9_]`. -/
def isKeyChar (c : Char) : Bool := isUpperAZ c || isDigit09 c || c = '_'

/-- The Unicode decimal-digit code-point ranges (category Nd, inclusive
bounds): Python's `\d` on a `str` pattern matches exactly these. -/
def ndDigitRanges : List (Nat × Nat) :=
  [(48, 57), (1632, 1641), (1776, 1785), (1984, 1993), (2406, 2415), (2534, 2543),
   (2662, 2671), (2790, 2799), (2918, 2927), (3046, 3055), (3174, 3183), (3302, 3311),
   (3430, 3439), (3558, 3567), (3664, 3673), (3792, 3801), (3872, 3881), (4160, 4169),
   (4240, 4249), (6112, 6121), (6160, 6169), (6470, 6479), (6608, 6617), (6784, 6793),
   (6800, 6809), (6992, 7001), (7088, 7097), (7232, 7241), (7248, 7257), (42528, 42537),
   (43216, 43225), (43264, 43273), (43472, 43481), (43504, 43513), (43600, 43609), (44016, 44025),
   (65296, 65305), (66720, 66729), (68912, 68921), (69734, 69743), (69872, 69881), (69942, 69951),
   (70096, 70105), (70384, 70393), (70736, 70745), (70864, 70873), (71248, 71257), (71360, 71369),
   (71472, 71481), (71904, 71913), (72016, 72025), (72784, 72793), (73040, 73049), (73120, 73129),
   (92768, 92777), (92864, 92873), (93008, 93017), (120782, 120831), (123200, 123209), (123632, 123641),
   (125264, 125273), (130032, 130041)]

/-- Character class `\d` under Python `re` semantics: any Unicode
decimal digit. -/
def isPyDigit (c : Char) : Bool :=
  ndDigitRanges.any (fun p => decide (p.1 ≤ c.toNat) && decide (c.toNat ≤ p.2))

/-- Matcher for `[A-Z][A-Z0-9_]*` against a whole character list. -/
def matchProjectKey : List Char → Bool
  | [] => false
  | c :: rest => isUpperAZ c && rest.all isKeyChar

/-- Matcher for `[A-Z][A-Z0-9_]*-d+` against a whole character list,
parametrized by the digit class `d`.  Because `-` belongs neither to
`[A-Z0-9_]` nor to a digit class, the greedy scan over `[A-Z0-9_]`
followed by a literal `-` is exactly the regex's behaviour. -/
def matchIssueKeyWith (dig : Char → Bool) : List Char → Bool
  | [] => false
  | c :: rest =>
    isUpperAZ c &&
    (match rest.dropWhile isKeyChar with
     | d :: ds => d == '-' && !ds.isEmpty && ds.all dig
     | [] => false)

/-- The issue-key matcher under the narrow ASCII reading of `\d` (the
language the spec's sentence claims). -/
def matchIssueKey (cs : List Char) : Bool := matchIssueKeyWith isDigit09 cs

/-- The issue-key matcher with Python's Unicode `\d`. -/
def matchIssueKeyPy (cs : List Char) : Bool := matchIssueKeyWith isPyDigit cs

/-- Embeds `validate_project_key` (line 57): `re.match` against
`^[A-Z][A-Z0-9_]*$`, where `$` also matches just before one trailing
newline. -/
def validate_project_key (project : String) : Bool :=
  matchProjectKey project.data ||
    (project.data.getLast? == some '\n' && matchProjectKey project.data.dropLast)

/-- Embeds `validate_issue_key` (line 61): `re.match` against
`^[A-Z][A-Z0-9_]*-\d+$` with Unicode `\d`, where `$` also matches just
before one trailing newline. -/
def validate_issue_key (key : String) : Bool :=
  matchIssueKeyPy key.data ||
    (key.data.getLast? == some '\n' && matchIssueKeyPy key.data.dropLast)

/-- Modelled from the spec: a string matches `^[A-Z][A-Z0-9_]*$` iff it is
an uppercase letter followed by letters, digits or underscores. -/
def SpecProjectKey (s : String) : Prop :=
  ∃ c rest, s.data = c :: rest ∧ isUpperAZ c = true ∧
    ∀ x ∈ rest, isKeyChar x = true

/-- Modelled from the spec: a string matches `^[A-Z][A-Z0-9_]*-\d+$` iff it
decomposes as an uppercase letter, a run of letters/digits/underscores, a
dash, and a nonempty run of digits. -/
def SpecIssueKey (s : String) : Prop :=
  ∃ c mid ds, s.data = c :: (mid ++ '-' :: ds) ∧ isUpperAZ c = true ∧
    (∀ x ∈ mid, isKeyChar x = true) ∧ ds ≠ [] ∧
    ∀ x ∈ ds, isDigit09 x = true

/-- The issue-key decomposition with Python's Unicode digit class in
place of the ASCII reading. -/
def SpecIssueKeyNd (s : String) : Prop :=
  ∃ c mid ds, s.data = c :: (mid ++ '-' :: ds) ∧ isUpperAZ c = true ∧
    (∀ x ∈ mid, isKeyChar x = true) ∧ ds ≠ [] ∧
    ∀ x ∈ ds, isPyDigit x = true

/-- The language the source's `validate_project_key` actually decides:
the claimed pattern, or the same followed by one newline (Python `$`). -/
def PySpecProjectKey (s : String) : Prop :=
  SpecProjectKey s ∨ ∃ t, s = t ++ "\n" ∧ SpecProjectKey t

/-- The language the source's `validate_issue_key` actually decides:
Unicode digits after the dash, optionally one trailing newline. -/
def PySpecIssueKey (s : String) : Prop :=
  SpecIssueKeyNd s ∨ ∃ t, s = t ++ "\n" ∧ SpecIssueKeyNd t

/-- A dash is in neither character class. -/
theorem isKeyChar_dash : isKeyChar '-' = false := by decide

theorem dropWhile_all_append {p : Char → Bool} {mid : List Char}
    (rest : List Char) (hmid : ∀ x ∈ mid, p x = true) (hr : p '-' = false) :
    (mid ++ '-' :: rest).dropWhile p = '-' :: rest := by
  induction mid with
  | nil => simp [List.dropWhile, hr]
  | cons a l ih =>
    have ha : p a = true := hmid a (by simp)
    simp only [List.cons_append, List.dropWhile_cons, ha, if_true]
    exact ih fun x hx => hmid x (by simp [hx])

theorem matchProjectKey_iff (cs : List Char) :
    matchProjectKey cs = true ↔
      ∃ c rest, cs = c :: rest ∧ isUpperAZ c = true ∧
        ∀ x ∈ rest, isKeyChar x = true := by
  cases cs with
  | nil => simp [matchProjectKey]
  | cons c rest =>
    simp only [matchProjectKey, Bool.and_eq_true, List.all_eq_true]
    constructor
    · rintro ⟨hc, hall⟩
      exact ⟨c, rest, rfl, hc, hall⟩
    · rintro ⟨c', rest', heq, hc, hall⟩
      cases heq
      exact ⟨hc, hall⟩

theorem matchIssueKeyWith_iff (dig : Char → Bool) (cs : List Char) :
    matchIssueKeyWith dig cs = true ↔
      ∃ c mid ds, cs = c :: (mid ++ '-' :: ds) ∧ isUpperAZ c = true ∧
        (∀ x ∈ mid, isKeyChar x = true) ∧ ds ≠ [] ∧
        ∀ x ∈ ds, dig x = true := by
  cases cs with
  | nil => simp [matchIssueKeyWith]
  | cons c rest =>
    constructor
    · intro h
      simp only [matchIssueKeyWith, Bool.and_eq_true] at h
      obtain ⟨hc, hm⟩ := h
      cases hdw : rest.dropWhile isKeyChar with
      | nil => rw [hdw] at hm; exact absurd hm (by simp)
      | cons d ds =>
        rw [hdw] at hm
        simp only [Bool.and_eq_true, beq_iff_eq, Bool.not_eq_true',
          List.isEmpty_eq_false, List.all_eq_true] at hm
        obtain ⟨⟨hd, hne⟩, hds⟩ := hm
        subst hd
        refine ⟨c, rest.takeWhile isKeyChar, ds, ?_, hc, ?_, hne, hds⟩
        · have := List.takeWhile_append_dropWhile (p := isKeyChar) (l := rest)
          rw [hdw] at this
          rw [this]
        · intro x hx
          exact List.mem_takeWhile_imp hx
    · rintro ⟨c', mid, ds, heq, hc, hmid, hne, hds⟩
      cases heq
      simp only [matchIssueKeyWith, Bool.and_eq_true]
      refine ⟨hc, ?_⟩
      rw [dropWhile_all_append ds hmid isKeyChar_dash]
      simp only [Bool.and_eq_true, beq_self_eq_true, true_and,
        Bool.not_eq_true', List.isEmpty_eq_false, List.all_eq_true]
      exact ⟨hne, hds⟩

/-- Specialization of the matcher characterization to the ASCII reading
of `\d` (the spec's claimed language). -/
theorem matchIssueKey_iff (cs : List Char) :
    matchIssueKey cs = true ↔
      ∃ c mid ds, cs = c :: (mid ++ '-' :: ds) ∧ isUpperAZ c = true ∧
        (∀ x ∈ mid, isKeyChar x = true) ∧ ds ≠ [] ∧
        ∀ x ∈ ds, isDigit09 x = true :=
  matchIssueKeyWith_iff isDigit09 cs

/-- Splitting a string on one trailing newline, as Python's `$` does. -/
theorem getLast_newline_split {s : String}
    (h : s.data.getLast? = some '\n') :
    s = String.mk s.data.dropLast ++ "\n" := by
  have hne : s.data ≠ [] := by
    intro h0
    rw [h0] at h
    exact absurd h (by simp)
  have hl := List.dropLast_append_getLast hne
  have hg : s.data.getLast hne = '\n' := by
    rw [List.getLast?_eq_getLast s.data hne] at h
    exact Option.some.inj h
  apply String.ext
  show s.data = s.data.dropLast ++ ['\n']
  rw [← hg, hl]

/-- `validate_project_key` decides exactly the Python-semantics
language. -/
theorem validate_project_key_iff (s : String) :
    validate_project_key s = true ↔ PySpecProjectKey s := by
  unfold validate_project_key PySpecProjectKey
  rw [Bool.or_eq_true, Bool.and_eq_true]
  constructor
  · rintro (h | ⟨h1, h2⟩)
    · exact Or.inl ((matchProjectKey_iff s.data).mp h)
    · have h1' : s.data.getLast? = some '\n' := by simpa using h1
      exact Or.inr ⟨String.mk s.data.dropLast, getLast_newline_split h1',
        (matchProjectKey_iff _).mp h2⟩
  · rintro (h | ⟨t, ht, hP⟩)
    · exact Or.inl ((matchProjectKey_iff s.data).mpr h)
    · subst ht
      refine Or.inr ⟨?_, ?_⟩
      · have : (t ++ "\n").data = t.data ++ ['\n'] := String.data_append t "\n"
        rw [this]
        simp
      · have hd : (t ++ "\n").data.dropLast = t.data := by
          rw [String.data_append t "\n"]
          exact List.dropLast_concat
        rw [hd]
        exact (matchProjectKey_iff _).mpr hP

/-- `validate_issue_key` decides exactly the Python-semantics
language. -/
theorem validate_issue_key_iff (s : String) :
    validate_issue_key s = true ↔ PySpecIssueKey s := by
  unfold validate_issue_key PySpecIssueKey matchIssueKeyPy
  rw [Bool.or_eq_true, Bool.and_eq_true]
  constructor
  · rintro (h | ⟨h1, h2⟩)
    · exact Or.inl ((matchIssueKeyWith_iff isPyDigit s.data).mp h)
    · have h1' : s.data.getLast? = some '\n' := by simpa using h1
      exact Or.inr ⟨String.mk s.data.dropLast, getLast_newline_split h1',
        (matchIssueKeyWith_iff isPyDigit _).mp h2⟩
  · rintro (h | ⟨t, ht, hP⟩)
    · exact Or.inl ((matchIssueKeyWith_iff isPyDigit s.data).mpr h)
    · subst ht
      refine Or.inr ⟨?_, ?_⟩
      · have : (t ++ "\n").data = t.data ++ ['\n'] := String.data_append t "\n"
        rw [this]
        simp
      · have hd : (t ++ "\n").data.dropLast = t.data := by
          rw [String.data_append t "\n"]
          exact List.dropLast_concat
        rw [hd]
        exact (matchIssueKeyWith_iff isPyDigit _).mpr hP

/-! ## HTTP model

The shared `httpx.AsyncClient` is abstracted by an oracle answering the
i-th request a handler sends.  A handler's value is the pair of its textual
result (`Except.error` meaning an exception escaping to the dispatcher's
`except` clause) and the ordered list of HTTP requests it constructed. -/

/-- The environment configuration loaded at startup
(`JIRA_URL`, `JIRA_USERNAME`, `JIRA_API_TOKEN`), together with the local
filesystem view used by the attachment tools (`os.path.exists`). -/
structure Config where
  url : String
  username : String
  apiToken : String
  fileExists : String → Bool := fun _ => false

/-- An outgoing HTTP request as constructed by a handler. -/
structure HttpRequest where
  method : String
  url : String
  params : List (String × Json) := []
  jsonBody : Option Json := none
  rawData : Option String := none
  headers : List (String × String) := []
  authUser : String := ""
  authToken : String := ""

/-- A remote response: status code, parsed JSON body (`none` models a body
on which `response.json()` raises `JSONDecodeError`), and raw text. -/
structure HttpResponse where
  status : Nat
  jsonBody : Option Json := none
  text : String := ""

/-- Outcome of sending one request: a response, or a transport failure
(`httpx.RequestError`: timeout, DNS, connection refused). -/
inductive NetOutcome where
  | resp (r : HttpResponse)
  | reqError (msg : String)

/-- The network oracle: answers the i-th request sent during one handler
invocation. -/
abbrev Net := Nat → HttpRequest → NetOutcome

/-- Status code of an outcome, `none` on transport failure. -/
def statusOf : NetOutcome → Option Nat
  | .resp r => some r.status
  | .reqError _ => none

/-- An `mcp.types.TextContent` result item. -/
structure TextContent where
  type : String
  text : String

/-- The singleton `[TextContent(type="text", text=s)]` every handler
returns. -/
def txt (s : String) : List TextContent := [⟨"text", s⟩]

/-- Result of one handler invocation: the textual result (or an exception
escaping to the dispatcher) and the ordered trace of requests sent. -/
abbrev ToolOut := Except String (List TextContent) × List HttpRequest

/-- GET request without query parameters. -/
def getReq (cfg : Config) (u : String) : HttpRequest :=
  { method := "GET", url := u, authUser := cfg.username,
    authToken := cfg.apiToken }

/-- GET request with query parameters. -/
def getReqP (cfg : Config) (u : String) (ps : List (String × Json)) :
    HttpRequest :=
  { getReq cfg u with params := ps }

/-- POST request with a JSON body. -/
def postReq (cfg : Config) (u : String) (body : Json) : HttpRequest :=
  { method := "POST", url := u, jsonBody := some body,
    authUser := cfg.username, authToken := cfg.apiToken }

/-- PUT request with a JSON body. -/
def putReq (cfg : Config) (u : String) (body : Json) : HttpRequest :=
  { method := "PUT", url := u, jsonBody := some body,
    authUser := cfg.username, authToken := cfg.apiToken }

/-! ## Message strings

Handler-authored messages are copied verbatim from src/server.py; texts of
Python runtime exceptions (`TypeError`, `JSONDecodeError`) — which the
handlers and dispatcher only ever pass through `str(e)` — are abstracted by
fixed descriptive strings. -/

/-- The 401 branch text shared by the handlers that have one. -/
def authFailed401 : String :=
  "Error: Authentication failed (401). Generate new API token at https://id.atlassian.com/manage-profile/security/api-tokens"

/-- The 403 branch text shared by the handlers that have one. -/
def accessDenied403 : String :=
  "Error: Access denied (403). Check JIRA project permissions and API access."

/-- Generic non-2xx text of the handlers with explicit status branches. -/
def httpGeneric (code : Nat) : String :=
  "Error: HTTP " ++ toString code ++ ". Check JIRA URL and network connectivity."

/-- Generic non-2xx text of the handlers without explicit status branches
(`f"Error: HTTP {response.status_code} - {response.text}"`). -/
def httpWithBody (code : Nat) (body : String) : String :=
  "Error: HTTP " ++ toString code ++ " - " ++ body

/-- Transport-failure text (`f"Error: Connection failed - {str(e)}"`). -/
def connFailed (e : String) : String :=
  "Error: Connection failed - " ++ e

/-- Text returned where the source guards `response.json()` explicitly. -/
def invalidJsonResp : String := "Error: Invalid response from JIRA API"

/-- Abstracted message of a Python `TypeError` on a non-string value. -/
def typeErrorNotString : String := "TypeError: expected a string value"

/-- Abstracted message of a Python `TypeError` inside `min()`. -/
def typeErrorNotInt : String := "TypeError: unsupported operand type for min"

/-- Abstracted message of a Python `JSONDecodeError` where the source calls
`response.json()` without a guard (caught by the handler's `except`). -/
def jsonDecodeError : String := "JSONDecodeError: response body is not valid JSON"

/-- Python `str(KeyError('key'))` as produced by `created_issue["key"]` on
a body without that key. -/
def keyErrorKey : String := "'key'"

/-- Python `str.lower` restricted to ASCII (the source compares transition
names and the literal "null" case-insensitively; full Unicode case mapping
is abstracted). -/
def lowerChar (c : Char) : Char :=
  if 'A' ≤ c && c ≤ 'Z' then Char.ofNat (c.toNat + 32) else c

/-- ASCII lower-casing of a string. -/
def asciiLower (s : String) : String := String.mk (s.data.map lowerChar)

/-- Python `j == s` for a JSON value against a string: true only when `j`
is that very string (Python cross-type equality is false). -/
def jsonEqStr (j : Json) (s : String) : Bool :=
  match j with
  | .str x => x == s
  | _ => false

/-- Character not percent-encoded by `urllib.parse.quote(key, safe='')`. -/
def isUrlUnreserved (c : Char) : Bool :=
  ('A' ≤ c && c ≤ 'Z') || ('a' ≤ c && c ≤ 'z') || ('0' ≤ c && c ≤ '9') ||
    c = '_' || c = '.' || c = '-' || c = '~'

/-- Upper-case hexadecimal digit. -/
def hexDigit (n : Nat) : Char :=
  if n < 10 then Char.ofNat ('0'.toNat + n) else Char.ofNat ('A'.toNat + n - 10)

/-- Percent-encoding of one character (multi-byte UTF-8 encodings are
abstracted to the code point's low byte; `quote` is only ever applied to a
string that already passed `validate_issue_key`, on which it is the
identity). -/
def percentEncodeChar (c : Char) : String :=
  if isUrlUnreserved c then String.singleton c
  else
    let n := c.toNat % 256
    String.mk ['%', hexDigit (n / 16), hexDigit (n % 16)]

/-- Embeds `urllib.parse.quote(s, safe='')`. -/
def urlQuote (s : String) : String :=
  String.join (s.data.map percentEncodeChar)

/-- Claim C7 (corrected): `validate_project_key` and
`validate_issue_key` are pure functions deciding exactly the languages of
their patterns under Python `re.match` semantics — the claimed anchored
ASCII languages extended by one optional trailing newline (Python `$`)
and, for the issue key, by Unicode decimal digits (Python `\d`).  They
are not an exact match of the narrow ASCII-anchored reading the claim
states. -/
theorem C7_validators_match_patterns (s : String) :
    (validate_project_key s = true ↔ PySpecProjectKey s) ∧
    (validate_issue_key s = true ↔ PySpecIssueKey s) :=
  ⟨validate_project_key_iff s, validate_issue_key_iff s⟩

/-- Witness for C7 at concrete strings: "KW" is a valid project key,
"KW-3" a valid issue key, and the validators reject "kw-3". -/
theorem C7_validators_match_patterns_witness :
    PySpecProjectKey "KW" ∧ PySpecIssueKey "KW-3" ∧
      validate_issue_key "kw-3" = false :=
  ⟨(C7_validators_match_patterns "KW").1.mp (by decide),
   (C7_validators_match_patterns "KW-3").2.mp (by decide),
   by decide⟩

/-- Counterexample to claim C7 as stated: the source accepts "ABC\n",
"KW-1\n" and "KW-٣" although all three are outside the claimed regex
languages (the strict matchers reject them): Python `$` matches before a
trailing newline and Python `\d` matches Unicode digits. -/
theorem C7_counterexample :
    validate_project_key "ABC\n" = true ∧
      matchProjectKey "ABC\n".data = false ∧
    validate_issue_key "KW-1\n" = true ∧
      matchIssueKey "KW-1\n".data = false ∧
    validate_issue_key "KW-٣" = true ∧
      matchIssueKey "KW-٣".data = false :=
  ⟨by decide, by decide, by decide, by decide, by decide, by decide⟩

/-! ## Tool handlers

Each handler embeds the Python coroutine of the same name from
src/server.py.  Responses with status 200/201/204 whose shaping can raise
only inside a handler-level (or per-item) try/except are embedded with the
shaping total; the `response.json()` call is embedded through the
`Option Json` body (`none` = `JSONDecodeError`). -/

/-- Shaping of one issue into a story dict (lines 744-754). -/
def storyOfIssue (issue : Json) : Json :=
  let fields := issue.getD "fields" (Json.obj [])
  let desc0 := fields.getD "description" (Json.str "")
  let desc :=
    match desc0 with
    | Json.obj fs =>
      if (Json.obj fs).hasKey "content" then
        Json.str (pyStr ((Json.obj fs).getD "content" (Json.str "")))
      else Json.str (Json.dumps (Json.obj fs))
    | d => d
  Json.obj [("key", issue.getD "key" (Json.str "Unknown")),
    ("summary", fields.getD "summary" (Json.str "No summary")),
    ("status", (fields.getD "status" (Json.obj [])).getD "name" (Json.str "Unknown")),
    ("description", desc)]

/-- Request/response tail of `get_user_stories` (lines 723-777), shared by
its two JQL branches. -/
def getUserStoriesRequest (cfg : Config) (net : Net) (jql : String)
    (limit : Int) : ToolOut :=
  let req := getReqP cfg (cfg.url ++ "/rest/api/3/search")
    [("jql", Json.str jql), ("maxResults", Json.num limit)]
  match net 0 req with
  | .reqError e => (.ok (txt (connFailed e)), [req])
  | .resp r =>
    if r.status = 200 then
      match r.jsonBody with
      | none => (.ok (txt invalidJsonResp), [req])
      | some data =>
        let issues := (data.getD "issues" (Json.arr [])).asArr
        let stories := issues.map storyOfIssue
        (.ok (txt (Json.dumps (Json.obj [("stories", Json.arr stories)]))), [req])
    else if r.status = 401 then (.ok (txt authFailed401), [req])
    else if r.status = 403 then (.ok (txt accessDenied403), [req])
    else (.ok (txt (httpGeneric r.status)), [req])

/-- Embeds `get_user_stories` (lines 702-777). -/
def get_user_stories (cfg : Config) (args : Args) (net : Net) : ToolOut :=
  let project := Args.getD args "project" (Json.str "")
  match Args.getD args "limit" (Json.num 10) with
  | Json.num lreq =>
    let limit := min lreq 100
    if project.truthy then
      match project with
      | Json.str p =>
        if !validate_project_key p then
          (.ok (txt "Error: Invalid project key format"), [])
        else
          getUserStoriesRequest cfg net
            ("project = " ++ p ++ " AND issuetype = Story ORDER BY created DESC")
            limit
      | _ => (.error typeErrorNotString, [])
    else
      getUserStoriesRequest cfg net "issuetype = Story ORDER BY created DESC" limit
  | _ => (.error typeErrorNotInt, [])

/-- Shaping of the issue payload of `get_issue` (lines 809-825). -/
def getIssueShape (issue : Json) : Json :=
  let fields := issue.getD "fields" (Json.obj [])
  let assignee := fields.getD "assignee" Json.null
  let assigneeName :=
    if assignee.truthy then assignee.getD "displayName" (Json.str "Unassigned")
    else Json.str "Unassigned"
  let desc0 := fields.getD "description" (Json.str "")
  let desc :=
    match desc0 with
    | Json.obj fs =>
      if (Json.obj fs).hasKey "content" then
        Json.str (pyStr ((Json.obj fs).getD "content" (Json.str "")))
      else Json.str (Json.dumps (Json.obj fs))
    | d => d
  Json.obj [("key", issue.getD "key" (Json.str "Unknown")),
    ("summary", fields.getD "summary" (Json.str "No summary")),
    ("status", (fields.getD "status" (Json.obj [])).getD "name" (Json.str "Unknown")),
    ("description", desc),
    ("assignee", assigneeName),
    ("created", fields.getD "created" (Json.str "Unknown"))]

/-- Embeds `get_issue` (lines 779-851). -/
def get_issue (cfg : Config) (args : Args) (net : Net) : ToolOut :=
  let key := Args.get args "key"
  if !key.truthy then
    (.ok (txt "Error: Missing required 'key' parameter"), [])
  else
    match key with
    | Json.str k =>
      if !validate_issue_key k then
        (.ok (txt "Error: Invalid issue key format"), [])
      else
        let req := getReq cfg (cfg.url ++ "/rest/api/3/issue/" ++ urlQuote k)
        match net 0 req with
        | .reqError e => (.ok (txt (connFailed e)), [req])
        | .resp r =>
          if r.status = 200 then
            match r.jsonBody with
            | none => (.ok (txt invalidJsonResp), [req])
            | some issue =>
              (.ok (txt (Json.dumps (getIssueShape issue))), [req])
          else if r.status = 404 then
            (.ok (txt ("Error: Issue '" ++ k ++ "' not found. Check issue key and permissions.")), [req])
          else if r.status = 401 then (.ok (txt authFailed401), [req])
          else if r.status = 403 then (.ok (txt accessDenied403), [req])
          else (.ok (txt (httpGeneric r.status)), [req])
    | _ => (.error typeErrorNotString, [])

/-- Shaping of one issue of `search_issues` (lines 887-894). -/
def searchIssueShape (issue : Json) : Json :=
  let fields := issue.getD "fields" (Json.obj [])
  Json.obj [("key", issue.getD "key" (Json.str "Unknown")),
    ("summary", fields.getD "summary" (Json.str "No summary")),
    ("status", (fields.getD "status" (Json.obj [])).getD "name" (Json.str "Unknown")),
    ("issueType", (fields.getD "issuetype" (Json.obj [])).getD "name" (Json.str "Unknown")),
    ("priority",
      if (fields.getD "priority" Json.null).truthy then
        (fields.getD "priority" (Json.obj [])).getD "name" (Json.str "Unknown")
      else Json.str "None"),
    ("assignee",
      if (fields.getD "assignee" Json.null).truthy then
        (fields.getD "assignee" (Json.obj [])).getD "displayName" (Json.str "Unassigned")
      else Json.str "Unassigned")]

/-- Embeds `search_issues` (lines 853-921). -/
def search_issues (cfg : Config) (args : Args) (net : Net) : ToolOut :=
  let jql := Args.get args "jql"
  match Args.getD args "limit" (Json.num 50) with
  | Json.num lreq =>
    let limit := min lreq 100
    if !jql.truthy then
      (.ok (txt "Error: Missing required 'jql' parameter"), [])
    else
      match jql with
      | Json.str q =>
        let req := getReqP cfg (cfg.url ++ "/rest/api/3/search")
          [("jql", Json.str q), ("maxResults", Json.num limit)]
        match net 0 req with
        | .reqError e => (.ok (txt (connFailed e)), [req])
        | .resp r =>
          if r.status = 200 then
            match r.jsonBody with
            | none => (.ok (txt invalidJsonResp), [req])
            | some data =>
              let issues := ((data.getD "issues" (Json.arr [])).asArr).map searchIssueShape
              (.ok (txt (Json.dumps (Json.obj [("issues", Json.arr issues)]))), [req])
          else if r.status = 400 then
            (.ok (txt "Error: Invalid JQL query syntax. Check your query and try again."), [req])
          else if r.status = 401 then (.ok (txt authFailed401), [req])
          else if r.status = 403 then (.ok (txt accessDenied403), [req])
          else (.ok (txt (httpGeneric r.status)), [req])
      | _ => (.error typeErrorNotString, [])
  | _ => (.error typeErrorNotInt, [])

/-- Ordered counting dict update (`counts[k] = counts.get(k, 0) + 1`,
lines 958 and 962). -/
def bumpCount : List (String × Json) → String → List (String × Json)
  | [], k => [(k, Json.num 1)]
  | (k', v) :: rest, k =>
    if k' = k then
      (k', Json.num ((match v with | Json.num n => n | _ => 0) + 1)) :: rest
    else (k', v) :: bumpCount rest k

/-- The `fields.get(f, {}).get("name", "Unknown")` dict key used by the
stats counting (non-string name payloads are keyed by their
serialization). -/
def nameKey (fields : Json) (f : String) : String :=
  pyStr ((fields.getD f (Json.obj [])).getD "name" (Json.str "Unknown"))

/-- Counting loop of `get_project_stats` (lines 950-962). -/
def projectStatsCounts (issues : List Json) :
    List (String × Json) × List (String × Json) :=
  issues.foldl
    (fun acc issue =>
      let fields := issue.getD "fields" (Json.obj [])
      (bumpCount acc.1 (nameKey fields "status"),
       bumpCount acc.2 (nameKey fields "issuetype")))
    ([], [])

/-- Embeds `get_project_stats` (lines 923-985). -/
def get_project_stats (cfg : Config) (args : Args) (net : Net) : ToolOut :=
  let project := Args.get args "project"
  if !project.truthy then
    (.ok (txt "Error: Missing required 'project' parameter"), [])
  else
    match project with
    | Json.str p =>
      if !validate_project_key p then
        (.ok (txt "Error: Invalid project key format"), [])
      else
        let req := getReqP cfg (cfg.url ++ "/rest/api/3/search")
          [("jql", Json.str ("project = " ++ p)), ("maxResults", Json.num 1000),
           ("fields", Json.str "status,issuetype")]
        match net 0 req with
        | .reqError e => (.ok (txt (connFailed e)), [req])
        | .resp r =>
          if r.status = 200 then
            match r.jsonBody with
            | none => (.ok (txt ("Error: " ++ jsonDecodeError)), [req])
            | some data =>
              let issues := (data.getD "issues" (Json.arr [])).asArr
              let counts := projectStatsCounts issues
              let stats := Json.obj [("project", Json.str p),
                ("totalIssues", Json.num issues.length),
                ("issuesByStatus", Json.obj counts.1),
                ("issuesByType", Json.obj counts.2)]
              (.ok (txt (Json.dumps stats)), [req])
          else if r.status = 401 then (.ok (txt authFailed401), [req])
          else if r.status = 403 then (.ok (txt accessDenied403), [req])
          else (.ok (txt (httpGeneric r.status)), [req])
    | _ => (.error typeErrorNotString, [])

/-- Shaping of one project of `get_projects` (lines 3204-3209). -/
def projectShape (project : Json) : Json :=
  Json.obj [("key", project.getD "key" (Json.str "Unknown")),
    ("name", project.getD "name" (Json.str "No name")),
    ("projectTypeKey", project.getD "projectTypeKey" (Json.str "Unknown")),
    ("lead",
      if (project.getD "lead" Json.null).truthy then
        (project.getD "lead" (Json.obj [])).getD "displayName" (Json.str "Unknown")
      else Json.str "Unknown")]

/-- Embeds `get_projects` (lines 3175-3228). -/
def get_projects (cfg : Config) (_args : Args) (net : Net) : ToolOut :=
  let req := getReq cfg (cfg.url ++ "/rest/api/3/project")
  match net 0 req with
  | .reqError e => (.ok (txt (connFailed e)), [req])
  | .resp r =>
    if r.status = 200 then
      match r.jsonBody with
      | none => (.ok (txt invalidJsonResp), [req])
      | some data =>
        let projects := (data.asArr).map projectShape
        (.ok (txt (Json.dumps (Json.obj [("projects", Json.arr projects)]))), [req])
    else if r.status = 401 then (.ok (txt authFailed401), [req])
    else if r.status = 403 then (.ok (txt accessDenied403), [req])
    else (.ok (txt (httpGeneric r.status)), [req])

/-- Shaping of one issue of `get_recent_issues` (lines 1012-1021). -/
def recentIssueShape (issue : Json) : Json :=
  let fields := issue.getD "fields" (Json.obj [])
  Json.obj [("key", issue.getD "key" (Json.str "Unknown")),
    ("summary", fields.getD "summary" (Json.str "No summary")),
    ("status", (fields.getD "status" (Json.obj [])).getD "name" (Json.str "Unknown")),
    ("issueType", (fields.getD "issuetype" (Json.obj [])).getD "name" (Json.str "Unknown")),
    ("updated", fields.getD "updated" (Json.str "Unknown")),
    ("created", fields.getD "created" (Json.str "Unknown")),
    ("assignee",
      if (fields.getD "assignee" Json.null).truthy then
        (fields.getD "assignee" (Json.obj [])).getD "displayName" (Json.str "Unassigned")
      else Json.str "Unassigned")]

/-- Embeds `get_recent_issues` (lines 987-1041).  The handler reads `days`
(default 7) and interpolates it into the JQL without any range check. -/
def get_recent_issues (cfg : Config) (args : Args) (net : Net) : ToolOut :=
  let days := Args.getD args "days" (Json.num 7)
  match Args.getD args "limit" (Json.num 20) with
  | Json.num lreq =>
    let limit := min lreq 100
    let jql := "updated >= -" ++ pyStr days ++ "d ORDER BY updated DESC"
    let req := getReqP cfg (cfg.url ++ "/rest/api/3/search")
      [("jql", Json.str jql), ("maxResults", Json.num limit)]
    match net 0 req with
    | .reqError e => (.ok (txt (connFailed e)), [req])
    | .resp r =>
      if r.status = 200 then
        match r.jsonBody with
        | none => (.ok (txt ("Error: " ++ jsonDecodeError)), [req])
        | some data =>
          let issues := ((data.getD "issues" (Json.arr [])).asArr).map recentIssueShape
          (.ok (txt (Json.dumps (Json.obj [("issues", Json.arr issues)]))), [req])
      else if r.status = 401 then (.ok (txt authFailed401), [req])
      else if r.status = 403 then (.ok (txt accessDenied403), [req])
      else (.ok (txt (httpGeneric r.status)), [req])
  | _ => (.error typeErrorNotInt, [])

/-- Shaping of one issue of `get_issues_by_assignee` (lines 1071-1078). -/
def assigneeIssueShape (issue : Json) : Json :=
  let fields := issue.getD "fields" (Json.obj [])
  Json.obj [("key", issue.getD "key" (Json.str "Unknown")),
    ("summary", fields.getD "summary" (Json.str "No summary")),
    ("status", (fields.getD "status" (Json.obj [])).getD "name" (Json.str "Unknown")),
    ("issueType", (fields.getD "issuetype" (Json.obj [])).getD "name" (Json.str "Unknown")),
    ("priority",
      if (fields.getD "priority" Json.null).truthy then
        (fields.getD "priority" (Json.obj [])).getD "name" (Json.str "None")
      else Json.str "None")]

/-- Embeds `get_issues_by_assignee` (lines 1043-1100). -/
def get_issues_by_assignee (cfg : Config) (args : Args) (net : Net) : ToolOut :=
  let assignee := Args.get args "assignee"
  match Args.getD args "limit" (Json.num 50) with
  | Json.num lreq =>
    let limit := min lreq 100
    if !assignee.truthy then
      (.ok (txt "Error: Missing required 'assignee' parameter"), [])
    else
      let jql := "assignee = " ++ pyStr assignee ++ " ORDER BY updated DESC"
      let req := getReqP cfg (cfg.url ++ "/rest/api/3/search")
        [("jql", Json.str jql), ("maxResults", Json.num limit)]
      match net 0 req with
      | .reqError e => (.ok (txt (connFailed e)), [req])
      | .resp r =>
        if r.status = 200 then
          match r.jsonBody with
          | none => (.ok (txt ("Error: " ++ jsonDecodeError)), [req])
          | some data =>
            let issues := ((data.getD "issues" (Json.arr [])).asArr).map assigneeIssueShape
            (.ok (txt (Json.dumps (Json.obj [("issues", Json.arr issues)]))), [req])
        else if r.status = 400 then
          (.ok (txt "Error: Invalid assignee or JQL query"), [req])
        else if r.status = 401 then (.ok (txt authFailed401), [req])
        else if r.status = 403 then (.ok (txt accessDenied403), [req])
        else (.ok (txt (httpGeneric r.status)), [req])
  | _ => (.error typeErrorNotInt, [])

/-- The Atlassian Document Format paragraph the source wraps plain text
into (lines 1120-1134 and analogues). -/
def adfDoc (text : Json) : Json :=
  Json.obj [("type", Json.str "doc"), ("version", Json.num 1),
    ("content", Json.arr [Json.obj [("type", Json.str "paragraph"),
      ("content", Json.arr [Json.obj [("type", Json.str "text"),
        ("text", text)]])]])]

/-- The detail lines shared by the `create_issue`/`update_issue` success
texts (lines 1176-1180 and 1272-1276). -/
def issueDetailLines (fields : Json) : String :=
  "Type: " ++ pyStr ((fields.getD "issuetype" (Json.obj [])).getD "name" (Json.str "Unknown")) ++ "\n" ++
  "Status: " ++ pyStr ((fields.getD "status" (Json.obj [])).getD "name" (Json.str "Unknown")) ++ "\n" ++
  "Priority: " ++ pyStr ((fields.getD "priority" (Json.obj [])).getD "name" (Json.str "Unknown")) ++ "\n" ++
  (if (fields.getD "assignee" Json.null).truthy then
    "Assignee: " ++ pyStr ((fields.getD "assignee" (Json.obj [])).getD "displayName" (Json.str "Unknown")) ++ "\n"
   else "")

/-- Embeds `create_issue` (lines 1102-1202). -/
def create_issue (cfg : Config) (args : Args) (net : Net) : ToolOut :=
  let project := Args.get args "project"
  let summary := Args.get args "summary"
  let description := Args.getD args "description" (Json.str "")
  let issue_type := Args.getD args "issue_type" (Json.str "Task")
  let priority := Args.getD args "priority" (Json.str "Medium")
  let assignee := Args.getD args "assignee" (Json.str "")
  if !project.truthy || !summary.truthy then
    (.ok (txt "Error: Missing required parameters 'project' and 'summary'"), [])
  else
    match project with
    | Json.str p =>
      if !validate_project_key p then
        (.ok (txt "Error: Invalid project key format"), [])
      else
        let fields0 : List (String × Json) :=
          [("project", Json.obj [("key", Json.str p)]),
           ("summary", summary),
           ("issuetype", Json.obj [("name", issue_type)]),
           ("priority", Json.obj [("name", priority)])]
        let fields1 :=
          if description.truthy then fields0 ++ [("description", adfDoc description)]
          else fields0
        let fields2 :=
          if assignee.truthy then fields1 ++ [("assignee", Json.obj [("name", assignee)])]
          else fields1
        let req := postReq cfg (cfg.url ++ "/rest/api/3/issue")
          (Json.obj [("fields", Json.obj fields2)])
        match net 0 req with
        | .reqError e => (.ok (txt (connFailed e)), [req])
        | .resp r =>
          if r.status = 201 then
            match r.jsonBody with
            | none => (.ok (txt ("Error: " ++ jsonDecodeError)), [req])
            | some created =>
              if !created.hasKey "key" then
                (.ok (txt ("Error: " ++ keyErrorKey)), [req])
              else
                let issue_key := pyStr (created.getD "key" Json.null)
                let dreq := getReq cfg (cfg.url ++ "/rest/api/3/issue/" ++ issue_key)
                match net 1 dreq with
                | .reqError e => (.ok (txt (connFailed e)), [req, dreq])
                | .resp dr =>
                  if dr.status = 200 then
                    match dr.jsonBody with
                    | none => (.ok (txt ("Error: " ++ jsonDecodeError)), [req, dreq])
                    | some issue =>
                      let fields := issue.getD "fields" (Json.obj [])
                      let result :=
                        "✅ Created issue " ++ issue_key ++ ": " ++
                          pyStr (fields.getD "summary" (Json.str "No summary")) ++ "\n" ++
                        issueDetailLines fields ++
                        "URL: " ++ cfg.url ++ "/browse/" ++ issue_key
                      (.ok (txt result), [req, dreq])
                  else
                    (.ok (txt ("Issue created (" ++ issue_key ++ ") but failed to fetch details")), [req, dreq])
          else if r.status = 400 then
            match r.jsonBody with
            | none => (.ok (txt ("Error: " ++ jsonDecodeError)), [req])
            | some errData =>
              (.ok (txt ("Invalid issue data: " ++ pyStr (errData.getD "errors" (Json.str r.text)))), [req])
          else if r.status = 401 then (.ok (txt authFailed401), [req])
          else if r.status = 403 then (.ok (txt accessDenied403), [req])
          else (.ok (txt (httpWithBody r.status r.text)), [req])
    | _ => (.error typeErrorNotString, [])

/-- Embeds `update_issue` (lines 1204-1300). -/
def update_issue (cfg : Config) (args : Args) (net : Net) : ToolOut :=
  let key := Args.get args "key"
  let summary := Args.get args "summary"
  let description := Args.get args "description"
  let priority := Args.get args "priority"
  let assignee := Args.get args "assignee"
  if !key.truthy then
    (.ok (txt "Error: Missing required parameter 'key'"), [])
  else
    match key with
    | Json.str k =>
      if !validate_issue_key k then
        (.ok (txt "Error: Invalid issue key format"), [])
      else
        let fields0 : List (String × Json) :=
          if summary.truthy then [("summary", summary)] else []
        let fields1 :=
          if description.truthy then fields0 ++ [("description", adfDoc description)]
          else fields0
        let fields2 :=
          if priority.truthy then fields1 ++ [("priority", Json.obj [("name", priority)])]
          else fields1
        let fields3 :=
          if assignee.truthy then fields2 ++ [("assignee", Json.obj [("name", assignee)])]
          else fields2
        if fields3.isEmpty then
          (.ok (txt "Error: No fields provided to update"), [])
        else
          let req := putReq cfg (cfg.url ++ "/rest/api/3/issue/" ++ k)
            (Json.obj [("fields", Json.obj fields3)])
          match net 0 req with
          | .reqError e => (.ok (txt (connFailed e)), [req])
          | .resp r =>
            if r.status = 204 then
              let dreq := getReq cfg (cfg.url ++ "/rest/api/3/issue/" ++ k)
              match net 1 dreq with
              | .reqError e => (.ok (txt (connFailed e)), [req, dreq])
              | .resp dr =>
                if dr.status = 200 then
                  match dr.jsonBody with
                  | none => (.ok (txt ("Error: " ++ jsonDecodeError)), [req, dreq])
                  | some issue =>
                    let fields := issue.getD "fields" (Json.obj [])
                    let result :=
                      "✅ Updated issue " ++ k ++ ": " ++
                        pyStr (fields.getD "summary" (Json.str "No summary")) ++ "\n" ++
                      issueDetailLines fields ++
                      "URL: " ++ cfg.url ++ "/browse/" ++ k
                    (.ok (txt result), [req, dreq])
                else
                  (.ok (txt "Issue updated but failed to fetch details"), [req, dreq])
            else if r.status = 400 then
              match r.jsonBody with
              | none => (.ok (txt ("Error: " ++ jsonDecodeError)), [req])
              | some errData =>
                (.ok (txt ("Invalid update data: " ++ pyStr (errData.getD "errors" (Json.str r.text)))), [req])
            else if r.status = 404 then
              (.ok (txt ("Error: Issue '" ++ k ++ "' not found. Check issue key and permissions.")), [req])
            else if r.status = 401 then (.ok (txt authFailed401), [req])
            else if r.status = 403 then (.ok (txt accessDenied403), [req])
            else (.ok (txt (httpWithBody r.status r.text)), [req])
    | _ => (.error typeErrorNotString, [])

/-- All-strings view of a JSON array (what `",".join(lst)` requires). -/
def allStrings : List Json → Option (List String)
  | [] => some []
  | Json.str s :: rest => (allStrings rest).map (s :: ·)
  | _ => none

/-- Python iteration of `",".join(x)`'s argument (also of
`for field in fields`): a list yields its elements, which must all be
strings; a string yields its characters as one-character strings;
anything else raises `TypeError`. -/
def pyIterStrings : Json → Option (List String)
  | .arr l => allStrings l
  | .str s => some (s.data.map (fun c => String.mk [c]))
  | _ => none

/-- Dict assignment `d[k] = v` on an ordered association list. -/
def setField : List (String × Json) → String → Json → List (String × Json)
  | [], k, v => [(k, v)]
  | (k', v') :: rest, k, v =>
    if k' = k then (k, v) :: rest else (k', v') :: setField rest k v

/-- Per-field shaping of `advanced_jql_search` (lines 1359-1368). -/
def advFieldVal (fieldsData : Json) (field : String) : Json :=
  let v := fieldsData.getD field Json.null
  if field == "assignee" && v.truthy then v.getD "displayName" (Json.str "Unknown")
  else if (field == "status" || field == "priority" || field == "issuetype") && v.truthy then
    v.getD "name" (Json.str "Unknown")
  else v

/-- Shaping of one issue of `advanced_jql_search` (lines 1350-1385). -/
def advIssueShape (fs es : List String) (issue : Json) : Json :=
  let base : List (String × Json) :=
    [("key", issue.getD "key" (Json.str "Unknown")),
     ("self", issue.getD "self" (Json.str ""))]
  let fieldsData := issue.getD "fields" (Json.obj [])
  let withFields :=
    if fs.isEmpty then
      base ++ [("summary", fieldsData.getD "summary" (Json.str "No summary")),
        ("status", (fieldsData.getD "status" (Json.obj [])).getD "name" (Json.str "Unknown")),
        ("issueType", (fieldsData.getD "issuetype" (Json.obj [])).getD "name" (Json.str "Unknown")),
        ("priority",
          if (fieldsData.getD "priority" Json.null).truthy then
            (fieldsData.getD "priority" (Json.obj [])).getD "name" (Json.str "None")
          else Json.str "None"),
        ("assignee",
          if (fieldsData.getD "assignee" Json.null).truthy then
            (fieldsData.getD "assignee" (Json.obj [])).getD "displayName" (Json.str "Unassigned")
          else Json.str "Unassigned")]
    else
      fs.foldl
        (fun acc field =>
          if fieldsData.hasKey field then setField acc field (advFieldVal fieldsData field)
          else setField acc field Json.null)
        base
  let withExpand :=
    es.foldl
      (fun acc exp =>
        if issue.hasKey exp then setField acc exp (issue.getD exp Json.null) else acc)
      withFields
  Json.obj withExpand

/-- Embeds `advanced_jql_search` (lines 1302-1418). -/
def advanced_jql_search (cfg : Config) (args : Args) (net : Net) : ToolOut :=
  let jql := Args.get args "jql"
  let fields := Args.getD args "fields" (Json.arr [])
  let expand := Args.getD args "expand" (Json.arr [])
  match Args.getD args "limit" (Json.num 50) with
  | Json.num lreq =>
    let limit := min lreq 100
    if !jql.truthy then
      (.ok (txt "Error: Missing required 'jql' parameter"), [])
    else
      match jql with
      | Json.str q =>
        let params0 : List (String × Json) :=
          [("jql", Json.str q), ("maxResults", Json.num limit)]
        match (if fields.truthy then pyIterStrings fields else some []) with
        | none => (.error typeErrorNotString, [])
        | some fs =>
          let params1 :=
            if fields.truthy then params0 ++ [("fields", Json.str (String.intercalate "," fs))]
            else params0
          match (if expand.truthy then pyIterStrings expand else some []) with
          | none => (.error typeErrorNotString, [])
          | some es =>
            let params2 :=
              if expand.truthy then params1 ++ [("expand", Json.str (String.intercalate "," es))]
              else params1
            let req := getReqP cfg (cfg.url ++ "/rest/api/3/search") params2
            match net 0 req with
            | .reqError e => (.ok (txt (connFailed e)), [req])
            | .resp r =>
              if r.status = 200 then
                match r.jsonBody with
                | none => (.ok (txt invalidJsonResp), [req])
                | some data =>
                  let issues := ((data.getD "issues" (Json.arr [])).asArr).map (advIssueShape fs es)
                  let result := Json.obj [("total", data.getD "total" (Json.num 0)),
                    ("maxResults", Json.num limit),
                    ("startAt", data.getD "startAt" (Json.num 0)),
                    ("issues", Json.arr issues)]
                  (.ok (txt (Json.dumps result)), [req])
              else if r.status = 400 then
                (.ok (txt "Error: Invalid JQL query syntax. Check your query and try again."), [req])
              else if r.status = 401 then (.ok (txt authFailed401), [req])
              else if r.status = 403 then (.ok (txt accessDenied403), [req])
              else (.ok (txt (httpGeneric r.status)), [req])
      | _ => (.error typeErrorNotString, [])
  | _ => (.error typeErrorNotInt, [])

/-- Abstracted error for iterating a non-list `keys` argument (Python
would iterate e.g. a string character-wise; such arguments are outside the
model). -/
def typeErrorIter : String := "TypeError: keys must be a list"

/-- The up-front validation loop of the bulk handlers
(`for key in keys: if not validate_issue_key(key): return ...`): the first
invalid key, an exception on a non-string element, or success. -/
def firstInvalidKey : List Json → Except String (Option String)
  | [] => .ok none
  | Json.str k :: rest =>
    if !validate_issue_key k then .ok (some k) else firstInvalidKey rest
  | _ :: _ => .error typeErrorNotString

/-- The transition-matching loop (lines 1449-1453 and 1861-1865): first
transition whose name matches case-insensitively or whose id equals the
requested string, returning its id.  A non-string `name` (on which Python
`.lower()` would raise, caught by the enclosing try) is abstracted to a
non-match. -/
def findTransition : List Json → String → Option Json
  | [], _ => none
  | t :: rest, tr =>
    let name := match t.getD "name" (Json.str "") with | Json.str s => s | _ => ""
    if asciiLower name == asciiLower tr || jsonEqStr (t.getD "id" Json.null) tr then
      some (t.getD "id" Json.null)
    else findTransition rest tr

/-- The names of the available transitions (line 1456). -/
def transitionNames (ts : List Json) : List Json :=
  ts.map (fun t => t.getD "name" Json.null)

/-- Embeds `transition_issue` (lines 1420-1496). -/
def transition_issue (cfg : Config) (args : Args) (net : Net) : ToolOut :=
  let key := Args.get args "key"
  let transition := Args.get args "transition"
  if !key.truthy || !transition.truthy then
    (.ok (txt "Error: Missing required parameters 'key' and 'transition'"), [])
  else
    match key with
    | Json.str k =>
      if !validate_issue_key k then
        (.ok (txt "Error: Invalid issue key format"), [])
      else
        let reqT := getReq cfg (cfg.url ++ "/rest/api/3/issue/" ++ k ++ "/transitions")
        match net 0 reqT with
        | .reqError e => (.ok (txt (connFailed e)), [reqT])
        | .resp r =>
          if r.status ≠ 200 then
            (.ok (txt ("Error: Failed to get transitions - " ++ toString r.status)), [reqT])
          else
            match r.jsonBody with
            | none => (.ok (txt ("Error: " ++ jsonDecodeError)), [reqT])
            | some data =>
              match transition with
              | Json.str t =>
                let ts := (data.getD "transitions" (Json.arr [])).asArr
                let proceed (tid : Json) : ToolOut :=
                  let reqP := postReq cfg (cfg.url ++ "/rest/api/3/issue/" ++ k ++ "/transitions")
                    (Json.obj [("transition", Json.obj [("id", tid)])])
                  match net 1 reqP with
                  | .reqError e => (.ok (txt (connFailed e)), [reqT, reqP])
                  | .resp pr =>
                    if pr.status = 204 then
                      let dreq := getReq cfg (cfg.url ++ "/rest/api/3/issue/" ++ k)
                      match net 2 dreq with
                      | .reqError e => (.ok (txt (connFailed e)), [reqT, reqP, dreq])
                      | .resp dr =>
                        if dr.status = 200 then
                          match dr.jsonBody with
                          | none => (.ok (txt ("Error: " ++ jsonDecodeError)), [reqT, reqP, dreq])
                          | some issue =>
                            let fields := issue.getD "fields" (Json.obj [])
                            let result :=
                              "✅ Transitioned issue " ++ k ++ " to " ++
                                pyStr ((fields.getD "status" (Json.obj [])).getD "name" (Json.str "Unknown")) ++ "\n" ++
                              "Summary: " ++ pyStr (fields.getD "summary" (Json.str "No summary")) ++ "\n" ++
                              "URL: " ++ cfg.url ++ "/browse/" ++ k
                            (.ok (txt result), [reqT, reqP, dreq])
                        else
                          (.ok (txt "Issue transitioned but failed to fetch details"), [reqT, reqP, dreq])
                    else (.ok (txt (httpWithBody pr.status pr.text)), [reqT, reqP])
                let notAvailable : ToolOut :=
                  match allStrings (transitionNames ts) with
                  | some names =>
                    (.ok (txt ("Error: Transition '" ++ t ++ "' not available. Available: " ++
                      String.intercalate ", " names)), [reqT])
                  | none => (.ok (txt ("Error: " ++ typeErrorNotString)), [reqT])
                match findTransition ts t with
                | none => notAvailable
                | some tid => if !tid.truthy then notAvailable else proceed tid
              | _ => (.ok (txt ("Error: " ++ typeErrorNotString)), [reqT])
    | _ => (.error typeErrorNotString, [])

/-- Embeds `get_transitions` (lines 1498-1540). -/
def get_transitions (cfg : Config) (args : Args) (net : Net) : ToolOut :=
  let key := Args.get args "key"
  if !key.truthy then
    (.ok (txt "Error: Missing required parameter 'key'"), [])
  else
    match key with
    | Json.str k =>
      if !validate_issue_key k then
        (.ok (txt "Error: Invalid issue key format"), [])
      else
        let req := getReq cfg (cfg.url ++ "/rest/api/3/issue/" ++ k ++ "/transitions")
        match net 0 req with
        | .reqError e => (.ok (txt (connFailed e)), [req])
        | .resp r =>
          if r.status = 200 then
            match r.jsonBody with
            | none => (.ok (txt ("Error: " ++ jsonDecodeError)), [req])
            | some data =>
              let ts := (data.getD "transitions" (Json.arr [])).asArr
              let shaped := ts.map (fun t =>
                Json.obj [("id", t.getD "id" Json.null),
                  ("name", t.getD "name" Json.null),
                  ("to", (t.getD "to" (Json.obj [])).getD "name" Json.null)])
              let result := Json.obj [("issue", Json.str k),
                ("availableTransitions", Json.arr shaped)]
              (.ok (txt (Json.dumps result)), [req])
          else (.ok (txt (httpWithBody r.status r.text)), [req])
    | _ => (.error typeErrorNotString, [])

/-- Embeds `add_comment` (lines 1542-1598). -/
def add_comment (cfg : Config) (args : Args) (net : Net) : ToolOut :=
  let key := Args.get args "key"
  let comment := Args.get args "comment"
  if !key.truthy || !comment.truthy then
    (.ok (txt "Error: Missing required parameters 'key' and 'comment'"), [])
  else
    match key with
    | Json.str k =>
      if !validate_issue_key k then
        (.ok (txt "Error: Invalid issue key format"), [])
      else
        let req := postReq cfg (cfg.url ++ "/rest/api/3/issue/" ++ k ++ "/comment")
          (Json.obj [("body", adfDoc comment)])
        match net 0 req with
        | .reqError e => (.ok (txt (connFailed e)), [req])
        | .resp r =>
          if r.status = 201 then
            match r.jsonBody with
            | none => (.ok (txt ("Error: " ++ jsonDecodeError)), [req])
            | some cr =>
              let result :=
                "✅ Added comment to issue " ++ k ++ "\n" ++
                "Comment ID: " ++ pyStr (cr.getD "id" Json.null) ++ "\n" ++
                "Author: " ++ pyStr ((cr.getD "author" (Json.obj [])).getD "displayName" (Json.str "Unknown")) ++ "\n" ++
                "URL: " ++ cfg.url ++ "/browse/" ++ k
              (.ok (txt result), [req])
          else (.ok (txt (httpWithBody r.status r.text)), [req])
    | _ => (.error typeErrorNotString, [])

/-- Embeds `list_attachments` (lines 1600-1647). -/
def list_attachments (cfg : Config) (args : Args) (net : Net) : ToolOut :=
  let key := Args.get args "key"
  if !key.truthy then
    (.ok (txt "Error: Missing required parameter 'key'"), [])
  else
    match key with
    | Json.str k =>
      if !validate_issue_key k then
        (.ok (txt "Error: Invalid issue key format"), [])
      else
        let req := getReq cfg (cfg.url ++ "/rest/api/3/issue/" ++ k ++ "?fields=attachment")
        match net 0 req with
        | .reqError e => (.ok (txt (connFailed e)), [req])
        | .resp r =>
          if r.status = 200 then
            match r.jsonBody with
            | none => (.ok (txt ("Error: " ++ jsonDecodeError)), [req])
            | some data =>
              let atts := ((data.getD "fields" (Json.obj [])).getD "attachment" (Json.arr [])).asArr
              let shaped := atts.map (fun att =>
                Json.obj [("id", att.getD "id" Json.null),
                  ("filename", att.getD "filename" Json.null),
                  ("size", att.getD "size" Json.null),
                  ("mimeType", att.getD "mimeType" Json.null),
                  ("created", att.getD "created" Json.null),
                  ("author", (att.getD "author" (Json.obj [])).getD "displayName" Json.null),
                  ("content", att.getD "content" Json.null)])
              let result := Json.obj [("issue", Json.str k),
                ("attachmentCount", Json.num atts.length),
                ("attachments", Json.arr shaped)]
              (.ok (txt (Json.dumps result)), [req])
          else (.ok (txt (httpWithBody r.status r.text)), [req])
    | _ => (.error typeErrorNotString, [])

/-- Embeds `get_issue_types` (lines 1649-1692). -/
def get_issue_types (cfg : Config) (args : Args) (net : Net) : ToolOut :=
  let project := Args.get args "project"
  if !project.truthy then
    (.ok (txt "Error: Missing required parameter 'project'"), [])
  else
    match project with
    | Json.str p =>
      if !validate_project_key p then
        (.ok (txt "Error: Invalid project key format"), [])
      else
        let req := getReq cfg (cfg.url ++ "/rest/api/3/project/" ++ p)
        match net 0 req with
        | .reqError e => (.ok (txt (connFailed e)), [req])
        | .resp r =>
          if r.status = 200 then
            match r.jsonBody with
            | none => (.ok (txt ("Error: " ++ jsonDecodeError)), [req])
            | some data =>
              let its := (data.getD "issueTypes" (Json.arr [])).asArr
              let shaped := its.map (fun it =>
                Json.obj [("id", it.getD "id" Json.null),
                  ("name", it.getD "name" Json.null),
                  ("description", it.getD "description" Json.null),
                  ("iconUrl", it.getD "iconUrl" Json.null)])
              let result := Json.obj [("project", Json.str p),
                ("issueTypes", Json.arr shaped)]
              (.ok (txt (Json.dumps result)), [req])
          else (.ok (txt (httpWithBody r.status r.text)), [req])
    | _ => (.error typeErrorNotString, [])

/-- The per-call update body of the `bulk_update_issues` loop
(lines 1714-1721). -/
def bulkUpdateFields (updates : Json) : List (String × Json) :=
  (if updates.hasKey "priority" then
    [("priority", Json.obj [("name", updates.getD "priority" Json.null)])] else []) ++
  (if updates.hasKey "assignee" then
    [("assignee", Json.obj [("name", updates.getD "assignee" Json.null)])] else []) ++
  (if updates.hasKey "summary" then
    [("summary", updates.getD "summary" Json.null)] else [])

/-- The sequential per-key loop of `bulk_update_issues` (lines 1711-1735):
one PUT per key, one result line per key, in input order. -/
def bulkUpdateLoop (cfg : Config) (updates : Json) (net : Net) :
    Nat → List Json → List String × List HttpRequest
  | _, [] => ([], [])
  | n, key :: rest =>
    let kstr := pyStr key
    let req := putReq cfg (cfg.url ++ "/rest/api/3/issue/" ++ kstr)
      (Json.obj [("fields", Json.obj (bulkUpdateFields updates))])
    let entry :=
      match net n req with
      | .reqError e => "❌ " ++ kstr ++ ": Error - " ++ e
      | .resp r =>
        if r.status = 204 then "✅ " ++ kstr ++ ": Updated successfully"
        else "❌ " ++ kstr ++ ": Failed - " ++ toString r.status
    let restOut := bulkUpdateLoop cfg updates net (n + 1) rest
    (entry :: restOut.1, req :: restOut.2)

/-- Embeds `bulk_update_issues` (lines 1694-1738). -/
def bulk_update_issues (cfg : Config) (args : Args) (net : Net) : ToolOut :=
  let keys := Args.getD args "keys" (Json.arr [])
  let updates := Args.getD args "updates" (Json.obj [])
  if !keys.truthy || !updates.truthy then
    (.ok (txt "Error: Missing required parameters 'keys' and 'updates'"), [])
  else
    match keys with
    | Json.arr ks =>
      match firstInvalidKey ks with
      | .error e => (.error e, [])
      | .ok (some k) =>
        (.ok (txt ("Error: Invalid issue key format: " ++ k)), [])
      | .ok none =>
        let out := bulkUpdateLoop cfg updates net 0 ks
        (.ok (txt ("Bulk update results (" ++ toString ks.length ++ " issues):\n" ++
          String.intercalate "\n" out.1)), out.2)
    | _ => (.error typeErrorIter, [])

/-- Python `os.path.basename` (the part after the last slash). -/
def baseName (s : String) : String :=
  ((s.splitOn "/").getLast?).getD s

/-- Embeds `upload_attachment` (lines 1740-1789). -/
def upload_attachment (cfg : Config) (args : Args) (net : Net) : ToolOut :=
  let key := Args.get args "key"
  let filePath := Args.get args "file_path"
  if !key.truthy || !filePath.truthy then
    (.ok (txt "Error: Missing required parameters 'key' and 'file_path'"), [])
  else
    match key with
    | Json.str k =>
      if !validate_issue_key k then
        (.ok (txt "Error: Invalid issue key format"), [])
      else
        match filePath with
        | Json.str fp =>
          if !cfg.fileExists fp then
            (.ok (txt ("Error: File not found: " ++ fp)), [])
          else
            let req : HttpRequest :=
              { method := "POST",
                url := cfg.url ++ "/rest/api/3/issue/" ++ k ++ "/attachments",
                rawData := some ("file:" ++ baseName fp),
                headers := [("X-Atlassian-Token", "no-check")],
                authUser := cfg.username, authToken := cfg.apiToken }
            match net 0 req with
            | .reqError e => (.ok (txt (connFailed e)), [req])
            | .resp r =>
              if r.status = 200 then
                match r.jsonBody with
                | none => (.ok (txt ("Error: " ++ jsonDecodeError)), [req])
                | some atts =>
                  match atts.asArr with
                  | [] => (.ok (txt "Upload completed but no attachment data returned"), [req])
                  | att :: _ =>
                    let result :=
                      "✅ Uploaded attachment to issue " ++ k ++ "\n" ++
                      "Filename: " ++ pyStr (att.getD "filename" Json.null) ++ "\n" ++
                      "Size: " ++ pyStr (att.getD "size" Json.null) ++ " bytes\n" ++
                      "ID: " ++ pyStr (att.getD "id" Json.null) ++ "\n" ++
                      "URL: " ++ cfg.url ++ "/browse/" ++ k
                    (.ok (txt result), [req])
              else (.ok (txt (httpWithBody r.status r.text)), [req])
        | _ => (.error typeErrorNotString, [])
    | _ => (.error typeErrorNotString, [])

/-- Embeds `download_attachment` (lines 1791-1826); the local file write on
success is outside the model, the reported size approximates
`len(response.content)` by the text length. -/
def download_attachment (cfg : Config) (args : Args) (net : Net) : ToolOut :=
  let attachmentUrl := Args.get args "attachment_url"
  let savePath := Args.get args "save_path"
  if !attachmentUrl.truthy || !savePath.truthy then
    (.ok (txt "Error: Missing required parameters 'attachment_url' and 'save_path'"), [])
  else
    match attachmentUrl with
    | Json.str u =>
      let req := getReq cfg u
      match net 0 req with
      | .reqError e => (.ok (txt (connFailed e)), [req])
      | .resp r =>
        if r.status = 200 then
          match savePath with
          | Json.str sp =>
            let result :=
              "✅ Downloaded attachment\n" ++
              "Saved to: " ++ sp ++ "\n" ++
              "Size: " ++ toString r.text.length ++ " bytes"
            (.ok (txt result), [req])
          | _ =>
            -- `os.path.dirname(save_path)` raises inside the try on a
            -- non-string save path and is caught by the handler.
            (.ok (txt ("Error: " ++ typeErrorNotString)), [req])
        else (.ok (txt (httpWithBody r.status r.text)), [req])
    | _ =>
      -- `client.get(attachment_url)` raises inside the try on a
      -- non-string URL and is caught by the handler.
      (.ok (txt ("Error: " ++ typeErrorNotString)), [])

/-- The sequential per-key loop of `bulk_transition_issues`
(lines 1844-1885): per key, a GET of the available transitions and, when
one matches, a POST performing it; exactly one result line per key, in
input order. -/
def bulkTransitionLoop (cfg : Config) (transition : Json) (net : Net) :
    Nat → List Json → List String × List HttpRequest
  | _, [] => ([], [])
  | n, key :: rest =>
    let kstr := pyStr key
    let reqT := getReq cfg (cfg.url ++ "/rest/api/3/issue/" ++ kstr ++ "/transitions")
    match net n reqT with
    | .reqError e =>
      let restOut := bulkTransitionLoop cfg transition net (n + 1) rest
      (("❌ " ++ kstr ++ ": Error - " ++ e) :: restOut.1, reqT :: restOut.2)
    | .resp r =>
      if r.status ≠ 200 then
        let restOut := bulkTransitionLoop cfg transition net (n + 1) rest
        (("❌ " ++ kstr ++ ": Failed to get transitions") :: restOut.1, reqT :: restOut.2)
      else
        match r.jsonBody with
        | none =>
          let restOut := bulkTransitionLoop cfg transition net (n + 1) rest
          (("❌ " ++ kstr ++ ": Error - " ++ jsonDecodeError) :: restOut.1, reqT :: restOut.2)
        | some data =>
          match transition with
          | Json.str t =>
            let ts := (data.getD "transitions" (Json.arr [])).asArr
            let notAvail :=
              "❌ " ++ kstr ++ ": Transition '" ++ t ++ "' not available"
            match findTransition ts t with
            | none =>
              let restOut := bulkTransitionLoop cfg transition net (n + 1) rest
              (notAvail :: restOut.1, reqT :: restOut.2)
            | some tid =>
              if !tid.truthy then
                let restOut := bulkTransitionLoop cfg transition net (n + 1) rest
                (notAvail :: restOut.1, reqT :: restOut.2)
              else
                let reqP := postReq cfg (cfg.url ++ "/rest/api/3/issue/" ++ kstr ++ "/transitions")
                  (Json.obj [("transition", Json.obj [("id", tid)])])
                let entry :=
                  match net (n + 1) reqP with
                  | .reqError e => "❌ " ++ kstr ++ ": Error - " ++ e
                  | .resp pr =>
                    if pr.status = 204 then "✅ " ++ kstr ++ ": Transitioned to " ++ t
                    else "❌ " ++ kstr ++ ": Failed - " ++ toString pr.status
                let restOut := bulkTransitionLoop cfg transition net (n + 2) rest
                (entry :: restOut.1, reqT :: reqP :: restOut.2)
          | _ =>
            -- `.lower()` on a non-string transition raises inside the
            -- per-item try, yielding a per-item error line.
            let restOut := bulkTransitionLoop cfg transition net (n + 1) rest
            (("❌ " ++ kstr ++ ": Error - " ++ typeErrorNotString) :: restOut.1, reqT :: restOut.2)

/-- Embeds `bulk_transition_issues` (lines 1828-1888). -/
def bulk_transition_issues (cfg : Config) (args : Args) (net : Net) : ToolOut :=
  let keys := Args.getD args "keys" (Json.arr [])
  let transition := Args.get args "transition"
  if !keys.truthy || !transition.truthy then
    (.ok (txt "Error: Missing required parameters 'keys' and 'transition'"), [])
  else
    match keys with
    | Json.arr ks =>
      match firstInvalidKey ks with
      | .error e => (.error e, [])
      | .ok (some k) =>
        (.ok (txt ("Error: Invalid issue key format: " ++ k)), [])
      | .ok none =>
        let out := bulkTransitionLoop cfg transition net 0 ks
        (.ok (txt ("Bulk transition results (" ++ toString ks.length ++ " issues):\n" ++
          String.intercalate "\n" out.1)), out.2)
    | _ => (.error typeErrorIter, [])

/-- Embeds `assign_issue` (lines 1890-1931): an absent/falsy assignee or
one equal to "null" in any letter case unassigns the issue (`None` body),
anything else assigns by name. -/
def assign_issue (cfg : Config) (args : Args) (net : Net) : ToolOut :=
  let key := Args.get args "key"
  let assignee := Args.get args "assignee"
  if !key.truthy then
    (.ok (txt "Error: Missing required parameter 'key'"), [])
  else
    match key with
    | Json.str k =>
      if !validate_issue_key k then
        (.ok (txt "Error: Invalid issue key format"), [])
      else
        let run (af : Json) (atext : String) : ToolOut :=
          let req := putReq cfg (cfg.url ++ "/rest/api/3/issue/" ++ k)
            (Json.obj [("fields", Json.obj [("assignee", af)])])
          match net 0 req with
          | .reqError e => (.ok (txt (connFailed e)), [req])
          | .resp r =>
            if r.status = 204 then
              (.ok (txt ("✅ Assigned issue " ++ k ++ " to " ++ atext ++ "\n" ++
                "URL: " ++ cfg.url ++ "/browse/" ++ k)), [req])
            else (.ok (txt (httpWithBody r.status r.text)), [req])
        if !assignee.truthy then run Json.null "Unassigned"
        else
          match assignee with
          | Json.str s =>
            if asciiLower s == "null" then run Json.null "Unassigned"
            else run (Json.obj [("name", Json.str s)]) s
          | _ => (.error typeErrorNotString, [])
    | _ => (.error typeErrorNotString, [])

/-- Embeds `get_project_components` (lines 1933-1975). -/
def get_project_components (cfg : Config) (args : Args) (net : Net) : ToolOut :=
  let project := Args.get args "project"
  if !project.truthy then
    (.ok (txt "Error: Missing required parameter 'project'"), [])
  else
    match project with
    | Json.str p =>
      if !validate_project_key p then
        (.ok (txt "Error: Invalid project key format"), [])
      else
        let req := getReq cfg (cfg.url ++ "/rest/api/3/project/" ++ p ++ "/components")
        match net 0 req with
        | .reqError e => (.ok (txt (connFailed e)), [req])
        | .resp r =>
          if r.status = 200 then
            match r.jsonBody with
            | none => (.ok (txt ("Error: " ++ jsonDecodeError)), [req])
            | some comps =>
              let shaped := comps.asArr.map (fun comp =>
                Json.obj [("id", comp.getD "id" Json.null),
                  ("name", comp.getD "name" Json.null),
                  ("description", comp.getD "description" Json.null),
                  ("lead",
                    if (comp.getD "lead" Json.null).truthy then
                      (comp.getD "lead" (Json.obj [])).getD "displayName" Json.null
                    else Json.null)])
              let result := Json.obj [("project", Json.str p),
                ("components", Json.arr shaped)]
              (.ok (txt (Json.dumps result)), [req])
          else (.ok (txt (httpWithBody r.status r.text)), [req])
    | _ => (.error typeErrorNotString, [])

/-- Embeds `get_project_versions` (lines 1977-2020). -/
def get_project_versions (cfg : Config) (args : Args) (net : Net) : ToolOut :=
  let project := Args.get args "project"
  if !project.truthy then
    (.ok (txt "Error: Missing required parameter 'project'"), [])
  else
    match project with
    | Json.str p =>
      if !validate_project_key p then
        (.ok (txt "Error: Invalid project key format"), [])
      else
        let req := getReq cfg (cfg.url ++ "/rest/api/3/project/" ++ p ++ "/versions")
        match net 0 req with
        | .reqError e => (.ok (txt (connFailed e)), [req])
        | .resp r =>
          if r.status = 200 then
            match r.jsonBody with
            | none => (.ok (txt ("Error: " ++ jsonDecodeError)), [req])
            | some vers =>
              let shaped := vers.asArr.map (fun ver =>
                Json.obj [("id", ver.getD "id" Json.null),
                  ("name", ver.getD "name" Json.null),
                  ("description", ver.getD "description" Json.null),
                  ("released", ver.getD "released" Json.null),
                  ("releaseDate", ver.getD "releaseDate" Json.null)])
              let result := Json.obj [("project", Json.str p),
                ("versions", Json.arr shaped)]
              (.ok (txt (Json.dumps result)), [req])
          else (.ok (txt (httpWithBody r.status r.text)), [req])
    | _ => (.error typeErrorNotString, [])

/-- Embeds `get_custom_fields` (lines 2022-2057). -/
def get_custom_fields (cfg : Config) (_args : Args) (net : Net) : ToolOut :=
  let req := getReq cfg (cfg.url ++ "/rest/api/3/field")
  match net 0 req with
  | .reqError e => (.ok (txt (connFailed e)), [req])
  | .resp r =>
    if r.status = 200 then
      match r.jsonBody with
      | none => (.ok (txt ("Error: " ++ jsonDecodeError)), [req])
      | some fields =>
        let customs := fields.asArr.filter
          (fun f => (f.getD "custom" (Json.bool false)).truthy)
        let shaped := customs.map (fun field =>
          Json.obj [("id", field.getD "id" Json.null),
            ("name", field.getD "name" Json.null),
            ("description", field.getD "description" Json.null),
            ("fieldType", (field.getD "schema" (Json.obj [])).getD "type" Json.null)])
        let result := Json.obj [("totalCustomFields", Json.num customs.length),
          ("customFields", Json.arr shaped)]
        (.ok (txt (Json.dumps result)), [req])
    else (.ok (txt (httpWithBody r.status r.text)), [req])

/-- Embeds `get_sprints` (lines 2059-2101). -/
def get_sprints (cfg : Config) (args : Args) (net : Net) : ToolOut :=
  let boardId := Args.get args "board_id"
  if !boardId.truthy then
    (.ok (txt "Error: Missing required parameter 'board_id'"), [])
  else
    let req := getReq cfg (cfg.url ++ "/rest/agile/1.0/board/" ++ pyStr boardId ++ "/sprint")
    match net 0 req with
    | .reqError e => (.ok (txt (connFailed e)), [req])
    | .resp r =>
      if r.status = 200 then
        match r.jsonBody with
        | none => (.ok (txt ("Error: " ++ jsonDecodeError)), [req])
        | some data =>
          let sprints := (data.getD "values" (Json.arr [])).asArr
          let shaped := sprints.map (fun sprint =>
            Json.obj [("id", sprint.getD "id" Json.null),
              ("name", sprint.getD "name" Json.null),
              ("state", sprint.getD "state" Json.null),
              ("startDate", sprint.getD "startDate" Json.null),
              ("endDate", sprint.getD "endDate" Json.null),
              ("goal", sprint.getD "goal" Json.null)])
          let result := Json.obj [("boardId", boardId),
            ("sprints", Json.arr shaped)]
          (.ok (txt (Json.dumps result)), [req])
      else (.ok (txt (httpWithBody r.status r.text)), [req])

/-- An abort of a multi-request handler body: a transport failure caught by
`except httpx.RequestError`, or another exception caught by
`except Exception`. -/
inductive Abort where
  | conn (msg : String)
  | exn (msg : String)

/-- The id-collection loop of `add_to_sprint` (lines 2120-2128): one GET
per key, appending the id of each 200 response. -/
def addToSprintCollect (cfg : Config) (net : Net) :
    Nat → List Json → Except Abort (List Json) × List HttpRequest
  | _, [] => (.ok [], [])
  | n, key :: rest =>
    let req := getReq cfg (cfg.url ++ "/rest/api/3/issue/" ++ pyStr key ++ "?fields=id")
    match net n req with
    | .reqError e => (.error (Abort.conn e), [req])
    | .resp r =>
      if r.status = 200 then
        match r.jsonBody with
        | none => (.error (Abort.exn jsonDecodeError), [req])
        | some d =>
          let restOut := addToSprintCollect cfg net (n + 1) rest
          ((restOut.1).map (d.getD "id" Json.null :: ·), req :: restOut.2)
      else
        let restOut := addToSprintCollect cfg net (n + 1) rest
        (restOut.1, req :: restOut.2)

/-- Embeds `add_to_sprint` (lines 2103-2154). -/
def add_to_sprint (cfg : Config) (args : Args) (net : Net) : ToolOut :=
  let sprintId := Args.get args "sprint_id"
  let keys := Args.getD args "keys" (Json.arr [])
  if !sprintId.truthy || !keys.truthy then
    (.ok (txt "Error: Missing required parameters 'sprint_id' and 'keys'"), [])
  else
    match keys with
    | Json.arr ks =>
      match firstInvalidKey ks with
      | .error e => (.error e, [])
      | .ok (some k) =>
        (.ok (txt ("Error: Invalid issue key format: " ++ k)), [])
      | .ok none =>
        match addToSprintCollect cfg net 0 ks with
        | (.error (Abort.conn e), tr) => (.ok (txt (connFailed e)), tr)
        | (.error (Abort.exn e), tr) => (.ok (txt ("Error: " ++ e)), tr)
        | (.ok ids, tr) =>
          if ids.isEmpty then
            (.ok (txt "Error: No valid issues found"), tr)
          else
            let reqP := postReq cfg (cfg.url ++ "/rest/agile/1.0/sprint/" ++ pyStr sprintId ++ "/issue")
              (Json.obj [("issues", Json.arr ids)])
            match net tr.length reqP with
            | .reqError e => (.ok (txt (connFailed e)), tr ++ [reqP])
            | .resp r =>
              if r.status = 204 then
                let result :=
                  "✅ Added " ++ toString ids.length ++ " issues to sprint " ++ pyStr sprintId ++ "\n" ++
                  "Issues: " ++ String.intercalate ", " (ks.map pyStr)
                (.ok (txt result), tr ++ [reqP])
              else (.ok (txt (httpWithBody r.status r.text)), tr ++ [reqP])
    | _ => (.error typeErrorIter, [])

/-- Embeds `get_boards` (lines 2156-2190). -/
def get_boards (cfg : Config) (_args : Args) (net : Net) : ToolOut :=
  let req := getReq cfg (cfg.url ++ "/rest/agile/1.0/board")
  match net 0 req with
  | .reqError e => (.ok (txt (connFailed e)), [req])
  | .resp r =>
    if r.status = 200 then
      match r.jsonBody with
      | none => (.ok (txt ("Error: " ++ jsonDecodeError)), [req])
      | some data =>
        let boards := (data.getD "values" (Json.arr [])).asArr
        let shaped := boards.map (fun board =>
          Json.obj [("id", board.getD "id" Json.null),
            ("name", board.getD "name" Json.null),
            ("type", board.getD "type" Json.null),
            ("location", (board.getD "location" (Json.obj [])).getD "name" Json.null)])
        (.ok (txt (Json.dumps (Json.obj [("boards", Json.arr shaped)]))), [req])
    else (.ok (txt (httpWithBody r.status r.text)), [req])

/-- Embeds `get_sprint_issues` (lines 2192-2233). -/
def get_sprint_issues (cfg : Config) (args : Args) (net : Net) : ToolOut :=
  let sprintId := Args.get args "sprint_id"
  if !sprintId.truthy then
    (.ok (txt "Error: Missing required parameter 'sprint_id'"), [])
  else
    let req := getReq cfg (cfg.url ++ "/rest/agile/1.0/sprint/" ++ pyStr sprintId ++ "/issue")
    match net 0 req with
    | .reqError e => (.ok (txt (connFailed e)), [req])
    | .resp r =>
      if r.status = 200 then
        match r.jsonBody with
        | none => (.ok (txt ("Error: " ++ jsonDecodeError)), [req])
        | some data =>
          let issues := (data.getD "issues" (Json.arr [])).asArr
          let shaped := issues.map (fun issue =>
            let fields := issue.getD "fields" (Json.obj [])
            Json.obj [("key", issue.getD "key" Json.null),
              ("summary", fields.getD "summary" Json.null),
              ("status", (fields.getD "status" (Json.obj [])).getD "name" Json.null),
              ("assignee",
                if (fields.getD "assignee" Json.null).truthy then
                  (fields.getD "assignee" (Json.obj [])).getD "displayName" Json.null
                else Json.str "Unassigned")])
          let result := Json.obj [("sprintId", sprintId),
            ("issueCount", Json.num issues.length),
            ("issues", Json.arr shaped)]
          (.ok (txt (Json.dumps result)), [req])
      else (.ok (txt (httpWithBody r.status r.text)), [req])

/-- Embeds `link_issues` (lines 2235-2277). -/
def link_issues (cfg : Config) (args : Args) (net : Net) : ToolOut :=
  let inwardKey := Args.get args "inward_key"
  let outwardKey := Args.get args "outward_key"
  let linkType := Args.get args "link_type"
  if !inwardKey.truthy || !outwardKey.truthy || !linkType.truthy then
    (.ok (txt "Error: Missing required parameters"), [])
  else
    match inwardKey with
    | Json.str ik =>
      -- Python's `or` short-circuits: an invalid inward key returns the
      -- format error before `validate_issue_key(outward_key)` is evaluated,
      -- so a non-string outward key raises only when the inward key passed.
      if !validate_issue_key ik then
        (.ok (txt "Error: Invalid issue key format"), [])
      else
        match outwardKey with
        | Json.str ok' =>
          if !validate_issue_key ok' then
            (.ok (txt "Error: Invalid issue key format"), [])
          else
            let body := Json.obj [("type", Json.obj [("name", linkType)]),
              ("inwardIssue", Json.obj [("key", Json.str ik)]),
              ("outwardIssue", Json.obj [("key", Json.str ok')])]
            let req := postReq cfg (cfg.url ++ "/rest/api/3/issueLink") body
            match net 0 req with
            | .reqError e => (.ok (txt (connFailed e)), [req])
            | .resp r =>
              if r.status = 201 then
                let result :=
                  "✅ Linked issues: " ++ ik ++ " " ++ pyStr linkType ++ " " ++ ok' ++ "\n" ++
                  "Link type: " ++ pyStr linkType ++ "\n" ++
                  "View: " ++ cfg.url ++ "/browse/" ++ ik
                (.ok (txt result), [req])
              else (.ok (txt (httpWithBody r.status r.text)), [req])
        | _ => (.error typeErrorNotString, [])
    | _ => (.error typeErrorNotString, [])

/-- Embeds `get_subtasks` (lines 2279-2323). -/
def get_subtasks (cfg : Config) (args : Args) (net : Net) : ToolOut :=
  let key := Args.get args "key"
  if !key.truthy then
    (.ok (txt "Error: Missing required parameter 'key'"), [])
  else
    match key with
    | Json.str k =>
      if !validate_issue_key k then
        (.ok (txt "Error: Invalid issue key format"), [])
      else
        let req := getReq cfg (cfg.url ++ "/rest/api/3/issue/" ++ k ++ "?fields=subtasks")
        match net 0 req with
        | .reqError e => (.ok (txt (connFailed e)), [req])
        | .resp r =>
          if r.status = 200 then
            match r.jsonBody with
            | none => (.ok (txt ("Error: " ++ jsonDecodeError)), [req])
            | some data =>
              let subs := ((data.getD "fields" (Json.obj [])).getD "subtasks" (Json.arr [])).asArr
              let shaped := subs.map (fun subtask =>
                let fields := subtask.getD "fields" (Json.obj [])
                Json.obj [("key", subtask.getD "key" Json.null),
                  ("summary", fields.getD "summary" Json.null),
                  ("status", (fields.getD "status" (Json.obj [])).getD "name" Json.null),
                  ("assignee",
                    if (fields.getD "assignee" Json.null).truthy then
                      (fields.getD "assignee" (Json.obj [])).getD "displayName" Json.null
                    else Json.str "Unassigned")])
              let result := Json.obj [("parentIssue", Json.str k),
                ("subtaskCount", Json.num subs.length),
                ("subtasks", Json.arr shaped)]
              (.ok (txt (Json.dumps result)), [req])
          else (.ok (txt (httpWithBody r.status r.text)), [req])
    | _ => (.error typeErrorNotString, [])

/-- Embeds `add_worklog` (lines 2325-2382). -/
def add_worklog (cfg : Config) (args : Args) (net : Net) : ToolOut :=
  let key := Args.get args "key"
  let timeSpent := Args.get args "time_spent"
  let comment := Args.getD args "comment" (Json.str "")
  if !key.truthy || !timeSpent.truthy then
    (.ok (txt "Error: Missing required parameters 'key' and 'time_spent'"), [])
  else
    match key with
    | Json.str k =>
      if !validate_issue_key k then
        (.ok (txt "Error: Invalid issue key format"), [])
      else
        let body := Json.obj [("timeSpent", timeSpent),
          ("comment", if comment.truthy then adfDoc comment else Json.null)]
        let req := postReq cfg (cfg.url ++ "/rest/api/3/issue/" ++ k ++ "/worklog") body
        match net 0 req with
        | .reqError e => (.ok (txt (connFailed e)), [req])
        | .resp r =>
          if r.status = 201 then
            match r.jsonBody with
            | none => (.ok (txt ("Error: " ++ jsonDecodeError)), [req])
            | some wl =>
              let result :=
                "✅ Added worklog to issue " ++ k ++ "\n" ++
                "Time spent: " ++ pyStr (wl.getD "timeSpent" Json.null) ++ "\n" ++
                "Author: " ++ pyStr ((wl.getD "author" (Json.obj [])).getD "displayName" Json.null) ++ "\n" ++
                "URL: " ++ cfg.url ++ "/browse/" ++ k
              (.ok (txt result), [req])
          else (.ok (txt (httpWithBody r.status r.text)), [req])
    | _ => (.error typeErrorNotString, [])

/-- Embeds `get_users` (lines 2384-2427). -/
def get_users (cfg : Config) (args : Args) (net : Net) : ToolOut :=
  let project := Args.get args "project"
  if !project.truthy then
    (.ok (txt "Error: Missing required parameter 'project'"), [])
  else
    match project with
    | Json.str p =>
      if !validate_project_key p then
        (.ok (txt "Error: Invalid project key format"), [])
      else
        let req := getReq cfg (cfg.url ++ "/rest/api/3/user/assignable/search?project=" ++ p)
        match net 0 req with
        | .reqError e => (.ok (txt (connFailed e)), [req])
        | .resp r =>
          if r.status = 200 then
            match r.jsonBody with
            | none => (.ok (txt ("Error: " ++ jsonDecodeError)), [req])
            | some users =>
              let shaped := users.asArr.map (fun user =>
                Json.obj [("accountId", user.getD "accountId" Json.null),
                  ("displayName", user.getD "displayName" Json.null),
                  ("emailAddress", user.getD "emailAddress" Json.null),
                  ("active", user.getD "active" Json.null)])
              let result := Json.obj [("project", Json.str p),
                ("userCount", Json.num users.asArr.length),
                ("users", Json.arr shaped)]
              (.ok (txt (Json.dumps result)), [req])
          else (.ok (txt (httpWithBody r.status r.text)), [req])
    | _ => (.error typeErrorNotString, [])

/-- Abstracted message of a Python `AttributeError` (e.g. `.items()` on a
non-dict response), caught by the handlers' `except Exception`. -/
def attributeError : String := "AttributeError: unexpected response shape"

/-- Numeric view of a JSON value; the arithmetic handlers sum such fields,
and a non-numeric payload (on which Python would raise, caught by the
handler) is abstracted to 0.  Fractional story points are outside the
model. -/
def jint (j : Json) : Int :=
  match j with
  | .num n => n
  | _ => 0

/-- Embeds `create_subtask` (lines 2429-2505). -/
def create_subtask (cfg : Config) (args : Args) (net : Net) : ToolOut :=
  let parentKey := Args.get args "parent_key"
  let summary := Args.get args "summary"
  let description := Args.getD args "description" (Json.str "")
  if !parentKey.truthy || !summary.truthy then
    (.ok (txt "Error: Missing required parameters 'parent_key' and 'summary'"), [])
  else
    match parentKey with
    | Json.str pk =>
      if !validate_issue_key pk then
        (.ok (txt "Error: Invalid parent issue key format"), [])
      else
        let reqG := getReq cfg (cfg.url ++ "/rest/api/3/issue/" ++ pk ++ "?fields=project")
        match net 0 reqG with
        | .reqError e => (.ok (txt (connFailed e)), [reqG])
        | .resp rg =>
          if rg.status ≠ 200 then
            (.ok (txt ("Error: Parent issue not found - " ++ toString rg.status)), [reqG])
          else
            match rg.jsonBody with
            | none => (.ok (txt ("Error: " ++ jsonDecodeError)), [reqG])
            | some parentData =>
              let projectKey := ((parentData.getD "fields" (Json.obj [])).getD "project" (Json.obj [])).getD "key" Json.null
              let body := Json.obj [("fields", Json.obj
                [("project", Json.obj [("key", projectKey)]),
                 ("parent", Json.obj [("key", Json.str pk)]),
                 ("summary", summary),
                 ("issuetype", Json.obj [("name", Json.str "Sub-task")]),
                 ("description", if description.truthy then adfDoc description else Json.null)])]
              let reqP := postReq cfg (cfg.url ++ "/rest/api/3/issue") body
              match net 1 reqP with
              | .reqError e => (.ok (txt (connFailed e)), [reqG, reqP])
              | .resp r =>
                if r.status = 201 then
                  match r.jsonBody with
                  | none => (.ok (txt ("Error: " ++ jsonDecodeError)), [reqG, reqP])
                  | some created =>
                    if !created.hasKey "key" then
                      (.ok (txt ("Error: " ++ keyErrorKey)), [reqG, reqP])
                    else
                      let subtaskKey := pyStr (created.getD "key" Json.null)
                      let result :=
                        "✅ Created subtask " ++ subtaskKey ++ " under " ++ pk ++ "\n" ++
                        "Summary: " ++ pyStr summary ++ "\n" ++
                        "URL: " ++ cfg.url ++ "/browse/" ++ subtaskKey
                      (.ok (txt result), [reqG, reqP])
                else (.ok (txt (httpWithBody r.status r.text)), [reqG, reqP])
    | _ => (.error typeErrorNotString, [])

/-- Embeds `list_webhooks` (lines 2507-2541). -/
def list_webhooks (cfg : Config) (_args : Args) (net : Net) : ToolOut :=
  let req := getReq cfg (cfg.url ++ "/rest/webhooks/1.0/webhook")
  match net 0 req with
  | .reqError e => (.ok (txt (connFailed e)), [req])
  | .resp r =>
    if r.status = 200 then
      match r.jsonBody with
      | none => (.ok (txt ("Error: " ++ jsonDecodeError)), [req])
      | some whs =>
        let shaped := whs.asArr.map (fun webhook =>
          Json.obj [("name", webhook.getD "name" Json.null),
            ("url", webhook.getD "url" Json.null),
            ("events", webhook.getD "events" Json.null),
            ("enabled", webhook.getD "enabled" Json.null)])
        let result := Json.obj [("webhookCount", Json.num whs.asArr.length),
          ("webhooks", Json.arr shaped)]
        (.ok (txt (Json.dumps result)), [req])
    else (.ok (txt (httpWithBody r.status r.text)), [req])

/-- Embeds `add_watcher` (lines 2543-2579). -/
def add_watcher (cfg : Config) (args : Args) (net : Net) : ToolOut :=
  let key := Args.get args "key"
  let username := Args.get args "username"
  if !key.truthy || !username.truthy then
    (.ok (txt "Error: Missing required parameters 'key' and 'username'"), [])
  else
    match key with
    | Json.str k =>
      if !validate_issue_key k then
        (.ok (txt "Error: Invalid issue key format"), [])
      else
        let req : HttpRequest :=
          { method := "POST",
            url := cfg.url ++ "/rest/api/3/issue/" ++ k ++ "/watchers",
            rawData := some ("\"" ++ pyStr username ++ "\""),
            headers := [("Content-Type", "application/json")],
            authUser := cfg.username, authToken := cfg.apiToken }
        match net 0 req with
        | .reqError e => (.ok (txt (connFailed e)), [req])
        | .resp r =>
          if r.status = 204 then
            let result :=
              "✅ Added watcher to issue " ++ k ++ "\n" ++
              "Watcher: " ++ pyStr username ++ "\n" ++
              "URL: " ++ cfg.url ++ "/browse/" ++ k
            (.ok (txt result), [req])
          else (.ok (txt (httpWithBody r.status r.text)), [req])
    | _ => (.error typeErrorNotString, [])

/-- Embeds `get_watchers` (lines 2581-2624). -/
def get_watchers (cfg : Config) (args : Args) (net : Net) : ToolOut :=
  let key := Args.get args "key"
  if !key.truthy then
    (.ok (txt "Error: Missing required parameter 'key'"), [])
  else
    match key with
    | Json.str k =>
      if !validate_issue_key k then
        (.ok (txt "Error: Invalid issue key format"), [])
      else
        let req := getReq cfg (cfg.url ++ "/rest/api/3/issue/" ++ k ++ "/watchers")
        match net 0 req with
        | .reqError e => (.ok (txt (connFailed e)), [req])
        | .resp r =>
          if r.status = 200 then
            match r.jsonBody with
            | none => (.ok (txt ("Error: " ++ jsonDecodeError)), [req])
            | some data =>
              let ws := (data.getD "watchers" (Json.arr [])).asArr
              let shaped := ws.map (fun watcher =>
                Json.obj [("displayName", watcher.getD "displayName" Json.null),
                  ("emailAddress", watcher.getD "emailAddress" Json.null),
                  ("active", watcher.getD "active" Json.null)])
              let result := Json.obj [("issue", Json.str k),
                ("watcherCount", Json.num ws.length),
                ("watchers", Json.arr shaped)]
              (.ok (txt (Json.dumps result)), [req])
          else (.ok (txt (httpWithBody r.status r.text)), [req])
    | _ => (.error typeErrorNotString, [])

/-- Shaping of one issue link of `get_issue_links` (lines 2649-2671):
`None` when the link has neither direction (the loop `continue`s). -/
def issueLinkShape (link : Json) : Option Json :=
  let ltype := (link.getD "type" (Json.obj [])).getD "name" (Json.str "Unknown")
  let mk (direction : String) (target : Json) : Json :=
    Json.obj [("linkType", ltype), ("direction", Json.str direction),
      ("linkedIssue", Json.obj
        [("key", target.getD "key" Json.null),
         ("summary", (target.getD "fields" (Json.obj [])).getD "summary" Json.null),
         ("status", ((target.getD "fields" (Json.obj [])).getD "status" (Json.obj [])).getD "name" Json.null)])]
  if link.hasKey "outwardIssue" then some (mk "outward" (link.getD "outwardIssue" Json.null))
  else if link.hasKey "inwardIssue" then some (mk "inward" (link.getD "inwardIssue" Json.null))
  else none

/-- Embeds `get_issue_links` (lines 2626-2685). -/
def get_issue_links (cfg : Config) (args : Args) (net : Net) : ToolOut :=
  let key := Args.get args "key"
  if !key.truthy then
    (.ok (txt "Error: Missing required parameter 'key'"), [])
  else
    match key with
    | Json.str k =>
      if !validate_issue_key k then
        (.ok (txt "Error: Invalid issue key format"), [])
      else
        let req := getReq cfg (cfg.url ++ "/rest/api/3/issue/" ++ k ++ "?fields=issuelinks")
        match net 0 req with
        | .reqError e => (.ok (txt (connFailed e)), [req])
        | .resp r =>
          if r.status = 200 then
            match r.jsonBody with
            | none => (.ok (txt ("Error: " ++ jsonDecodeError)), [req])
            | some data =>
              let rawLinks := ((data.getD "fields" (Json.obj [])).getD "issuelinks" (Json.arr [])).asArr
              let links := rawLinks.filterMap issueLinkShape
              let result := Json.obj [("issue", Json.str k),
                ("linkCount", Json.num links.length),
                ("links", Json.arr links)]
              (.ok (txt (Json.dumps result)), [req])
          else (.ok (txt (httpWithBody r.status r.text)), [req])
    | _ => (.error typeErrorNotString, [])

/-- Embeds `clone_issue` (lines 2687-2749). -/
def clone_issue (cfg : Config) (args : Args) (net : Net) : ToolOut :=
  let key := Args.get args "key"
  let summary := Args.get args "summary"
  if !key.truthy || !summary.truthy then
    (.ok (txt "Error: Missing required parameters 'key' and 'summary'"), [])
  else
    match key with
    | Json.str k =>
      if !validate_issue_key k then
        (.ok (txt "Error: Invalid issue key format"), [])
      else
        let reqG := getReq cfg (cfg.url ++ "/rest/api/3/issue/" ++ k)
        match net 0 reqG with
        | .reqError e => (.ok (txt (connFailed e)), [reqG])
        | .resp rg =>
          if rg.status ≠ 200 then
            (.ok (txt ("Error: Original issue not found - " ++ toString rg.status)), [reqG])
          else
            match rg.jsonBody with
            | none => (.ok (txt ("Error: " ++ jsonDecodeError)), [reqG])
            | some original =>
              let origFields := original.getD "fields" (Json.obj [])
              let body := Json.obj [("fields", Json.obj
                [("project", origFields.getD "project" Json.null),
                 ("summary", summary),
                 ("description", origFields.getD "description" Json.null),
                 ("issuetype", origFields.getD "issuetype" Json.null),
                 ("priority", origFields.getD "priority" Json.null)])]
              let reqP := postReq cfg (cfg.url ++ "/rest/api/3/issue") body
              match net 1 reqP with
              | .reqError e => (.ok (txt (connFailed e)), [reqG, reqP])
              | .resp r =>
                if r.status = 201 then
                  match r.jsonBody with
                  | none => (.ok (txt ("Error: " ++ jsonDecodeError)), [reqG, reqP])
                  | some cloned =>
                    if !cloned.hasKey "key" then
                      (.ok (txt ("Error: " ++ keyErrorKey)), [reqG, reqP])
                    else
                      let cloneKey := pyStr (cloned.getD "key" Json.null)
                      let result :=
                        "✅ Cloned issue " ++ k ++ " to " ++ cloneKey ++ "\n" ++
                        "Original: " ++ pyStr (origFields.getD "summary" Json.null) ++ "\n" ++
                        "Clone: " ++ pyStr summary ++ "\n" ++
                        "URL: " ++ cfg.url ++ "/browse/" ++ cloneKey
                      (.ok (txt result), [reqG, reqP])
                else (.ok (txt (httpWithBody r.status r.text)), [reqG, reqP])
    | _ => (.error typeErrorNotString, [])

/-- Per-issue report of `get_time_tracking_report` (lines 2783-2797);
`round(x, 2)` over float hours is abstracted to integer division. -/
def timeTrackingReport (issue : Json) : Int × Json :=
  let fields := issue.getD "fields" (Json.obj [])
  let worklog := fields.getD "worklog" (Json.obj [])
  let tt := fields.getD "timetracking" (Json.obj [])
  let logged := ((worklog.getD "worklogs" (Json.arr [])).asArr.map
    (fun w => jint (w.getD "timeSpentSeconds" (Json.num 0)))).foldl (· + ·) 0
  (logged,
   Json.obj [("key", issue.getD "key" Json.null),
     ("summary", fields.getD "summary" Json.null),
     ("timeSpent", tt.getD "timeSpent" Json.null),
     ("originalEstimate", tt.getD "originalEstimate" Json.null),
     ("remainingEstimate", tt.getD "remainingEstimate" Json.null),
     ("loggedHours", Json.num (if logged ≠ 0 then logged / 3600 else 0))])

/-- Embeds `get_time_tracking_report` (lines 2751-2810). -/
def get_time_tracking_report (cfg : Config) (args : Args) (net : Net) : ToolOut :=
  let project := Args.get args "project"
  if !project.truthy then
    (.ok (txt "Error: Missing required parameter 'project'"), [])
  else
    match project with
    | Json.str p =>
      if !validate_project_key p then
        (.ok (txt "Error: Invalid project key format"), [])
      else
        let req := getReq cfg
          (cfg.url ++ "/rest/api/3/search?jql=project=" ++ p ++ "&fields=key,summary,worklog,timetracking")
        match net 0 req with
        | .reqError e => (.ok (txt (connFailed e)), [req])
        | .resp r =>
          if r.status = 200 then
            match r.jsonBody with
            | none => (.ok (txt ("Error: " ++ jsonDecodeError)), [req])
            | some data =>
              let issues := (data.getD "issues" (Json.arr [])).asArr
              let reports := issues.map timeTrackingReport
              let totalLogged := (reports.map Prod.fst).foldl (· + ·) 0
              let result := Json.obj [("project", Json.str p),
                ("totalLoggedHours", Json.num (totalLogged / 3600)),
                ("issueCount", Json.num issues.length),
                ("issues", Json.arr (reports.map Prod.snd))]
              (.ok (txt (Json.dumps result)), [req])
          else (.ok (txt (httpWithBody r.status r.text)), [req])
    | _ => (.error typeErrorNotString, [])

/-- Embeds `get_project_roles` (lines 2812-2852). -/
def get_project_roles (cfg : Config) (args : Args) (net : Net) : ToolOut :=
  let project := Args.get args "project"
  if !project.truthy then
    (.ok (txt "Error: Missing required parameter 'project'"), [])
  else
    match project with
    | Json.str p =>
      if !validate_project_key p then
        (.ok (txt "Error: Invalid project key format"), [])
      else
        let req := getReq cfg (cfg.url ++ "/rest/api/3/project/" ++ p ++ "/role")
        match net 0 req with
        | .reqError e => (.ok (txt (connFailed e)), [req])
        | .resp r =>
          if r.status = 200 then
            match r.jsonBody with
            | none => (.ok (txt ("Error: " ++ jsonDecodeError)), [req])
            | some roles =>
              match roles with
              | Json.obj fs =>
                let shaped := fs.map (fun kv =>
                  Json.obj [("name", Json.str kv.1), ("url", kv.2)])
                let result := Json.obj [("project", Json.str p),
                  ("roles", Json.arr shaped)]
                (.ok (txt (Json.dumps result)), [req])
              | _ => (.ok (txt ("Error: " ++ attributeError)), [req])
          else (.ok (txt (httpWithBody r.status r.text)), [req])
    | _ => (.error typeErrorNotString, [])

/-- One CSV line of `export_issues` (line 2881). -/
def exportCsvLine (issue : Json) : String :=
  let fields := issue.getD "fields" (Json.obj [])
  let assignee :=
    if (fields.getD "assignee" Json.null).truthy then
      pyStr ((fields.getD "assignee" (Json.obj [])).getD "displayName" (Json.str "Unassigned"))
    else "Unassigned"
  pyStr (issue.getD "key" Json.null) ++ ",\"" ++
    pyStr (fields.getD "summary" (Json.str "")) ++ "\"," ++
    pyStr ((fields.getD "status" (Json.obj [])).getD "name" (Json.str "")) ++ "," ++
    assignee ++ "," ++
    pyStr ((fields.getD "priority" (Json.obj [])).getD "name" (Json.str ""))

/-- Shaping of one issue of the JSON export (lines 2890-2898). -/
def exportIssueShape (issue : Json) : Json :=
  let fields := issue.getD "fields" (Json.obj [])
  Json.obj [("key", issue.getD "key" Json.null),
    ("summary", fields.getD "summary" Json.null),
    ("status", (fields.getD "status" (Json.obj [])).getD "name" Json.null),
    ("assignee",
      if (fields.getD "assignee" Json.null).truthy then
        (fields.getD "assignee" (Json.obj [])).getD "displayName" Json.null
      else Json.str "Unassigned"),
    ("priority", (fields.getD "priority" (Json.obj [])).getD "name" Json.null),
    ("created", fields.getD "created" Json.null)]

/-- Embeds `export_issues` (lines 2854-2911). -/
def export_issues (cfg : Config) (args : Args) (net : Net) : ToolOut :=
  let jql := Args.get args "jql"
  match Args.getD args "format" (Json.str "json") with
  | Json.str fmt0 =>
    let formatType := asciiLower fmt0
    if !jql.truthy then
      (.ok (txt "Error: Missing required parameter 'jql'"), [])
    else
      let req := getReq cfg
        (cfg.url ++ "/rest/api/3/search?jql=" ++ pyStr jql ++ "&maxResults=100")
      match net 0 req with
      | .reqError e => (.ok (txt (connFailed e)), [req])
      | .resp r =>
        if r.status = 200 then
          match r.jsonBody with
          | none => (.ok (txt ("Error: " ++ jsonDecodeError)), [req])
          | some data =>
            let issues := (data.getD "issues" (Json.arr [])).asArr
            if formatType == "csv" then
              let csvLines := "Key,Summary,Status,Assignee,Priority" ::
                issues.map exportCsvLine
              (.ok (txt (String.intercalate "\n" csvLines)), [req])
            else
              let exportData := Json.obj [("exportDate", Json.str "now"),
                ("jql", jql),
                ("totalIssues", Json.num issues.length),
                ("issues", Json.arr (issues.map exportIssueShape))]
              (.ok (txt (Json.dumps exportData)), [req])
        else (.ok (txt (httpWithBody r.status r.text)), [req])
  | _ => (.error typeErrorNotString, [])

/-- Embeds `create_webhook` (lines 2913-2955). -/
def create_webhook (cfg : Config) (args : Args) (net : Net) : ToolOut :=
  let name := Args.get args "name"
  let url := Args.get args "url"
  let events := Args.getD args "events" (Json.arr [])
  if !name.truthy || !url.truthy || !events.truthy then
    (.ok (txt "Error: Missing required parameters"), [])
  else
    let body := Json.obj [("name", name), ("url", url),
      ("events", events), ("enabled", Json.bool true)]
    let req := postReq cfg (cfg.url ++ "/rest/webhooks/1.0/webhook") body
    match net 0 req with
    | .reqError e => (.ok (txt (connFailed e)), [req])
    | .resp r =>
      if r.status = 201 then
        match r.jsonBody with
        | none => (.ok (txt ("Error: " ++ jsonDecodeError)), [req])
        | some webhook =>
          match allStrings events.asArr with
          | none =>
            -- `", ".join(events)` raises inside the try on non-string
            -- events and is caught by the handler.
            (.ok (txt ("Error: " ++ typeErrorNotString)), [req])
          | some evs =>
            let result :=
              "✅ Created webhook: " ++ pyStr name ++ "\n" ++
              "URL: " ++ pyStr url ++ "\n" ++
              "Events: " ++ String.intercalate ", " evs ++ "\n" ++
              "ID: " ++ pyStr (webhook.getD "self" (Json.str "Unknown"))
            (.ok (txt result), [req])
      else (.ok (txt (httpWithBody r.status r.text)), [req])

/-- Embeds `create_version` (lines 2957-3002). -/
def create_version (cfg : Config) (args : Args) (net : Net) : ToolOut :=
  let project := Args.get args "project"
  let name := Args.get args "name"
  let description := Args.getD args "description" (Json.str "")
  if !project.truthy || !name.truthy then
    (.ok (txt "Error: Missing required parameters 'project' and 'name'"), [])
  else
    match project with
    | Json.str p =>
      if !validate_project_key p then
        (.ok (txt "Error: Invalid project key format"), [])
      else
        let body := Json.obj [("name", name), ("description", description),
          ("project", Json.str p), ("released", Json.bool false)]
        let req := postReq cfg (cfg.url ++ "/rest/api/3/version") body
        match net 0 req with
        | .reqError e => (.ok (txt (connFailed e)), [req])
        | .resp r =>
          if r.status = 201 then
            match r.jsonBody with
            | none => (.ok (txt ("Error: " ++ jsonDecodeError)), [req])
            | some version =>
              let result :=
                "✅ Created version: " ++ pyStr name ++ "\n" ++
                "Project: " ++ p ++ "\n" ++
                "Description: " ++ pyStr description ++ "\n" ++
                "ID: " ++ pyStr (version.getD "id" Json.null)
              (.ok (txt result), [req])
          else (.ok (txt (httpWithBody r.status r.text)), [req])
    | _ => (.error typeErrorNotString, [])

/-- Embeds `get_user_permissions` (lines 3004-3044). -/
def get_user_permissions (cfg : Config) (args : Args) (net : Net) : ToolOut :=
  let project := Args.get args "project"
  let username := Args.get args "username"
  if !project.truthy || !username.truthy then
    (.ok (txt "Error: Missing required parameters"), [])
  else
    match project with
    | Json.str p =>
      if !validate_project_key p then
        (.ok (txt "Error: Invalid project key format"), [])
      else
        let req := getReq cfg (cfg.url ++ "/rest/api/3/mypermissions?projectKey=" ++ p)
        match net 0 req with
        | .reqError e => (.ok (txt (connFailed e)), [req])
        | .resp r =>
          if r.status = 200 then
            match r.jsonBody with
            | none => (.ok (txt ("Error: " ++ jsonDecodeError)), [req])
            | some permissions =>
              match permissions.getD "permissions" (Json.obj []) with
              | Json.obj fs =>
                let shaped := fs.map (fun kv =>
                  (kv.1, kv.2.getD "havePermission" (Json.bool false)))
                let result := Json.obj [("project", Json.str p),
                  ("username", username),
                  ("permissions", Json.obj shaped)]
                (.ok (txt (Json.dumps result)), [req])
              | _ => (.ok (txt ("Error: " ++ attributeError)), [req])
          else (.ok (txt (httpWithBody r.status r.text)), [req])
    | _ => (.error typeErrorNotString, [])

/-- Embeds `get_workflows` (lines 3046-3081). -/
def get_workflows (cfg : Config) (_args : Args) (net : Net) : ToolOut :=
  let req := getReq cfg (cfg.url ++ "/rest/api/3/workflow/search")
  match net 0 req with
  | .reqError e => (.ok (txt (connFailed e)), [req])
  | .resp r =>
    if r.status = 200 then
      match r.jsonBody with
      | none => (.ok (txt ("Error: " ++ jsonDecodeError)), [req])
      | some data =>
        let wfs := (data.getD "values" (Json.arr [])).asArr
        let shaped := wfs.map (fun wf =>
          Json.obj [("name", wf.getD "name" Json.null),
            ("description", wf.getD "description" Json.null),
            ("isActive", wf.getD "isActive" Json.null),
            ("isDraft", wf.getD "isDraft" Json.null)])
        let result := Json.obj [("workflowCount", Json.num wfs.length),
          ("workflows", Json.arr shaped)]
        (.ok (txt (Json.dumps result)), [req])
    else (.ok (txt (httpWithBody r.status r.text)), [req])

/-- Embeds `release_version` (lines 3083-3121). -/
def release_version (cfg : Config) (args : Args) (net : Net) : ToolOut :=
  let versionId := Args.get args "version_id"
  let releaseDate := Args.get args "release_date"
  if !versionId.truthy then
    (.ok (txt "Error: Missing required parameter 'version_id'"), [])
  else
    let body := Json.obj [("released", Json.bool true),
      ("releaseDate", if releaseDate.truthy then releaseDate else Json.null)]
    let req := putReq cfg (cfg.url ++ "/rest/api/3/version/" ++ pyStr versionId) body
    match net 0 req with
    | .reqError e => (.ok (txt (connFailed e)), [req])
    | .resp r =>
      if r.status = 200 then
        match r.jsonBody with
        | none => (.ok (txt ("Error: " ++ jsonDecodeError)), [req])
        | some version =>
          let result :=
            "✅ Released version: " ++ pyStr (version.getD "name" Json.null) ++ "\n" ++
            "Release date: " ++ pyStr (version.getD "releaseDate" (Json.str "Not set")) ++ "\n" ++
            "Project: " ++ pyStr ((version.getD "project" (Json.obj [])).getD "key" (Json.str "Unknown"))
          (.ok (txt result), [req])
      else (.ok (txt (httpWithBody r.status r.text)), [req])

/-- Story-point and completion tally of `get_burndown_data`
(lines 3149-3158); `status.lower()` over a non-string name and fractional
points are abstracted. -/
def burndownTally (issues : List Json) : Int × Int :=
  issues.foldl
    (fun acc issue =>
      let fields := issue.getD "fields" (Json.obj [])
      let sp0 := fields.getD "customfield_10016" (Json.num 0)
      let sp := if sp0.truthy then jint sp0 else 0
      let status :=
        match (fields.getD "status" (Json.obj [])).getD "name" (Json.str "") with
        | Json.str s => asciiLower s
        | _ => ""
      let done := status == "done" || status == "closed" || status == "resolved"
      (acc.1 + sp, if done then acc.2 + sp else acc.2))
    (0, 0)

/-- Embeds `get_burndown_data` (lines 3123-3173); the float
`completionPercentage` is abstracted to integer division. -/
def get_burndown_data (cfg : Config) (args : Args) (net : Net) : ToolOut :=
  let sprintId := Args.get args "sprint_id"
  if !sprintId.truthy then
    (.ok (txt "Error: Missing required parameter 'sprint_id'"), [])
  else
    let req := getReq cfg
      (cfg.url ++ "/rest/agile/1.0/sprint/" ++ pyStr sprintId ++ "/issue?fields=summary,status,customfield_10016")
    match net 0 req with
    | .reqError e => (.ok (txt (connFailed e)), [req])
    | .resp r =>
      if r.status = 200 then
        match r.jsonBody with
        | none => (.ok (txt ("Error: " ++ jsonDecodeError)), [req])
        | some data =>
          let issues := (data.getD "issues" (Json.arr [])).asArr
          let tally := burndownTally issues
          let result := Json.obj [("sprintId", sprintId),
            ("totalStoryPoints", Json.num tally.1),
            ("completedStoryPoints", Json.num tally.2),
            ("remainingStoryPoints", Json.num (tally.1 - tally.2)),
            ("completionPercentage",
              Json.num (if 0 < tally.1 then tally.2 * 100 / tally.1 else 0)),
            ("issueCount", Json.num issues.length)]
          (.ok (txt (Json.dumps result)), [req])
      else (.ok (txt (httpWithBody r.status r.text)), [req])

/-! ## Dispatcher -/

/-- The `if/elif` chain of `call_tool` (lines 604-697) without its
`except` clause: an unknown name raises `ValueError(f"Unknown tool: {name}")`. -/
def dispatch (cfg : Config) (name : String) (args : Args) (net : Net) : ToolOut :=
  if name = "get_user_stories" then get_user_stories cfg args net
  else if name = "get_issue" then get_issue cfg args net
  else if name = "get_projects" then get_projects cfg args net
  else if name = "search_issues" then search_issues cfg args net
  else if name = "get_project_stats" then get_project_stats cfg args net
  else if name = "get_recent_issues" then get_recent_issues cfg args net
  else if name = "get_issues_by_assignee" then get_issues_by_assignee cfg args net
  else if name = "create_issue" then create_issue cfg args net
  else if name = "update_issue" then update_issue cfg args net
  else if name = "advanced_jql_search" then advanced_jql_search cfg args net
  else if name = "transition_issue" then transition_issue cfg args net
  else if name = "get_transitions" then get_transitions cfg args net
  else if name = "add_comment" then add_comment cfg args net
  else if name = "list_attachments" then list_attachments cfg args net
  else if name = "get_issue_types" then get_issue_types cfg args net
  else if name = "bulk_update_issues" then bulk_update_issues cfg args net
  else if name = "upload_attachment" then upload_attachment cfg args net
  else if name = "download_attachment" then download_attachment cfg args net
  else if name = "bulk_transition_issues" then bulk_transition_issues cfg args net
  else if name = "assign_issue" then assign_issue cfg args net
  else if name = "get_project_components" then get_project_components cfg args net
  else if name = "get_project_versions" then get_project_versions cfg args net
  else if name = "get_custom_fields" then get_custom_fields cfg args net
  else if name = "get_sprints" then get_sprints cfg args net
  else if name = "add_to_sprint" then add_to_sprint cfg args net
  else if name = "get_boards" then get_boards cfg args net
  else if name = "get_sprint_issues" then get_sprint_issues cfg args net
  else if name = "link_issues" then link_issues cfg args net
  else if name = "get_subtasks" then get_subtasks cfg args net
  else if name = "add_worklog" then add_worklog cfg args net
  else if name = "get_users" then get_users cfg args net
  else if name = "create_subtask" then create_subtask cfg args net
  else if name = "list_webhooks" then list_webhooks cfg args net
  else if name = "add_watcher" then add_watcher cfg args net
  else if name = "get_watchers" then get_watchers cfg args net
  else if name = "get_issue_links" then get_issue_links cfg args net
  else if name = "clone_issue" then clone_issue cfg args net
  else if name = "get_time_tracking_report" then get_time_tracking_report cfg args net
  else if name = "get_project_roles" then get_project_roles cfg args net
  else if name = "export_issues" then export_issues cfg args net
  else if name = "create_webhook" then create_webhook cfg args net
  else if name = "create_version" then create_version cfg args net
  else if name = "get_user_permissions" then get_user_permissions cfg args net
  else if name = "get_workflows" then get_workflows cfg args net
  else if name = "release_version" then release_version cfg args net
  else if name = "get_burndown_data" then get_burndown_data cfg args net
  else (.error ("Unknown tool: " ++ name), [])

/-- The names handled by the dispatcher, in source order. -/
def toolNames : List String :=
  ["get_user_stories", "get_issue", "get_projects", "search_issues",
   "get_project_stats", "get_recent_issues", "get_issues_by_assignee",
   "create_issue", "update_issue", "advanced_jql_search", "transition_issue",
   "get_transitions", "add_comment", "list_attachments", "get_issue_types",
   "bulk_update_issues", "upload_attachment", "download_attachment",
   "bulk_transition_issues", "assign_issue", "get_project_components",
   "get_project_versions", "get_custom_fields", "get_sprints",
   "add_to_sprint", "get_boards", "get_sprint_issues", "link_issues",
   "get_subtasks", "add_worklog", "get_users", "create_subtask",
   "list_webhooks", "add_watcher", "get_watchers", "get_issue_links",
   "clone_issue", "get_time_tracking_report", "get_project_roles",
   "export_issues", "create_webhook", "create_version",
   "get_user_permissions", "get_workflows", "release_version",
   "get_burndown_data"]

/-- The `except Exception` clause of `call_tool` (lines 698-700): any
exception raised by the dispatch is converted into a textual
`Error: ...` result. -/
def toolBoundary : ToolOut → List TextContent × List HttpRequest
  | (.ok res, tr) => (res, tr)
  | (.error e, tr) => (txt ("Error: " ++ e), tr)

/-- Embeds `call_tool` (lines 600-700). -/
def call_tool (cfg : Config) (name : String) (args : Args) (net : Net) :
    List TextContent × List HttpRequest :=
  toolBoundary (dispatch cfg name args net)

/-- The `days` bounds declared by the `get_recent_issues` input schema
(line 128 of `list_tools`). -/
def get_recent_issues_days_minimum : Int := 1

/-- The upper `days` bound declared by the same schema. -/
def get_recent_issues_days_maximum : Int := 365

/-! ## Helper lemmas -/

theorem validate_issue_key_nonempty {k : String} :
    validate_issue_key k = true → k ≠ "" := by
  intro h h0
  rw [h0] at h
  exact absurd h (by decide)

theorem validate_project_key_nonempty {k : String} :
    validate_project_key k = true → k ≠ "" := by
  intro h h0
  rw [h0] at h
  exact absurd h (by decide)

theorem truthy_str {s : String} (h : s ≠ "") : (Json.str s).truthy = true := by
  simp [Json.truthy, h]

/-- Substring test (`pat in s` of Python, used to state the presence of
the error marker and of the guidance phrases in result texts). -/
def containsSub (s pat : String) : Bool :=
  decide (pat.data <:+: s.data)

theorem containsSub_append_right {a b : String} (pat : String)
    (h : containsSub b pat = true) : containsSub (a ++ b) pat = true := by
  simp only [containsSub, decide_eq_true_eq] at h ⊢
  obtain ⟨s, t, hst⟩ := h
  exact ⟨a.data ++ s, t, by rw [String.data_append, ← hst]; simp⟩

/-- With a constant-status oracle every sent request gets a response of
that status. -/
theorem net_status_cases {net : Net} {c : Nat}
    (h : ∀ i req, statusOf (net i req) = some c) (i : Nat) (req : HttpRequest) :
    ∃ r : HttpResponse, net i req = .resp r ∧ r.status = c := by
  cases hn : net i req with
  | resp r =>
    refine ⟨r, rfl, ?_⟩
    have hh := h i req
    rw [hn] at hh
    simpa [statusOf] using hh
  | reqError e =>
    have hh := h i req
    rw [hn] at hh
    simp [statusOf] at hh

/-- The PUT request `assign_issue` sends (url and body shape,
lines 1903-1915). -/
def assignReqFor (cfg : Config) (k : String) (af : Json) : HttpRequest :=
  putReq cfg (cfg.url ++ "/rest/api/3/issue/" ++ k)
    (Json.obj [("fields", Json.obj [("assignee", af)])])

/-- Claim C10: `assign_issue` treats an empty assignee or one equal to
"null" in any letter case as an unassign request — the update body sets
the assignee field to JSON null and the 204 success text reports
"Unassigned" — while any other assignee string is sent as
`{"name": assignee}` and echoed in the success text. -/
theorem C10_assign_issue_null_unassigns
    (cfg : Config) (args : Args) (net : Net) (k a : String)
    (hk : Args.get args "key" = Json.str k)
    (hv : validate_issue_key k = true)
    (ha : Args.get args "assignee" = Json.str a) :
    ((a = "" ∨ asciiLower a = "null") →
      (assign_issue cfg args net).2 = [assignReqFor cfg k Json.null] ∧
      (∀ r, net 0 (assignReqFor cfg k Json.null) = .resp r → r.status = 204 →
        (assign_issue cfg args net).1 =
          .ok (txt ("✅ Assigned issue " ++ k ++ " to " ++ "Unassigned" ++ "\n" ++
            "URL: " ++ cfg.url ++ "/browse/" ++ k)))) ∧
    ((a ≠ "" ∧ asciiLower a ≠ "null") →
      (assign_issue cfg args net).2 =
        [assignReqFor cfg k (Json.obj [("name", Json.str a)])] ∧
      (∀ r, net 0 (assignReqFor cfg k (Json.obj [("name", Json.str a)])) = .resp r →
        r.status = 204 →
        (assign_issue cfg args net).1 =
          .ok (txt ("✅ Assigned issue " ++ k ++ " to " ++ a ++ "\n" ++
            "URL: " ++ cfg.url ++ "/browse/" ++ k)))) := by
  have hkne := validate_issue_key_nonempty hv
  have hS : ∀ (af : Json) (atext : String),
      assign_issue cfg args net = (match net 0 (assignReqFor cfg k af) with
        | .reqError e => ((Except.ok (txt (connFailed e)) : Except String (List TextContent)),
            [assignReqFor cfg k af])
        | .resp r =>
          if r.status = 204 then
            (.ok (txt ("✅ Assigned issue " ++ k ++ " to " ++ atext ++ "\n" ++
              "URL: " ++ cfg.url ++ "/browse/" ++ k)), [assignReqFor cfg k af])
          else (.ok (txt (httpWithBody r.status r.text)), [assignReqFor cfg k af])) →
      (assign_issue cfg args net).2 = [assignReqFor cfg k af] ∧
      (∀ r, net 0 (assignReqFor cfg k af) = .resp r → r.status = 204 →
        (assign_issue cfg args net).1 =
          .ok (txt ("✅ Assigned issue " ++ k ++ " to " ++ atext ++ "\n" ++
            "URL: " ++ cfg.url ++ "/browse/" ++ k))) := by
    intro af atext h
    constructor
    · rw [h]
      cases hn : net 0 (assignReqFor cfg k af) with
      | reqError e => rfl
      | resp r => by_cases h2 : r.status = 204 <;> simp [h2]
    · intro r hr hst
      rw [h, hr]
      simp [hst]
  constructor
  · rintro (rfl | hnull)
    · refine hS Json.null "Unassigned" ?_
      unfold assign_issue assignReqFor
      rw [hk, ha]
      simp [Json.truthy, hkne, hv]
    · have hane : a ≠ "" := by
        intro h0; rw [h0] at hnull; exact absurd hnull (by decide)
      refine hS Json.null "Unassigned" ?_
      unfold assign_issue assignReqFor
      rw [hk, ha]
      simp [Json.truthy, hkne, hv, hane, hnull]
  · rintro ⟨hane, hnn⟩
    refine hS (Json.obj [("name", Json.str a)]) a ?_
    unfold assign_issue assignReqFor
    rw [hk, ha]
    simp [Json.truthy, hkne, hv, hane, hnn]

/-- Witness for C10 at concrete inputs: assignee "NULL" unassigns, "bob"
assigns by name. -/
theorem C10_assign_issue_null_unassigns_witness :
    (assign_issue { url := "https://jira.example", username := "u", apiToken := "t" }
        [("key", Json.str "KW-1"), ("assignee", Json.str "NULL")]
        (fun _ _ => .resp { status := 204 })).2 =
      [assignReqFor { url := "https://jira.example", username := "u", apiToken := "t" }
        "KW-1" Json.null] ∧
    (assign_issue { url := "https://jira.example", username := "u", apiToken := "t" }
        [("key", Json.str "KW-1"), ("assignee", Json.str "bob")]
        (fun _ _ => .resp { status := 204 })).1 =
      .ok (txt ("✅ Assigned issue " ++ "KW-1" ++ " to " ++ "bob" ++ "\n" ++
        "URL: " ++ "https://jira.example" ++ "/browse/" ++ "KW-1")) := by
  constructor
  · exact ((C10_assign_issue_null_unassigns
      { url := "https://jira.example", username := "u", apiToken := "t" }
      [("key", Json.str "KW-1"), ("assignee", Json.str "NULL")]
      (fun _ _ => .resp { status := 204 }) "KW-1" "NULL" rfl (by decide) rfl).1
      (Or.inr (by decide))).1
  · exact ((C10_assign_issue_null_unassigns
      { url := "https://jira.example", username := "u", apiToken := "t" }
      [("key", Json.str "KW-1"), ("assignee", Json.str "bob")]
      (fun _ _ => .resp { status := 204 }) "KW-1" "bob" rfl (by decide) rfl).2
      ⟨by decide, by decide⟩).2 _ rfl rfl

/-! ## Limit clamping (claims C8 and C9)

Each of the five handlers with a `limit` argument computes
`min(requested, 100)` and passes it as the `maxResults` query parameter;
the following helpers establish, per handler, that every request it sends
carries exactly that value. -/

theorem get_user_stories_maxResults (cfg : Config) (args : Args) (net : Net)
    (l : Int) (hl : Args.getD args "limit" (Json.num 10) = Json.num l) :
    ∀ req ∈ (get_user_stories cfg args net).2,
      jfield req.params "maxResults" = some (Json.num (min l 100)) := by
  intro req hreq
  unfold get_user_stories getUserStoriesRequest at hreq
  simp only [hl] at hreq
  repeat' split at hreq
  all_goals
    first
    | exact absurd hreq (List.not_mem_nil _)
    | (rw [List.mem_singleton] at hreq; subst hreq; rfl)

theorem search_issues_maxResults (cfg : Config) (args : Args) (net : Net)
    (l : Int) (hl : Args.getD args "limit" (Json.num 50) = Json.num l) :
    ∀ req ∈ (search_issues cfg args net).2,
      jfield req.params "maxResults" = some (Json.num (min l 100)) := by
  intro req hreq
  unfold search_issues at hreq
  simp only [hl] at hreq
  repeat' split at hreq
  all_goals
    first
    | exact absurd hreq (List.not_mem_nil _)
    | (rw [List.mem_singleton] at hreq; subst hreq; rfl)

theorem get_recent_issues_maxResults (cfg : Config) (args : Args) (net : Net)
    (l : Int) (hl : Args.getD args "limit" (Json.num 20) = Json.num l) :
    ∀ req ∈ (get_recent_issues cfg args net).2,
      jfield req.params "maxResults" = some (Json.num (min l 100)) := by
  intro req hreq
  unfold get_recent_issues at hreq
  simp only [hl] at hreq
  repeat' split at hreq
  all_goals
    first
    | exact absurd hreq (List.not_mem_nil _)
    | (rw [List.mem_singleton] at hreq; subst hreq; rfl)

theorem get_issues_by_assignee_maxResults (cfg : Config) (args : Args) (net : Net)
    (l : Int) (hl : Args.getD args "limit" (Json.num 50) = Json.num l) :
    ∀ req ∈ (get_issues_by_assignee cfg args net).2,
      jfield req.params "maxResults" = some (Json.num (min l 100)) := by
  intro req hreq
  unfold get_issues_by_assignee at hreq
  simp only [hl] at hreq
  repeat' split at hreq
  all_goals
    first
    | exact absurd hreq (List.not_mem_nil _)
    | (rw [List.mem_singleton] at hreq; subst hreq; rfl)

theorem advanced_jql_search_maxResults (cfg : Config) (args : Args) (net : Net)
    (l : Int) (hl : Args.getD args "limit" (Json.num 50) = Json.num l) :
    ∀ req ∈ (advanced_jql_search cfg args net).2,
      jfield req.params "maxResults" = some (Json.num (min l 100)) := by
  intro req hreq
  unfold advanced_jql_search at hreq
  simp only [hl] at hreq
  repeat' split at hreq
  all_goals
    first
    | exact absurd hreq (List.not_mem_nil _)
    | (rw [List.mem_singleton] at hreq; subst hreq; rfl)

/-- Claim C8: for every tool accepting a `limit` argument
(`get_user_stories`, `search_issues`, `get_recent_issues`,
`get_issues_by_assignee`, `advanced_jql_search`), the `maxResults` value
of every request sent is `min(requested, 100)`, which never exceeds
100. -/
theorem C8_limit_clamped_to_100 :
    (∀ cfg args net l, Args.getD args "limit" (Json.num 10) = Json.num l →
      ∀ req ∈ (get_user_stories cfg args net).2,
        jfield req.params "maxResults" = some (Json.num (min l 100))) ∧
    (∀ cfg args net l, Args.getD args "limit" (Json.num 50) = Json.num l →
      ∀ req ∈ (search_issues cfg args net).2,
        jfield req.params "maxResults" = some (Json.num (min l 100))) ∧
    (∀ cfg args net l, Args.getD args "limit" (Json.num 20) = Json.num l →
      ∀ req ∈ (get_recent_issues cfg args net).2,
        jfield req.params "maxResults" = some (Json.num (min l 100))) ∧
    (∀ cfg args net l, Args.getD args "limit" (Json.num 50) = Json.num l →
      ∀ req ∈ (get_issues_by_assignee cfg args net).2,
        jfield req.params "maxResults" = some (Json.num (min l 100))) ∧
    (∀ cfg args net l, Args.getD args "limit" (Json.num 50) = Json.num l →
      ∀ req ∈ (advanced_jql_search cfg args net).2,
        jfield req.params "maxResults" = some (Json.num (min l 100))) ∧
    (∀ l : Int, min l 100 ≤ 100) :=
  ⟨get_user_stories_maxResults, search_issues_maxResults,
   get_recent_issues_maxResults, get_issues_by_assignee_maxResults,
   advanced_jql_search_maxResults, fun _ => min_le_right _ _⟩

/-- Witness for C8: a requested limit of 10000 reaches the remote API as
an effective 100. -/
theorem C8_limit_clamped_to_100_witness :
    ∀ req ∈ (search_issues
        { url := "https://jira.example", username := "u", apiToken := "t" }
        [("jql", Json.str "project = KW"), ("limit", Json.num 10000)]
        (fun _ _ => .resp { status := 200, jsonBody := some (Json.obj []) })).2,
      jfield req.params "maxResults" = some (Json.num 100) :=
  C8_limit_clamped_to_100.2.1
    { url := "https://jira.example", username := "u", apiToken := "t" }
    [("jql", Json.str "project = KW"), ("limit", Json.num 10000)]
    (fun _ _ => .resp { status := 200, jsonBody := some (Json.obj []) })
    10000 rfl

/-- Claim C9: the clamp `min(limit, 100)` enforces only the upper bound —
any requested limit at most 100, including 0 and negative values, is
passed downstream unchanged as `maxResults`; the schema's declared
minimum of 1 is not enforced by any handler. -/
theorem C9_limit_lower_bound_not_enforced :
    (∀ cfg args net l, Args.getD args "limit" (Json.num 10) = Json.num l →
      l ≤ 100 →
      ∀ req ∈ (get_user_stories cfg args net).2,
        jfield req.params "maxResults" = some (Json.num l)) ∧
    (∀ cfg args net l, Args.getD args "limit" (Json.num 50) = Json.num l →
      l ≤ 100 →
      ∀ req ∈ (search_issues cfg args net).2,
        jfield req.params "maxResults" = some (Json.num l)) ∧
    (∀ cfg args net l, Args.getD args "limit" (Json.num 20) = Json.num l →
      l ≤ 100 →
      ∀ req ∈ (get_recent_issues cfg args net).2,
        jfield req.params "maxResults" = some (Json.num l)) ∧
    (∀ cfg args net l, Args.getD args "limit" (Json.num 50) = Json.num l →
      l ≤ 100 →
      ∀ req ∈ (get_issues_by_assignee cfg args net).2,
        jfield req.params "maxResults" = some (Json.num l)) ∧
    (∀ cfg args net l, Args.getD args "limit" (Json.num 50) = Json.num l →
      l ≤ 100 →
      ∀ req ∈ (advanced_jql_search cfg args net).2,
        jfield req.params "maxResults" = some (Json.num l)) := by
  refine ⟨fun cfg args net l hl hle req hreq => ?_,
    fun cfg args net l hl hle req hreq => ?_,
    fun cfg args net l hl hle req hreq => ?_,
    fun cfg args net l hl hle req hreq => ?_,
    fun cfg args net l hl hle req hreq => ?_⟩
  · have h := get_user_stories_maxResults cfg args net l hl req hreq
    rwa [min_eq_left hle] at h
  · have h := search_issues_maxResults cfg args net l hl req hreq
    rwa [min_eq_left hle] at h
  · have h := get_recent_issues_maxResults cfg args net l hl req hreq
    rwa [min_eq_left hle] at h
  · have h := get_issues_by_assignee_maxResults cfg args net l hl req hreq
    rwa [min_eq_left hle] at h
  · have h := advanced_jql_search_maxResults cfg args net l hl req hreq
    rwa [min_eq_left hle] at h

/-- Witness for C9: a requested limit of -5 reaches the remote API
unchanged. -/
theorem C9_limit_lower_bound_not_enforced_witness :
    ∀ req ∈ (get_recent_issues
        { url := "https://jira.example", username := "u", apiToken := "t" }
        [("limit", Json.num (-5))]
        (fun _ _ => .resp { status := 200, jsonBody := some (Json.obj []) })).2,
      jfield req.params "maxResults" = some (Json.num (-5)) :=
  C9_limit_lower_bound_not_enforced.2.2.1
    { url := "https://jira.example", username := "u", apiToken := "t" }
    [("limit", Json.num (-5))]
    (fun _ _ => .resp { status := 200, jsonBody := some (Json.obj []) })
    (-5) rfl (by decide)

/-- Claim C4 (code bug): `get_recent_issues` performs no range check on
`days`, although its own input schema declares minimum 1 and maximum 365.
At `days = 400` — outside the declared range — the handler interpolates
the value into the JQL, issues the search request and returns its shaped
result instead of rejecting the call with a validation error before any
network traffic. -/
theorem C4_get_recent_issues_days_not_range_checked :
    get_recent_issues_days_maximum < 400 ∧
    (get_recent_issues
        { url := "https://jira.example", username := "u", apiToken := "t" }
        [("days", Json.num 400)]
        (fun _ _ => .resp { status := 200, jsonBody := some (Json.obj [("issues", Json.arr [])]) })).2 =
      [getReqP { url := "https://jira.example", username := "u", apiToken := "t" }
        "https://jira.example/rest/api/3/search"
        [("jql", Json.str "updated >= -400d ORDER BY updated DESC"),
         ("maxResults", Json.num 20)]] ∧
    (get_recent_issues
        { url := "https://jira.example", username := "u", apiToken := "t" }
        [("days", Json.num 400)]
        (fun _ _ => .resp { status := 200, jsonBody := some (Json.obj [("issues", Json.arr [])]) })).1 =
      .ok (txt (Json.dumps (Json.obj [("issues", Json.arr [])]))) :=
  ⟨by decide, rfl, rfl⟩

/-- Any text produced by the dispatcher boundary begins with "Error:". -/
theorem errorPrefix (e : String) : "Error:".data <+: ("Error: " ++ e).data := by
  have h : ("Error: " ++ e) = "Error:" ++ (" " ++ e) := by
    have h0 : "Error: " = "Error:" ++ " " := rfl
    rw [h0, String.append_assoc]
  rw [h, String.data_append]
  exact List.prefix_append _ _

/-- Claim C6: the dispatcher never lets an exception escape — a call with
an unrecognized tool name returns an error result naming the unknown tool,
and any exception raised by a tool handler (the `Except.error` channel) is
converted at the tool boundary into a textual result beginning with
"Error:". -/
theorem C6_dispatcher_never_raises :
    (∀ cfg name args net, (∀ s ∈ toolNames, name ≠ s) →
      call_tool cfg name args net = (txt ("Error: Unknown tool: " ++ name), [])) ∧
    (∀ e (tr : List HttpRequest), toolBoundary (.error e, tr) = (txt ("Error: " ++ e), tr) ∧
      "Error:".data <+: ("Error: " ++ e).data) := by
  constructor
  · intro cfg name args net hname
    unfold call_tool dispatch
    rw [if_neg (hname "get_user_stories" (by decide))]
    rw [if_neg (hname "get_issue" (by decide))]
    rw [if_neg (hname "get_projects" (by decide))]
    rw [if_neg (hname "search_issues" (by decide))]
    rw [if_neg (hname "get_project_stats" (by decide))]
    rw [if_neg (hname "get_recent_issues" (by decide))]
    rw [if_neg (hname "get_issues_by_assignee" (by decide))]
    rw [if_neg (hname "create_issue" (by decide))]
    rw [if_neg (hname "update_issue" (by decide))]
    rw [if_neg (hname "advanced_jql_search" (by decide))]
    rw [if_neg (hname "transition_issue" (by decide))]
    rw [if_neg (hname "get_transitions" (by decide))]
    rw [if_neg (hname "add_comment" (by decide))]
    rw [if_neg (hname "list_attachments" (by decide))]
    rw [if_neg (hname "get_issue_types" (by decide))]
    rw [if_neg (hname "bulk_update_issues" (by decide))]
    rw [if_neg (hname "upload_attachment" (by decide))]
    rw [if_neg (hname "download_attachment" (by decide))]
    rw [if_neg (hname "bulk_transition_issues" (by decide))]
    rw [if_neg (hname "assign_issue" (by decide))]
    rw [if_neg (hname "get_project_components" (by decide))]
    rw [if_neg (hname "get_project_versions" (by decide))]
    rw [if_neg (hname "get_custom_fields" (by decide))]
    rw [if_neg (hname "get_sprints" (by decide))]
    rw [if_neg (hname "add_to_sprint" (by decide))]
    rw [if_neg (hname "get_boards" (by decide))]
    rw [if_neg (hname "get_sprint_issues" (by decide))]
    rw [if_neg (hname "link_issues" (by decide))]
    rw [if_neg (hname "get_subtasks" (by decide))]
    rw [if_neg (hname "add_worklog" (by decide))]
    rw [if_neg (hname "get_users" (by decide))]
    rw [if_neg (hname "create_subtask" (by decide))]
    rw [if_neg (hname "list_webhooks" (by decide))]
    rw [if_neg (hname "add_watcher" (by decide))]
    rw [if_neg (hname "get_watchers" (by decide))]
    rw [if_neg (hname "get_issue_links" (by decide))]
    rw [if_neg (hname "clone_issue" (by decide))]
    rw [if_neg (hname "get_time_tracking_report" (by decide))]
    rw [if_neg (hname "get_project_roles" (by decide))]
    rw [if_neg (hname "export_issues" (by decide))]
    rw [if_neg (hname "create_webhook" (by decide))]
    rw [if_neg (hname "create_version" (by decide))]
    rw [if_neg (hname "get_user_permissions" (by decide))]
    rw [if_neg (hname "get_workflows" (by decide))]
    rw [if_neg (hname "release_version" (by decide))]
    rw [if_neg (hname "get_burndown_data" (by decide))]
    rfl
  · intro e tr
    exact ⟨rfl, errorPrefix e⟩

/-- Witness for C6 at an unknown tool name. -/
theorem C6_dispatcher_never_raises_witness :
    call_tool { url := "https://jira.example", username := "u", apiToken := "t" }
        "frobnicate" [] (fun _ _ => .reqError "down") =
      (txt ("Error: Unknown tool: " ++ "frobnicate"), []) :=
  C6_dispatcher_never_raises.1
    { url := "https://jira.example", username := "u", apiToken := "t" }
    "frobnicate" [] (fun _ _ => .reqError "down") (by decide)

theorem get_issue_rejects_invalid_key (cfg : Config) (args : Args) (net : Net)
    (k : String) (hk : Args.get args "key" = Json.str k) (hne : k ≠ "") (hv : validate_issue_key k = false) :
    get_issue cfg args net = (.ok (txt "Error: Invalid issue key format"), []) := by
  unfold get_issue
  simp [hk, truthy_str hne, hv]

theorem update_issue_rejects_invalid_key (cfg : Config) (args : Args) (net : Net)
    (k : String) (hk : Args.get args "key" = Json.str k) (hne : k ≠ "") (hv : validate_issue_key k = false) :
    update_issue cfg args net = (.ok (txt "Error: Invalid issue key format"), []) := by
  unfold update_issue
  simp [hk, truthy_str hne, hv]

theorem transition_issue_rejects_invalid_key (cfg : Config) (args : Args) (net : Net)
    (k : String) (hk : Args.get args "key" = Json.str k) (hne : k ≠ "") (ht0 : (Args.get args "transition").truthy = true) (hv : validate_issue_key k = false) :
    transition_issue cfg args net = (.ok (txt "Error: Invalid issue key format"), []) := by
  unfold transition_issue
  simp [hk, truthy_str hne, hv, ht0]

theorem get_transitions_rejects_invalid_key (cfg : Config) (args : Args) (net : Net)
    (k : String) (hk : Args.get args "key" = Json.str k) (hne : k ≠ "") (hv : validate_issue_key k = false) :
    get_transitions cfg args net = (.ok (txt "Error: Invalid issue key format"), []) := by
  unfold get_transitions
  simp [hk, truthy_str hne, hv]

theorem add_comment_rejects_invalid_key (cfg : Config) (args : Args) (net : Net)
    (k : String) (hk : Args.get args "key" = Json.str k) (hne : k ≠ "") (ht0 : (Args.get args "comment").truthy = true) (hv : validate_issue_key k = false) :
    add_comment cfg args net = (.ok (txt "Error: Invalid issue key format"), []) := by
  unfold add_comment
  simp [hk, truthy_str hne, hv, ht0]

theorem list_attachments_rejects_invalid_key (cfg : Config) (args : Args) (net : Net)
    (k : String) (hk : Args.get args "key" = Json.str k) (hne : k ≠ "") (hv : validate_issue_key k = false) :
    list_attachments cfg args net = (.ok (txt "Error: Invalid issue key format"), []) := by
  unfold list_attachments
  simp [hk, truthy_str hne, hv]

theorem upload_attachment_rejects_invalid_key (cfg : Config) (args : Args) (net : Net)
    (k : String) (hk : Args.get args "key" = Json.str k) (hne : k ≠ "") (ht0 : (Args.get args "file_path").truthy = true) (hv : validate_issue_key k = false) :
    upload_attachment cfg args net = (.ok (txt "Error: Invalid issue key format"), []) := by
  unfold upload_attachment
  simp [hk, truthy_str hne, hv, ht0]

theorem assign_issue_rejects_invalid_key (cfg : Config) (args : Args) (net : Net)
    (k : String) (hk : Args.get args "key" = Json.str k) (hne : k ≠ "") (hv : validate_issue_key k = false) :
    assign_issue cfg args net = (.ok (txt "Error: Invalid issue key format"), []) := by
  unfold assign_issue
  simp [hk, truthy_str hne, hv]

theorem get_subtasks_rejects_invalid_key (cfg : Config) (args : Args) (net : Net)
    (k : String) (hk : Args.get args "key" = Json.str k) (hne : k ≠ "") (hv : validate_issue_key k = false) :
    get_subtasks cfg args net = (.ok (txt "Error: Invalid issue key format"), []) := by
  unfold get_subtasks
  simp [hk, truthy_str hne, hv]

theorem add_worklog_rejects_invalid_key (cfg : Config) (args : Args) (net : Net)
    (k : String) (hk : Args.get args "key" = Json.str k) (hne : k ≠ "") (ht0 : (Args.get args "time_spent").truthy = true) (hv : validate_issue_key k = false) :
    add_worklog cfg args net = (.ok (txt "Error: Invalid issue key format"), []) := by
  unfold add_worklog
  simp [hk, truthy_str hne, hv, ht0]

theorem add_watcher_rejects_invalid_key (cfg : Config) (args : Args) (net : Net)
    (k : String) (hk : Args.get args "key" = Json.str k) (hne : k ≠ "") (ht0 : (Args.get args "username").truthy = true) (hv : validate_issue_key k = false) :
    add_watcher cfg args net = (.ok (txt "Error: Invalid issue key format"), []) := by
  unfold add_watcher
  simp [hk, truthy_str hne, hv, ht0]

theorem get_watchers_rejects_invalid_key (cfg : Config) (args : Args) (net : Net)
    (k : String) (hk : Args.get args "key" = Json.str k) (hne : k ≠ "") (hv : validate_issue_key k = false) :
    get_watchers cfg args net = (.ok (txt "Error: Invalid issue key format"), []) := by
  unfold get_watchers
  simp [hk, truthy_str hne, hv]

theorem get_issue_links_rejects_invalid_key (cfg : Config) (args : Args) (net : Net)
    (k : String) (hk : Args.get args "key" = Json.str k) (hne : k ≠ "") (hv : validate_issue_key k = false) :
    get_issue_links cfg args net = (.ok (txt "Error: Invalid issue key format"), []) := by
  unfold get_issue_links
  simp [hk, truthy_str hne, hv]

theorem clone_issue_rejects_invalid_key (cfg : Config) (args : Args) (net : Net)
    (k : String) (hk : Args.get args "key" = Json.str k) (hne : k ≠ "") (ht0 : (Args.get args "summary").truthy = true) (hv : validate_issue_key k = false) :
    clone_issue cfg args net = (.ok (txt "Error: Invalid issue key format"), []) := by
  unfold clone_issue
  simp [hk, truthy_str hne, hv, ht0]

theorem create_subtask_rejects_invalid_key (cfg : Config) (args : Args) (net : Net)
    (k : String) (hk : Args.get args "parent_key" = Json.str k) (hne : k ≠ "") (ht0 : (Args.get args "summary").truthy = true) (hv : validate_issue_key k = false) :
    create_subtask cfg args net = (.ok (txt "Error: Invalid parent issue key format"), []) := by
  unfold create_subtask
  simp [hk, truthy_str hne, hv, ht0]

theorem get_project_stats_rejects_invalid_key (cfg : Config) (args : Args) (net : Net)
    (k : String) (hk : Args.get args "project" = Json.str k) (hne : k ≠ "") (hv : validate_project_key k = false) :
    get_project_stats cfg args net = (.ok (txt "Error: Invalid project key format"), []) := by
  unfold get_project_stats
  simp [hk, truthy_str hne, hv]

theorem create_issue_rejects_invalid_key (cfg : Config) (args : Args) (net : Net)
    (k : String) (hk : Args.get args "project" = Json.str k) (hne : k ≠ "") (ht0 : (Args.get args "summary").truthy = true) (hv : validate_project_key k = false) :
    create_issue cfg args net = (.ok (txt "Error: Invalid project key format"), []) := by
  unfold create_issue
  simp [hk, truthy_str hne, hv, ht0]

theorem get_issue_types_rejects_invalid_key (cfg : Config) (args : Args) (net : Net)
    (k : String) (hk : Args.get args "project" = Json.str k) (hne : k ≠ "") (hv : validate_project_key k = false) :
    get_issue_types cfg args net = (.ok (txt "Error: Invalid project key format"), []) := by
  unfold get_issue_types
  simp [hk, truthy_str hne, hv]

theorem get_project_components_rejects_invalid_key (cfg : Config) (args : Args) (net : Net)
    (k : String) (hk : Args.get args "project" = Json.str k) (hne : k ≠ "") (hv : validate_project_key k = false) :
    get_project_components cfg args net = (.ok (txt "Error: Invalid project key format"), []) := by
  unfold get_project_components
  simp [hk, truthy_str hne, hv]

theorem get_project_versions_rejects_invalid_key (cfg : Config) (args : Args) (net : Net)
    (k : String) (hk : Args.get args "project" = Json.str k) (hne : k ≠ "") (hv : validate_project_key k = false) :
    get_project_versions cfg args net = (.ok (txt "Error: Invalid project key format"), []) := by
  unfold get_project_versions
  simp [hk, truthy_str hne, hv]

theorem get_users_rejects_invalid_key (cfg : Config) (args : Args) (net : Net)
    (k : String) (hk : Args.get args "project" = Json.str k) (hne : k ≠ "") (hv : validate_project_key k = false) :
    get_users cfg args net = (.ok (txt "Error: Invalid project key format"), []) := by
  unfold get_users
  simp [hk, truthy_str hne, hv]

theorem get_time_tracking_report_rejects_invalid_key (cfg : Config) (args : Args) (net : Net)
    (k : String) (hk : Args.get args "project" = Json.str k) (hne : k ≠ "") (hv : validate_project_key k = false) :
    get_time_tracking_report cfg args net = (.ok (txt "Error: Invalid project key format"), []) := by
  unfold get_time_tracking_report
  simp [hk, truthy_str hne, hv]

theorem get_project_roles_rejects_invalid_key (cfg : Config) (args : Args) (net : Net)
    (k : String) (hk : Args.get args "project" = Json.str k) (hne : k ≠ "") (hv : validate_project_key k = false) :
    get_project_roles cfg args net = (.ok (txt "Error: Invalid project key format"), []) := by
  unfold get_project_roles
  simp [hk, truthy_str hne, hv]

theorem create_version_rejects_invalid_key (cfg : Config) (args : Args) (net : Net)
    (k : String) (hk : Args.get args "project" = Json.str k) (hne : k ≠ "") (ht0 : (Args.get args "name").truthy = true) (hv : validate_project_key k = false) :
    create_version cfg args net = (.ok (txt "Error: Invalid project key format"), []) := by
  unfold create_version
  simp [hk, truthy_str hne, hv, ht0]

theorem get_user_permissions_rejects_invalid_key (cfg : Config) (args : Args) (net : Net)
    (k : String) (hk : Args.get args "project" = Json.str k) (hne : k ≠ "") (ht0 : (Args.get args "username").truthy = true) (hv : validate_project_key k = false) :
    get_user_permissions cfg args net = (.ok (txt "Error: Invalid project key format"), []) := by
  unfold get_user_permissions
  simp [hk, truthy_str hne, hv, ht0]

theorem get_user_stories_rejects_invalid_key (cfg : Config) (args : Args)
    (net : Net) (k : String) (l : Int)
    (hl : Args.getD args "limit" (Json.num 10) = Json.num l)
    (hk : Args.getD args "project" (Json.str "") = Json.str k) (hne : k ≠ "")
    (hv : validate_project_key k = false) :
    get_user_stories cfg args net =
      (.ok (txt "Error: Invalid project key format"), []) := by
  unfold get_user_stories
  simp [hl, hk, truthy_str hne, hv]

theorem link_issues_rejects_invalid_key (cfg : Config) (args : Args)
    (net : Net) (ik ok' : String)
    (hi : Args.get args "inward_key" = Json.str ik) (hine : ik ≠ "")
    (ho : Args.get args "outward_key" = Json.str ok') (hone : ok' ≠ "")
    (ht : (Args.get args "link_type").truthy = true)
    (hv : validate_issue_key ik = false ∨ validate_issue_key ok' = false) :
    link_issues cfg args net = (.ok (txt "Error: Invalid issue key format"), []) := by
  unfold link_issues
  rcases hv with hv | hv <;>
    simp [hi, ho, truthy_str hine, truthy_str hone, ht, hv]

theorem truthy_arr {l : List Json} (h : l ≠ []) : (Json.arr l).truthy = true := by
  simp [Json.truthy, h]

theorem bulk_update_issues_rejects_invalid_key (cfg : Config) (args : Args)
    (net : Net) (ks : List Json) (k : String)
    (hkeys : Args.getD args "keys" (Json.arr []) = Json.arr ks) (hks : ks ≠ [])
    (hother : (Args.getD args "updates" (Json.obj [])).truthy = true)
    (hfi : firstInvalidKey ks = .ok (some k)) :
    bulk_update_issues cfg args net =
      (.ok (txt ("Error: Invalid issue key format: " ++ k)), []) := by
  unfold bulk_update_issues
  simp [hkeys, truthy_arr hks, hother, hfi]

theorem bulk_transition_issues_rejects_invalid_key (cfg : Config) (args : Args)
    (net : Net) (ks : List Json) (k : String)
    (hkeys : Args.getD args "keys" (Json.arr []) = Json.arr ks) (hks : ks ≠ [])
    (hother : (Args.get args "transition").truthy = true)
    (hfi : firstInvalidKey ks = .ok (some k)) :
    bulk_transition_issues cfg args net =
      (.ok (txt ("Error: Invalid issue key format: " ++ k)), []) := by
  unfold bulk_transition_issues
  simp [hkeys, truthy_arr hks, hother, hfi]

theorem add_to_sprint_rejects_invalid_key (cfg : Config) (args : Args)
    (net : Net) (ks : List Json) (k : String)
    (hkeys : Args.getD args "keys" (Json.arr []) = Json.arr ks) (hks : ks ≠ [])
    (hother : (Args.get args "sprint_id").truthy = true)
    (hfi : firstInvalidKey ks = .ok (some k)) :
    add_to_sprint cfg args net =
      (.ok (txt ("Error: Invalid issue key format: " ++ k)), []) := by
  unfold add_to_sprint
  simp [hkeys, truthy_arr hks, hother, hfi]

/-- Claim C1 (corrected): every operation that accepts a project key or
issue key argument rejects a key that fails the source's validator —
`re.match` under Python semantics, which also accepts one trailing
newline and Unicode digits — with a validation-error text result and an
empty request trace; such a key never reaches an HTTP path or JQL
fragment.  A key outside the claimed anchored-ASCII regex language that
Python nevertheless accepts (such as "KW-٣") is not rejected and is sent
(the counterexample).  One conjunct per key-accepting handler, in
particular the seven named by the claim (`get_issue`, `get_user_stories`,
`get_project_stats`, `create_issue`, `update_issue`, `transition_issue`,
`bulk_update_issues`) and `bulk_transition_issues`. -/
theorem C1_key_validation_before_request :
    (∀ cfg args net k l, Args.getD args "limit" (Json.num 10) = Json.num l →
      Args.getD args "project" (Json.str "") = Json.str k → k ≠ "" →
      validate_project_key k = false →
      get_user_stories cfg args net =
        (.ok (txt "Error: Invalid project key format"), [])) ∧
    (∀ cfg args net k, Args.get args "key" = Json.str k → k ≠ "" → validate_issue_key k = false →
      get_issue cfg args net = (.ok (txt "Error: Invalid issue key format"), [])) ∧
    (∀ cfg args net k, Args.get args "project" = Json.str k → k ≠ "" → validate_project_key k = false →
      get_project_stats cfg args net = (.ok (txt "Error: Invalid project key format"), [])) ∧
    (∀ cfg args net k, Args.get args "project" = Json.str k → k ≠ "" → (Args.get args "summary").truthy = true → validate_project_key k = false →
      create_issue cfg args net = (.ok (txt "Error: Invalid project key format"), [])) ∧
    (∀ cfg args net k, Args.get args "key" = Json.str k → k ≠ "" → validate_issue_key k = false →
      update_issue cfg args net = (.ok (txt "Error: Invalid issue key format"), [])) ∧
    (∀ cfg args net k, Args.get args "key" = Json.str k → k ≠ "" → (Args.get args "transition").truthy = true → validate_issue_key k = false →
      transition_issue cfg args net = (.ok (txt "Error: Invalid issue key format"), [])) ∧
    (∀ cfg args net ks k, Args.getD args "keys" (Json.arr []) = Json.arr ks →
      ks ≠ [] → (Args.getD args "updates" (Json.obj [])).truthy = true → firstInvalidKey ks = .ok (some k) →
      bulk_update_issues cfg args net =
        (.ok (txt ("Error: Invalid issue key format: " ++ k)), [])) ∧
    (∀ cfg args net ks k, Args.getD args "keys" (Json.arr []) = Json.arr ks →
      ks ≠ [] → (Args.get args "transition").truthy = true → firstInvalidKey ks = .ok (some k) →
      bulk_transition_issues cfg args net =
        (.ok (txt ("Error: Invalid issue key format: " ++ k)), [])) ∧
    (∀ cfg args net ks k, Args.getD args "keys" (Json.arr []) = Json.arr ks →
      ks ≠ [] → (Args.get args "sprint_id").truthy = true → firstInvalidKey ks = .ok (some k) →
      add_to_sprint cfg args net =
        (.ok (txt ("Error: Invalid issue key format: " ++ k)), [])) ∧
    (∀ cfg args net k, Args.get args "key" = Json.str k → k ≠ "" → validate_issue_key k = false →
      get_transitions cfg args net = (.ok (txt "Error: Invalid issue key format"), [])) ∧
    (∀ cfg args net k, Args.get args "key" = Json.str k → k ≠ "" → (Args.get args "comment").truthy = true → validate_issue_key k = false →
      add_comment cfg args net = (.ok (txt "Error: Invalid issue key format"), [])) ∧
    (∀ cfg args net k, Args.get args "key" = Json.str k → k ≠ "" → validate_issue_key k = false →
      list_attachments cfg args net = (.ok (txt "Error: Invalid issue key format"), [])) ∧
    (∀ cfg args net k, Args.get args "key" = Json.str k → k ≠ "" → (Args.get args "file_path").truthy = true → validate_issue_key k = false →
      upload_attachment cfg args net = (.ok (txt "Error: Invalid issue key format"), [])) ∧
    (∀ cfg args net k, Args.get args "key" = Json.str k → k ≠ "" → validate_issue_key k = false →
      assign_issue cfg args net = (.ok (txt "Error: Invalid issue key format"), [])) ∧
    (∀ cfg args net k, Args.get args "key" = Json.str k → k ≠ "" → validate_issue_key k = false →
      get_subtasks cfg args net = (.ok (txt "Error: Invalid issue key format"), [])) ∧
    (∀ cfg args net k, Args.get args "key" = Json.str k → k ≠ "" → (Args.get args "time_spent").truthy = true → validate_issue_key k = false →
      add_worklog cfg args net = (.ok (txt "Error: Invalid issue key format"), [])) ∧
    (∀ cfg args net k, Args.get args "key" = Json.str k → k ≠ "" → (Args.get args "username").truthy = true → validate_issue_key k = false →
      add_watcher cfg args net = (.ok (txt "Error: Invalid issue key format"), [])) ∧
    (∀ cfg args net k, Args.get args "key" = Json.str k → k ≠ "" → validate_issue_key k = false →
      get_watchers cfg args net = (.ok (txt "Error: Invalid issue key format"), [])) ∧
    (∀ cfg args net k, Args.get args "key" = Json.str k → k ≠ "" → validate_issue_key k = false →
      get_issue_links cfg args net = (.ok (txt "Error: Invalid issue key format"), [])) ∧
    (∀ cfg args net k, Args.get args "key" = Json.str k → k ≠ "" → (Args.get args "summary").truthy = true → validate_issue_key k = false →
      clone_issue cfg args net = (.ok (txt "Error: Invalid issue key format"), [])) ∧
    (∀ cfg args net k, Args.get args "parent_key" = Json.str k → k ≠ "" → (Args.get args "summary").truthy = true → validate_issue_key k = false →
      create_subtask cfg args net = (.ok (txt "Error: Invalid parent issue key format"), [])) ∧
    (∀ cfg args net k, Args.get args "project" = Json.str k → k ≠ "" → validate_project_key k = false →
      get_issue_types cfg args net = (.ok (txt "Error: Invalid project key format"), [])) ∧
    (∀ cfg args net k, Args.get args "project" = Json.str k → k ≠ "" → validate_project_key k = false →
      get_project_components cfg args net = (.ok (txt "Error: Invalid project key format"), [])) ∧
    (∀ cfg args net k, Args.get args "project" = Json.str k → k ≠ "" → validate_project_key k = false →
      get_project_versions cfg args net = (.ok (txt "Error: Invalid project key format"), [])) ∧
    (∀ cfg args net k, Args.get args "project" = Json.str k → k ≠ "" → validate_project_key k = false →
      get_users cfg args net = (.ok (txt "Error: Invalid project key format"), [])) ∧
    (∀ cfg args net k, Args.get args "project" = Json.str k → k ≠ "" → validate_project_key k = false →
      get_time_tracking_report cfg args net = (.ok (txt "Error: Invalid project key format"), [])) ∧
    (∀ cfg args net k, Args.get args "project" = Json.str k → k ≠ "" → validate_project_key k = false →
      get_project_roles cfg args net = (.ok (txt "Error: Invalid project key format"), [])) ∧
    (∀ cfg args net k, Args.get args "project" = Json.str k → k ≠ "" → (Args.get args "name").truthy = true → validate_project_key k = false →
      create_version cfg args net = (.ok (txt "Error: Invalid project key format"), [])) ∧
    (∀ cfg args net k, Args.get args "project" = Json.str k → k ≠ "" → (Args.get args "username").truthy = true → validate_project_key k = false →
      get_user_permissions cfg args net = (.ok (txt "Error: Invalid project key format"), [])) ∧
    (∀ cfg args net ik ok', Args.get args "inward_key" = Json.str ik → ik ≠ "" →
      Args.get args "outward_key" = Json.str ok' → ok' ≠ "" →
      (Args.get args "link_type").truthy = true →
      (validate_issue_key ik = false ∨ validate_issue_key ok' = false) →
      link_issues cfg args net = (.ok (txt "Error: Invalid issue key format"), [])) :=
  ⟨fun cfg args net k l hl hk hne hv => get_user_stories_rejects_invalid_key cfg args net k l hl hk hne hv,
   fun cfg args net k hk hne hv => get_issue_rejects_invalid_key cfg args net k hk hne hv,
   fun cfg args net k hk hne hv => get_project_stats_rejects_invalid_key cfg args net k hk hne hv,
   fun cfg args net k hk hne ht0 hv => create_issue_rejects_invalid_key cfg args net k hk hne ht0 hv,
   fun cfg args net k hk hne hv => update_issue_rejects_invalid_key cfg args net k hk hne hv,
   fun cfg args net k hk hne ht0 hv => transition_issue_rejects_invalid_key cfg args net k hk hne ht0 hv,
   fun cfg args net ks k hkeys hks hother hfi => bulk_update_issues_rejects_invalid_key cfg args net ks k hkeys hks hother hfi,
   fun cfg args net ks k hkeys hks hother hfi => bulk_transition_issues_rejects_invalid_key cfg args net ks k hkeys hks hother hfi,
   fun cfg args net ks k hkeys hks hother hfi => add_to_sprint_rejects_invalid_key cfg args net ks k hkeys hks hother hfi,
   fun cfg args net k hk hne hv => get_transitions_rejects_invalid_key cfg args net k hk hne hv,
   fun cfg args net k hk hne ht0 hv => add_comment_rejects_invalid_key cfg args net k hk hne ht0 hv,
   fun cfg args net k hk hne hv => list_attachments_rejects_invalid_key cfg args net k hk hne hv,
   fun cfg args net k hk hne ht0 hv => upload_attachment_rejects_invalid_key cfg args net k hk hne ht0 hv,
   fun cfg args net k hk hne hv => assign_issue_rejects_invalid_key cfg args net k hk hne hv,
   fun cfg args net k hk hne hv => get_subtasks_rejects_invalid_key cfg args net k hk hne hv,
   fun cfg args net k hk hne ht0 hv => add_worklog_rejects_invalid_key cfg args net k hk hne ht0 hv,
   fun cfg args net k hk hne ht0 hv => add_watcher_rejects_invalid_key cfg args net k hk hne ht0 hv,
   fun cfg args net k hk hne hv => get_watchers_rejects_invalid_key cfg args net k hk hne hv,
   fun cfg args net k hk hne hv => get_issue_links_rejects_invalid_key cfg args net k hk hne hv,
   fun cfg args net k hk hne ht0 hv => clone_issue_rejects_invalid_key cfg args net k hk hne ht0 hv,
   fun cfg args net k hk hne ht0 hv => create_subtask_rejects_invalid_key cfg args net k hk hne ht0 hv,
   fun cfg args net k hk hne hv => get_issue_types_rejects_invalid_key cfg args net k hk hne hv,
   fun cfg args net k hk hne hv => get_project_components_rejects_invalid_key cfg args net k hk hne hv,
   fun cfg args net k hk hne hv => get_project_versions_rejects_invalid_key cfg args net k hk hne hv,
   fun cfg args net k hk hne hv => get_users_rejects_invalid_key cfg args net k hk hne hv,
   fun cfg args net k hk hne hv => get_time_tracking_report_rejects_invalid_key cfg args net k hk hne hv,
   fun cfg args net k hk hne hv => get_project_roles_rejects_invalid_key cfg args net k hk hne hv,
   fun cfg args net k hk hne ht0 hv => create_version_rejects_invalid_key cfg args net k hk hne ht0 hv,
   fun cfg args net k hk hne ht0 hv => get_user_permissions_rejects_invalid_key cfg args net k hk hne ht0 hv,
   fun cfg args net ik ok' hi hine ho hone ht hv => link_issues_rejects_invalid_key cfg args net ik ok' hi hine ho hone ht hv⟩

/-- Witness for C1: `get_issue` with key "NOTAKEY" (the spec's scenario)
returns the validation error without sending anything. -/
theorem C1_key_validation_before_request_witness :
    get_issue { url := "https://jira.example", username := "u", apiToken := "t" }
        [("key", Json.str "NOTAKEY")] (fun _ _ => .reqError "down") =
      (.ok (txt "Error: Invalid issue key format"), []) :=
  C1_key_validation_before_request.2.1
    { url := "https://jira.example", username := "u", apiToken := "t" }
    [("key", Json.str "NOTAKEY")] (fun _ _ => .reqError "down")
    "NOTAKEY" rfl (by decide) (by decide)

/-- Counterexample to claim C1 as stated: "KW-٣" does not match the
claimed regex `^[A-Z][A-Z0-9_]*-\d+$` under its ASCII-anchored reading
(the strict matcher rejects it), yet the source's validator accepts it —
Python `\d` matches the Arabic-Indic digit — and `get_transitions`
places it inside the HTTP path of a request it sends. -/
theorem C1_counterexample :
    matchIssueKey "KW-٣".data = false ∧
    validate_issue_key "KW-٣" = true ∧
    (get_transitions
        { url := "https://jira.example", username := "u", apiToken := "t" }
        [("key", Json.str "KW-٣")]
        (fun _ _ => .resp { status := 500 })).2 =
      [getReq { url := "https://jira.example", username := "u", apiToken := "t" }
        "https://jira.example/rest/api/3/issue/KW-٣/transitions"] :=
  ⟨by decide, by decide, rfl⟩

/-! ## Bulk result structure (claims C2 and C3) -/

/-- A per-item result line is a success line (leading "✅") or a failure
line (leading "❌"). -/
def isSuccessEntry (e : String) : Bool := e.data.head? == some '✅'

/-- Failure marker test. -/
def isFailureEntry (e : String) : Bool := e.data.head? == some '❌'

/-- Every per-item line carries exactly one of the two markers. -/
def markedEntry (e : String) : Prop :=
  (isSuccessEntry e = true ∧ isFailureEntry e = false) ∨
  (isSuccessEntry e = false ∧ isFailureEntry e = true)

/-- A per-item line reporting on the key `k`: the marker, the key, a colon
and the item's message. -/
def goodEntry (k e : String) : Prop :=
  ((∃ s, e = (("✅ " ++ k) ++ ": ") ++ s) ∧
    isSuccessEntry e = true ∧ isFailureEntry e = false) ∨
  ((∃ s, e = (("❌ " ++ k) ++ ": ") ++ s) ∧
    isSuccessEntry e = false ∧ isFailureEntry e = true)

theorem goodEntry_succ (k s : String) :
    goodEntry k ((("✅ " ++ k) ++ ": ") ++ s) :=
  Or.inl ⟨⟨s, rfl⟩,
    by simp only [isSuccessEntry, String.data_append]; rfl,
    by simp only [isFailureEntry, String.data_append]; rfl⟩

theorem goodEntry_fail (k s : String) :
    goodEntry k ((("❌ " ++ k) ++ ": ") ++ s) :=
  Or.inr ⟨⟨s, rfl⟩,
    by simp only [isSuccessEntry, String.data_append]; rfl,
    by simp only [isFailureEntry, String.data_append]; rfl⟩

theorem goodEntry_marked {k e : String} (h : goodEntry k e) : markedEntry e := by
  rcases h with ⟨_, h1, h2⟩ | ⟨_, h1, h2⟩
  · exact Or.inl ⟨h1, h2⟩
  · exact Or.inr ⟨h1, h2⟩

theorem mark_entry_eq (A lit mid e : String) (hmid : lit = ": " ++ mid) :
    (A ++ lit) ++ e = (A ++ ": ") ++ (mid ++ e) := by
  rw [hmid, ← String.append_assoc A ": " mid,
    String.append_assoc (A ++ ": ") mid e]

theorem mark_entry_eq' (A lit mid : String) (hmid : lit = ": " ++ mid) :
    A ++ lit = (A ++ ": ") ++ mid := by
  rw [hmid, ← String.append_assoc A ": " mid]

theorem mark_entry_eq2 (A lit mid t lit2 : String) (hmid : lit = ": " ++ mid) :
    ((A ++ lit) ++ t) ++ lit2 = (A ++ ": ") ++ ((mid ++ t) ++ lit2) := by
  rw [mark_entry_eq A lit mid t hmid,
    String.append_assoc (A ++ ": ") (mid ++ t) lit2]

/-- Lines carrying exactly one marker each are counted exhaustively by the
two marker counts. -/
theorem countP_markers {l : List String} (h : ∀ e ∈ l, markedEntry e) :
    l.countP isSuccessEntry + l.countP isFailureEntry = l.length := by
  induction l with
  | nil => simp
  | cons a t ih =>
    have ht := ih (fun e he => h e (by simp [he]))
    rcases h a (by simp) with ⟨h1, h2⟩ | ⟨h1, h2⟩
    · have e1 := List.countP_cons_of_pos isSuccessEntry t h1
      have e2 := List.countP_cons_of_neg isFailureEntry t (show ¬(isFailureEntry a = true) from by simp [h2])
      rw [e1, e2, List.length_cons]
      omega
    · have e1 := List.countP_cons_of_neg isSuccessEntry t (show ¬(isSuccessEntry a = true) from by simp [h1])
      have e2 := List.countP_cons_of_pos isFailureEntry t h2
      rw [e1, e2, List.length_cons]
      omega

/-- Per-key shape of the `bulk_update_issues` loop: one result line per
key, in input order, each line a marked entry for its key. -/
theorem bulkUpdateLoop_spec (cfg : Config) (updates : Json) (net : Net) :
    ∀ (n : Nat) (keys : List Json),
      (bulkUpdateLoop cfg updates net n keys).1.length = keys.length ∧
      (∀ p ∈ (keys.map pyStr).zip (bulkUpdateLoop cfg updates net n keys).1,
        goodEntry p.1 p.2) ∧
      (∀ e ∈ (bulkUpdateLoop cfg updates net n keys).1, markedEntry e) := by
  intro n keys
  induction keys generalizing n with
  | nil => simp [bulkUpdateLoop]
  | cons key rest ih =>
    obtain ⟨ih1, ih2, ih3⟩ := ih (n + 1)
    have hgood : goodEntry (pyStr key)
        (match net n (putReq cfg (cfg.url ++ "/rest/api/3/issue/" ++ pyStr key)
          (Json.obj [("fields", Json.obj (bulkUpdateFields updates))])) with
        | .reqError e => ("❌ " ++ pyStr key ++ ": Error - ") ++ e
        | .resp r =>
          if r.status = 204 then "✅ " ++ pyStr key ++ ": Updated successfully"
          else ("❌ " ++ pyStr key ++ ": Failed - ") ++ toString r.status) := by
      cases net n (putReq cfg (cfg.url ++ "/rest/api/3/issue/" ++ pyStr key)
          (Json.obj [("fields", Json.obj (bulkUpdateFields updates))])) with
      | reqError e =>
        dsimp only
        rw [show (("❌ " ++ pyStr key ++ ": Error - ") ++ e) =
          (("❌ " ++ pyStr key) ++ ": ") ++ ("Error - " ++ e) from
          mark_entry_eq ("❌ " ++ pyStr key) ": Error - " "Error - " e rfl]
        exact goodEntry_fail _ _
      | resp r =>
        dsimp only
        by_cases h2 : r.status = 204
        · simp only [h2, if_true]
          rw [show ("✅ " ++ pyStr key ++ ": Updated successfully") =
            (("✅ " ++ pyStr key) ++ ": ") ++ "Updated successfully" from
            mark_entry_eq' ("✅ " ++ pyStr key) ": Updated successfully"
              "Updated successfully" rfl]
          exact goodEntry_succ _ _
        · simp only [h2, if_false]
          rw [show (("❌ " ++ pyStr key ++ ": Failed - ") ++ toString r.status) =
            (("❌ " ++ pyStr key) ++ ": ") ++ ("Failed - " ++ toString r.status) from
            mark_entry_eq ("❌ " ++ pyStr key) ": Failed - " "Failed - "
              (toString r.status) rfl]
          exact goodEntry_fail _ _
    refine ⟨by simp [bulkUpdateLoop, ih1], ?_, ?_⟩
    · intro p hp
      simp only [bulkUpdateLoop, List.map_cons, List.zip_cons_cons,
        List.mem_cons] at hp
      rcases hp with rfl | hp
      · exact hgood
      · exact ih2 p hp
    · intro e he
      simp only [bulkUpdateLoop, List.mem_cons] at he
      rcases he with rfl | he
      · exact goodEntry_marked hgood
      · exact ih3 e he

/-- Cons step shared by the two bulk-loop shape proofs. -/
theorem spec_cons_step {key : Json} {rest : List Json} {entry : String}
    {res : List String}
    (hg : goodEntry (pyStr key) entry)
    (h1 : res.length = rest.length)
    (h2 : ∀ p ∈ (rest.map pyStr).zip res, goodEntry p.1 p.2)
    (h3 : ∀ e ∈ res, markedEntry e) :
    (entry :: res).length = (key :: rest).length ∧
    (∀ p ∈ ((key :: rest).map pyStr).zip (entry :: res), goodEntry p.1 p.2) ∧
    (∀ e ∈ entry :: res, markedEntry e) := by
  refine ⟨by simp [h1], ?_, ?_⟩
  · intro p hp
    simp only [List.map_cons, List.zip_cons_cons, List.mem_cons] at hp
    rcases hp with rfl | hp
    · exact hg
    · exact h2 p hp
  · intro e he
    rcases List.mem_cons.mp he with rfl | he
    · exact goodEntry_marked hg
    · exact h3 e he

theorem goodEntry_error_line (k e : String) :
    goodEntry k (("❌ " ++ k ++ ": Error - ") ++ e) := by
  rw [mark_entry_eq ("❌ " ++ k) ": Error - " "Error - " e rfl]
  exact goodEntry_fail _ _

theorem goodEntry_failed_transitions (k : String) :
    goodEntry k ("❌ " ++ k ++ ": Failed to get transitions") := by
  rw [mark_entry_eq' ("❌ " ++ k) ": Failed to get transitions"
    "Failed to get transitions" rfl]
  exact goodEntry_fail _ _

theorem goodEntry_not_available (k t : String) :
    goodEntry k (("❌ " ++ k ++ ": Transition '") ++ t ++ "' not available") := by
  rw [mark_entry_eq2 ("❌ " ++ k) ": Transition '" "Transition '" t
    "' not available" rfl]
  exact goodEntry_fail _ _

theorem goodEntry_transitioned (k t : String) :
    goodEntry k (("✅ " ++ k ++ ": Transitioned to ") ++ t) := by
  rw [mark_entry_eq ("✅ " ++ k) ": Transitioned to " "Transitioned to " t rfl]
  exact goodEntry_succ _ _

theorem goodEntry_failed_code (k c : String) :
    goodEntry k (("❌ " ++ k ++ ": Failed - ") ++ c) := by
  rw [mark_entry_eq ("❌ " ++ k) ": Failed - " "Failed - " c rfl]
  exact goodEntry_fail _ _

/-- Per-key shape of the `bulk_transition_issues` loop: one result line
per key, in input order, each line a marked entry for its key. -/
theorem bulkTransitionLoop_spec (cfg : Config) (transition : Json) (net : Net) :
    ∀ (n : Nat) (keys : List Json),
      (bulkTransitionLoop cfg transition net n keys).1.length = keys.length ∧
      (∀ p ∈ (keys.map pyStr).zip (bulkTransitionLoop cfg transition net n keys).1,
        goodEntry p.1 p.2) ∧
      (∀ e ∈ (bulkTransitionLoop cfg transition net n keys).1, markedEntry e) := by
  intro n keys
  induction keys generalizing n with
  | nil => simp [bulkTransitionLoop]
  | cons key rest ih =>
    obtain ⟨ih1, ih2, ih3⟩ := ih (n + 1)
    obtain ⟨jh1, jh2, jh3⟩ := ih (n + 2)
    cases hn : net n (getReq cfg (cfg.url ++ "/rest/api/3/issue/" ++ pyStr key ++ "/transitions")) with
    | reqError e =>
      simp only [bulkTransitionLoop, hn]
      exact spec_cons_step (goodEntry_error_line (pyStr key) e) ih1 ih2 ih3
    | resp r =>
      by_cases hs : r.status = 200
      · cases hb : r.jsonBody with
        | none =>
          simp only [bulkTransitionLoop, hn, hs, hb, ne_eq, not_true_eq_false,
            if_false]
          exact spec_cons_step (goodEntry_error_line (pyStr key) jsonDecodeError)
            ih1 ih2 ih3
        | some data =>
          cases transition with
          | str t =>
            cases hf : findTransition ((data.getD "transitions" (Json.arr [])).asArr) t with
            | none =>
              simp only [bulkTransitionLoop, hn, hs, hb, hf, ne_eq,
                not_true_eq_false, if_false]
              exact spec_cons_step (goodEntry_not_available (pyStr key) t)
                ih1 ih2 ih3
            | some tid =>
              by_cases htid : tid.truthy = true
              · cases hp : net (n + 1) (postReq cfg
                    (cfg.url ++ "/rest/api/3/issue/" ++ pyStr key ++ "/transitions")
                    (Json.obj [("transition", Json.obj [("id", tid)])])) with
                | reqError e =>
                  simp only [bulkTransitionLoop, hn, hs, hb, hf, htid, hp, ne_eq,
                    not_true_eq_false, if_false, Bool.not_true]
                  exact spec_cons_step (goodEntry_error_line (pyStr key) e)
                    jh1 jh2 jh3
                | resp pr =>
                  by_cases hps : pr.status = 204
                  · simp only [bulkTransitionLoop, hn, hs, hb, hf, htid, hp, hps,
                      ne_eq, not_true_eq_false, if_false, Bool.not_true, if_true]
                    exact spec_cons_step (goodEntry_transitioned (pyStr key) t)
                      jh1 jh2 jh3
                  · simp only [bulkTransitionLoop, hn, hs, hb, hf, htid, hp, hps,
                      ne_eq, not_true_eq_false, if_false, Bool.not_true]
                    exact spec_cons_step
                      (goodEntry_failed_code (pyStr key) (toString pr.status))
                      jh1 jh2 jh3
              · have htid' : tid.truthy = false := by
                  simpa using htid
                simp only [bulkTransitionLoop, hn, hs, hb, hf, htid', ne_eq,
                  not_true_eq_false, if_false, Bool.not_true, Bool.not_false,
                  if_true]
                exact spec_cons_step (goodEntry_not_available (pyStr key) t)
                  ih1 ih2 ih3
          | null =>
            simp only [bulkTransitionLoop, hn, hs, hb, ne_eq, not_true_eq_false,
              if_false]
            exact spec_cons_step (goodEntry_error_line (pyStr key) typeErrorNotString)
              ih1 ih2 ih3
          | bool b =>
            simp only [bulkTransitionLoop, hn, hs, hb, ne_eq, not_true_eq_false,
              if_false]
            exact spec_cons_step (goodEntry_error_line (pyStr key) typeErrorNotString)
              ih1 ih2 ih3
          | num m =>
            simp only [bulkTransitionLoop, hn, hs, hb, ne_eq, not_true_eq_false,
              if_false]
            exact spec_cons_step (goodEntry_error_line (pyStr key) typeErrorNotString)
              ih1 ih2 ih3
          | arr l =>
            simp only [bulkTransitionLoop, hn, hs, hb, ne_eq, not_true_eq_false,
              if_false]
            exact spec_cons_step (goodEntry_error_line (pyStr key) typeErrorNotString)
              ih1 ih2 ih3
          | obj fs =>
            simp only [bulkTransitionLoop, hn, hs, hb, ne_eq, not_true_eq_false,
              if_false]
            exact spec_cons_step (goodEntry_error_line (pyStr key) typeErrorNotString)
              ih1 ih2 ih3
      · simp only [bulkTransitionLoop, hn]
        rw [if_pos hs]
        exact spec_cons_step (goodEntry_failed_transitions (pyStr key)) ih1 ih2 ih3

/-- Claim C2: a bulk call over N validated issue keys produces exactly one
per-item result line per key, in input order; every line carries exactly
one of the two markers, so the success count and the failure count sum to
N, and the aggregate header reports N. -/
theorem C2_bulk_results_cover_inputs :
    (∀ cfg args net ks,
      Args.getD args "keys" (Json.arr []) = Json.arr ks → ks ≠ [] →
      (Args.getD args "updates" (Json.obj [])).truthy = true →
      firstInvalidKey ks = .ok none →
      ∃ results : List String,
        bulk_update_issues cfg args net =
          (.ok (txt ("Bulk update results (" ++ toString ks.length ++ " issues):\n" ++
            String.intercalate "\n" results)),
           (bulkUpdateLoop cfg (Args.getD args "updates" (Json.obj [])) net 0 ks).2) ∧
        results.length = ks.length ∧
        (∀ p ∈ (ks.map pyStr).zip results, goodEntry p.1 p.2) ∧
        results.countP isSuccessEntry + results.countP isFailureEntry = ks.length) ∧
    (∀ cfg args net ks,
      Args.getD args "keys" (Json.arr []) = Json.arr ks → ks ≠ [] →
      (Args.get args "transition").truthy = true →
      firstInvalidKey ks = .ok none →
      ∃ results : List String,
        bulk_transition_issues cfg args net =
          (.ok (txt ("Bulk transition results (" ++ toString ks.length ++ " issues):\n" ++
            String.intercalate "\n" results)),
           (bulkTransitionLoop cfg (Args.get args "transition") net 0 ks).2) ∧
        results.length = ks.length ∧
        (∀ p ∈ (ks.map pyStr).zip results, goodEntry p.1 p.2) ∧
        results.countP isSuccessEntry + results.countP isFailureEntry = ks.length) := by
  constructor
  · intro cfg args net ks hkeys hks hupd hfi
    obtain ⟨s1, s2, s3⟩ :=
      bulkUpdateLoop_spec cfg (Args.getD args "updates" (Json.obj [])) net 0 ks
    refine ⟨(bulkUpdateLoop cfg (Args.getD args "updates" (Json.obj [])) net 0 ks).1,
      ?_, s1, s2, ?_⟩
    · unfold bulk_update_issues
      simp [hkeys, truthy_arr hks, hupd, hfi]
    · have h := countP_markers s3
      rw [s1] at h
      exact h
  · intro cfg args net ks hkeys hks htr hfi
    obtain ⟨s1, s2, s3⟩ :=
      bulkTransitionLoop_spec cfg (Args.get args "transition") net 0 ks
    refine ⟨(bulkTransitionLoop cfg (Args.get args "transition") net 0 ks).1,
      ?_, s1, s2, ?_⟩
    · unfold bulk_transition_issues
      simp [hkeys, truthy_arr hks, htr, hfi]
    · have h := countP_markers s3
      rw [s1] at h
      exact h

/-- Witness for C2 at two concrete valid keys against a 204-responder. -/
theorem C2_bulk_results_cover_inputs_witness :
    ∃ results : List String,
      bulk_update_issues
          { url := "https://jira.example", username := "u", apiToken := "t" }
          [("keys", Json.arr [Json.str "KW-1", Json.str "KW-2"]),
           ("updates", Json.obj [("priority", Json.str "High")])]
          (fun _ _ => .resp { status := 204 }) =
        (.ok (txt ("Bulk update results (" ++
          toString ([Json.str "KW-1", Json.str "KW-2"] : List Json).length ++
          " issues):\n" ++ String.intercalate "\n" results)),
         (bulkUpdateLoop
            { url := "https://jira.example", username := "u", apiToken := "t" }
            (Args.getD [("keys", Json.arr [Json.str "KW-1", Json.str "KW-2"]),
              ("updates", Json.obj [("priority", Json.str "High")])] "updates" (Json.obj []))
            (fun _ _ => .resp { status := 204 }) 0
            [Json.str "KW-1", Json.str "KW-2"]).2) ∧
      results.length = ([Json.str "KW-1", Json.str "KW-2"] : List Json).length ∧
      (∀ p ∈ (([Json.str "KW-1", Json.str "KW-2"] : List Json).map pyStr).zip results,
        goodEntry p.1 p.2) ∧
      results.countP isSuccessEntry + results.countP isFailureEntry =
        ([Json.str "KW-1", Json.str "KW-2"] : List Json).length :=
  C2_bulk_results_cover_inputs.1
    { url := "https://jira.example", username := "u", apiToken := "t" }
    [("keys", Json.arr [Json.str "KW-1", Json.str "KW-2"]),
     ("updates", Json.obj [("priority", Json.str "High")])]
    (fun _ _ => .resp { status := 204 })
    [Json.str "KW-1", Json.str "KW-2"] rfl (List.cons_ne_nil _ _) (by decide) rfl

/-- Counterexample to claim C3: with keys `["KW-1", "BAD KEY"]` the call
does not produce a two-entry per-item results array — the whole call is
rejected up front with a single validation-error text, and no network
request is issued for any key, including the valid `KW-1`. -/
theorem C3_counterexample :
    bulk_transition_issues
        { url := "https://jira.example", username := "u", apiToken := "t" }
        [("keys", Json.arr [Json.str "KW-1", Json.str "BAD KEY"]),
         ("transition", Json.str "Done")]
        (fun _ _ => .resp { status := 204 }) =
      (.ok (txt "Error: Invalid issue key format: BAD KEY"), []) := rfl

/-- Claim C3 as amended: a malformed key among the input keys makes
`bulk_transition_issues` reject the entire call up front with a single
`Error: Invalid issue key format: <key>` result naming the first
malformed key, before any network call for any key; no per-item results
are produced and the remaining valid keys are not processed. -/
theorem C3_bulk_malformed_key_rejects_whole_call :
    ∀ cfg args net ks k,
      Args.getD args "keys" (Json.arr []) = Json.arr ks → ks ≠ [] →
      (Args.get args "transition").truthy = true →
      firstInvalidKey ks = .ok (some k) →
      bulk_transition_issues cfg args net =
        (.ok (txt ("Error: Invalid issue key format: " ++ k)), []) :=
  fun cfg args net ks k h1 h2 h3 h4 =>
    bulk_transition_issues_rejects_invalid_key cfg args net ks k h1 h2 h3 h4

/-- Witness for the amended C3 at concrete inputs. -/
theorem C3_bulk_malformed_key_rejects_whole_call_witness :
    bulk_transition_issues
        { url := "https://jira.example", username := "u", apiToken := "t" }
        [("keys", Json.arr [Json.str "AA-1", Json.str "x y"]),
         ("transition", Json.str "Start")]
        (fun _ _ => .reqError "down") =
      (.ok (txt ("Error: Invalid issue key format: " ++ "x y")), []) :=
  C3_bulk_malformed_key_rejects_whole_call
    { url := "https://jira.example", username := "u", apiToken := "t" }
    [("keys", Json.arr [Json.str "AA-1", Json.str "x y"]),
     ("transition", Json.str "Start")]
    (fun _ _ => .reqError "down")
    [Json.str "AA-1", Json.str "x y"] "x y" rfl (List.cons_ne_nil _ _) (by decide) rfl

/-! ## HTTP error signalling (claim C5) -/

/-- The oracle answers every request with status 401. -/
def all401 (net : Net) : Prop := ∀ i req, statusOf (net i req) = some 401

/-- The oracle answers every request with status 404. -/
def all404 (net : Net) : Prop := ∀ i req, statusOf (net i req) = some 404

theorem truthy_str_empty : (Json.str "").truthy = false := by decide

theorem truthy_nil : Json.null.truthy = false := rfl

theorem truthy_arr_nil : (Json.arr []).truthy = false := rfl

theorem get_user_stories_on401 (cfg : Config) (args : Args) (net : Net) (l : Int)
    (hl : Args.getD args "limit" (Json.num 10) = Json.num l)
    (hp : Args.getD args "project" (Json.str "") = Json.str "")
    (h401 : all401 net) :
    (get_user_stories cfg args net).1 = .ok (txt authFailed401) := by
  unfold get_user_stories getUserStoriesRequest
  simp only [hl, hp, truthy_str_empty, Bool.not_true, Bool.not_false, if_false, if_true,
    Bool.false_eq_true, Bool.or_self, Bool.false_or, Bool.or_false,
    List.isEmpty_cons]
  split
  · rename_i e heq
    have h := congrArg statusOf heq
    rw [h401] at h
    simp [statusOf] at h
  · rename_i r heq
    have h := congrArg statusOf heq
    rw [h401] at h
    simp only [statusOf, Option.some.injEq] at h
    have hst : r.status = 401 := h.symm
    simp [hst]

theorem get_issue_on401 (cfg : Config) (args : Args) (net : Net) (k : String)
    (hk : Args.get args "key" = Json.str k) (hv : validate_issue_key k = true)
    (h401 : all401 net) :
    (get_issue cfg args net).1 = .ok (txt authFailed401) := by
  unfold get_issue
  simp only [hk, truthy_str (validate_issue_key_nonempty hv), hv, Bool.not_true, Bool.not_false, if_false, if_true,
    Bool.false_eq_true, Bool.or_self, Bool.false_or, Bool.or_false,
    List.isEmpty_cons]
  split
  · rename_i e heq
    have h := congrArg statusOf heq
    rw [h401] at h
    simp [statusOf] at h
  · rename_i r heq
    have h := congrArg statusOf heq
    rw [h401] at h
    simp only [statusOf, Option.some.injEq] at h
    have hst : r.status = 401 := h.symm
    simp [hst]

theorem get_projects_on401 (cfg : Config) (args : Args) (net : Net)
    (h401 : all401 net) :
    (get_projects cfg args net).1 = .ok (txt authFailed401) := by
  unfold get_projects
  simp only [statusOf, Bool.not_true, Bool.not_false, if_false, if_true,
    Bool.false_eq_true, Bool.or_self, Bool.false_or, Bool.or_false,
    List.isEmpty_cons]
  split
  · rename_i e heq
    have h := congrArg statusOf heq
    rw [h401] at h
    simp [statusOf] at h
  · rename_i r heq
    have h := congrArg statusOf heq
    rw [h401] at h
    simp only [statusOf, Option.some.injEq] at h
    have hst : r.status = 401 := h.symm
    simp [hst]

theorem search_issues_on401 (cfg : Config) (args : Args) (net : Net) (l : Int) (q : String)
    (hl : Args.getD args "limit" (Json.num 50) = Json.num l)
    (hq : Args.get args "jql" = Json.str q) (hqne : q ≠ "")
    (h401 : all401 net) :
    (search_issues cfg args net).1 = .ok (txt authFailed401) := by
  unfold search_issues
  simp only [hl, hq, truthy_str hqne, Bool.not_true, Bool.not_false, if_false, if_true,
    Bool.false_eq_true, Bool.or_self, Bool.false_or, Bool.or_false,
    List.isEmpty_cons]
  split
  · rename_i e heq
    have h := congrArg statusOf heq
    rw [h401] at h
    simp [statusOf] at h
  · rename_i r heq
    have h := congrArg statusOf heq
    rw [h401] at h
    simp only [statusOf, Option.some.injEq] at h
    have hst : r.status = 401 := h.symm
    simp [hst]

theorem get_project_stats_on401 (cfg : Config) (args : Args) (net : Net) (p : String)
    (hp : Args.get args "project" = Json.str p)
    (hv : validate_project_key p = true)
    (h401 : all401 net) :
    (get_project_stats cfg args net).1 = .ok (txt authFailed401) := by
  unfold get_project_stats
  simp only [hp, truthy_str (validate_project_key_nonempty hv), hv, Bool.not_true, Bool.not_false, if_false, if_true,
    Bool.false_eq_true, Bool.or_self, Bool.false_or, Bool.or_false,
    List.isEmpty_cons]
  split
  · rename_i e heq
    have h := congrArg statusOf heq
    rw [h401] at h
    simp [statusOf] at h
  · rename_i r heq
    have h := congrArg statusOf heq
    rw [h401] at h
    simp only [statusOf, Option.some.injEq] at h
    have hst : r.status = 401 := h.symm
    simp [hst]

theorem get_recent_issues_on401 (cfg : Config) (args : Args) (net : Net) (l : Int)
    (hl : Args.getD args "limit" (Json.num 20) = Json.num l)
    (h401 : all401 net) :
    (get_recent_issues cfg args net).1 = .ok (txt authFailed401) := by
  unfold get_recent_issues
  simp only [hl, Bool.not_true, Bool.not_false, if_false, if_true,
    Bool.false_eq_true, Bool.or_self, Bool.false_or, Bool.or_false,
    List.isEmpty_cons]
  split
  · rename_i e heq
    have h := congrArg statusOf heq
    rw [h401] at h
    simp [statusOf] at h
  · rename_i r heq
    have h := congrArg statusOf heq
    rw [h401] at h
    simp only [statusOf, Option.some.injEq] at h
    have hst : r.status = 401 := h.symm
    simp [hst]

theorem get_issues_by_assignee_on401 (cfg : Config) (args : Args) (net : Net) (l : Int)
    (hl : Args.getD args "limit" (Json.num 50) = Json.num l)
    (ha : (Args.get args "assignee").truthy = true)
    (h401 : all401 net) :
    (get_issues_by_assignee cfg args net).1 = .ok (txt authFailed401) := by
  unfold get_issues_by_assignee
  simp only [hl, ha, Bool.not_true, Bool.not_false, if_false, if_true,
    Bool.false_eq_true, Bool.or_self, Bool.false_or, Bool.or_false,
    List.isEmpty_cons]
  split
  · rename_i e heq
    have h := congrArg statusOf heq
    rw [h401] at h
    simp [statusOf] at h
  · rename_i r heq
    have h := congrArg statusOf heq
    rw [h401] at h
    simp only [statusOf, Option.some.injEq] at h
    have hst : r.status = 401 := h.symm
    simp [hst]

theorem create_issue_on401 (cfg : Config) (args : Args) (net : Net) (p : String)
    (hp : Args.get args "project" = Json.str p)
    (hv : validate_project_key p = true)
    (hsum : (Args.get args "summary").truthy = true)
    (h401 : all401 net) :
    (create_issue cfg args net).1 = .ok (txt authFailed401) := by
  unfold create_issue
  simp only [hp, truthy_str (validate_project_key_nonempty hv), hv, hsum, Bool.not_true, Bool.not_false, if_false, if_true,
    Bool.false_eq_true, Bool.or_self, Bool.false_or, Bool.or_false,
    List.isEmpty_cons]
  split
  · rename_i e heq
    have h := congrArg statusOf heq
    rw [h401] at h
    simp [statusOf] at h
  · rename_i r heq
    have h := congrArg statusOf heq
    rw [h401] at h
    simp only [statusOf, Option.some.injEq] at h
    have hst : r.status = 401 := h.symm
    simp [hst]

theorem update_issue_on401 (cfg : Config) (args : Args) (net : Net) (k s : String)
    (hk : Args.get args "key" = Json.str k) (hv : validate_issue_key k = true)
    (hs : Args.get args "summary" = Json.str s) (hsne : s ≠ "")
    (hdesc : Args.get args "description" = Json.null)
    (hprio : Args.get args "priority" = Json.null)
    (hassg : Args.get args "assignee" = Json.null)
    (h401 : all401 net) :
    (update_issue cfg args net).1 = .ok (txt authFailed401) := by
  unfold update_issue
  simp only [hk, truthy_str (validate_issue_key_nonempty hv), hv, hs, truthy_str hsne, hdesc, hprio, hassg, truthy_nil, Bool.not_true, Bool.not_false, if_false, if_true,
    Bool.false_eq_true, Bool.or_self, Bool.false_or, Bool.or_false,
    List.isEmpty_cons]
  split
  · rename_i e heq
    have h := congrArg statusOf heq
    rw [h401] at h
    simp [statusOf] at h
  · rename_i r heq
    have h := congrArg statusOf heq
    rw [h401] at h
    simp only [statusOf, Option.some.injEq] at h
    have hst : r.status = 401 := h.symm
    simp [hst]

theorem advanced_jql_search_on401 (cfg : Config) (args : Args) (net : Net) (l : Int) (q : String)
    (hl : Args.getD args "limit" (Json.num 50) = Json.num l)
    (hq : Args.get args "jql" = Json.str q) (hqne : q ≠ "")
    (hf : Args.getD args "fields" (Json.arr []) = Json.arr [])
    (he : Args.getD args "expand" (Json.arr []) = Json.arr [])
    (h401 : all401 net) :
    (advanced_jql_search cfg args net).1 = .ok (txt authFailed401) := by
  unfold advanced_jql_search
  simp only [hl, hq, truthy_str hqne, hf, he, truthy_arr_nil, Bool.not_true, Bool.not_false, if_false, if_true,
    Bool.false_eq_true, Bool.or_self, Bool.false_or, Bool.or_false,
    List.isEmpty_cons]
  split
  · rename_i e heq
    have h := congrArg statusOf heq
    rw [h401] at h
    simp [statusOf] at h
  · rename_i r heq
    have h := congrArg statusOf heq
    rw [h401] at h
    simp only [statusOf, Option.some.injEq] at h
    have hst : r.status = 401 := h.symm
    simp [hst]

theorem get_transitions_on401 (cfg : Config) (args : Args) (net : Net) (k : String)
    (hk : Args.get args "key" = Json.str k) (hv : validate_issue_key k = true)
    (h401 : all401 net) :
    ∃ t, (get_transitions cfg args net).1 = .ok (txt (httpWithBody 401 t)) := by
  unfold get_transitions
  simp only [hk, truthy_str (validate_issue_key_nonempty hv), hv, Bool.not_true, Bool.not_false, if_false, if_true,
    Bool.false_eq_true, Bool.or_self, Bool.false_or, Bool.or_false,
    List.isEmpty_cons]
  split
  · rename_i e heq
    have h := congrArg statusOf heq
    rw [h401] at h
    simp [statusOf] at h
  · rename_i r heq
    have h := congrArg statusOf heq
    rw [h401] at h
    simp only [statusOf, Option.some.injEq] at h
    have hst : r.status = 401 := h.symm
    refine ⟨r.text, ?_⟩
    simp [hst]

theorem add_comment_on401 (cfg : Config) (args : Args) (net : Net) (k : String)
    (hk : Args.get args "key" = Json.str k) (hv : validate_issue_key k = true)
    (hc : (Args.get args "comment").truthy = true)
    (h401 : all401 net) :
    ∃ t, (add_comment cfg args net).1 = .ok (txt (httpWithBody 401 t)) := by
  unfold add_comment
  simp only [hk, truthy_str (validate_issue_key_nonempty hv), hv, hc, Bool.not_true, Bool.not_false, if_false, if_true,
    Bool.false_eq_true, Bool.or_self, Bool.false_or, Bool.or_false,
    List.isEmpty_cons]
  split
  · rename_i e heq
    have h := congrArg statusOf heq
    rw [h401] at h
    simp [statusOf] at h
  · rename_i r heq
    have h := congrArg statusOf heq
    rw [h401] at h
    simp only [statusOf, Option.some.injEq] at h
    have hst : r.status = 401 := h.symm
    refine ⟨r.text, ?_⟩
    simp [hst]

theorem list_attachments_on401 (cfg : Config) (args : Args) (net : Net) (k : String)
    (hk : Args.get args "key" = Json.str k) (hv : validate_issue_key k = true)
    (h401 : all401 net) :
    ∃ t, (list_attachments cfg args net).1 = .ok (txt (httpWithBody 401 t)) := by
  unfold list_attachments
  simp only [hk, truthy_str (validate_issue_key_nonempty hv), hv, Bool.not_true, Bool.not_false, if_false, if_true,
    Bool.false_eq_true, Bool.or_self, Bool.false_or, Bool.or_false,
    List.isEmpty_cons]
  split
  · rename_i e heq
    have h := congrArg statusOf heq
    rw [h401] at h
    simp [statusOf] at h
  · rename_i r heq
    have h := congrArg statusOf heq
    rw [h401] at h
    simp only [statusOf, Option.some.injEq] at h
    have hst : r.status = 401 := h.symm
    refine ⟨r.text, ?_⟩
    simp [hst]

theorem get_issue_types_on401 (cfg : Config) (args : Args) (net : Net) (p : String)
    (hp : Args.get args "project" = Json.str p)
    (hv : validate_project_key p = true)
    (h401 : all401 net) :
    ∃ t, (get_issue_types cfg args net).1 = .ok (txt (httpWithBody 401 t)) := by
  unfold get_issue_types
  simp only [hp, truthy_str (validate_project_key_nonempty hv), hv, Bool.not_true, Bool.not_false, if_false, if_true,
    Bool.false_eq_true, Bool.or_self, Bool.false_or, Bool.or_false,
    List.isEmpty_cons]
  split
  · rename_i e heq
    have h := congrArg statusOf heq
    rw [h401] at h
    simp [statusOf] at h
  · rename_i r heq
    have h := congrArg statusOf heq
    rw [h401] at h
    simp only [statusOf, Option.some.injEq] at h
    have hst : r.status = 401 := h.symm
    refine ⟨r.text, ?_⟩
    simp [hst]

theorem upload_attachment_on401 (cfg : Config) (args : Args) (net : Net) (k : String)
    (hk : Args.get args "key" = Json.str k) (hv : validate_issue_key k = true) (fp : String)
    (hfp : Args.get args "file_path" = Json.str fp) (hfpne : fp ≠ "")
    (hex : cfg.fileExists fp = true)
    (h401 : all401 net) :
    ∃ t, (upload_attachment cfg args net).1 = .ok (txt (httpWithBody 401 t)) := by
  unfold upload_attachment
  simp only [hk, truthy_str (validate_issue_key_nonempty hv), hv, hfp, truthy_str hfpne, hex, Bool.not_true, Bool.not_false, if_false, if_true,
    Bool.false_eq_true, Bool.or_self, Bool.false_or, Bool.or_false,
    List.isEmpty_cons]
  split
  · rename_i e heq
    have h := congrArg statusOf heq
    rw [h401] at h
    simp [statusOf] at h
  · rename_i r heq
    have h := congrArg statusOf heq
    rw [h401] at h
    simp only [statusOf, Option.some.injEq] at h
    have hst : r.status = 401 := h.symm
    refine ⟨r.text, ?_⟩
    simp [hst]

theorem download_attachment_on401 (cfg : Config) (args : Args) (net : Net) (u : String)
    (hurl : Args.get args "attachment_url" = Json.str u) (hune : u ≠ "")
    (hsp : (Args.get args "save_path").truthy = true)
    (h401 : all401 net) :
    ∃ t, (download_attachment cfg args net).1 = .ok (txt (httpWithBody 401 t)) := by
  unfold download_attachment
  simp only [hurl, truthy_str hune, hsp, Bool.not_true, Bool.not_false, if_false, if_true,
    Bool.false_eq_true, Bool.or_self, Bool.false_or, Bool.or_false,
    List.isEmpty_cons]
  split
  · rename_i e heq
    have h := congrArg statusOf heq
    rw [h401] at h
    simp [statusOf] at h
  · rename_i r heq
    have h := congrArg statusOf heq
    rw [h401] at h
    simp only [statusOf, Option.some.injEq] at h
    have hst : r.status = 401 := h.symm
    refine ⟨r.text, ?_⟩
    simp [hst]

theorem assign_issue_on401 (cfg : Config) (args : Args) (net : Net) (k : String)
    (hk : Args.get args "key" = Json.str k) (hv : validate_issue_key k = true)
    (ha : Args.get args "assignee" = Json.null)
    (h401 : all401 net) :
    ∃ t, (assign_issue cfg args net).1 = .ok (txt (httpWithBody 401 t)) := by
  unfold assign_issue
  simp only [hk, truthy_str (validate_issue_key_nonempty hv), hv, ha, truthy_nil, Bool.not_true, Bool.not_false, if_false, if_true,
    Bool.false_eq_true, Bool.or_self, Bool.false_or, Bool.or_false,
    List.isEmpty_cons]
  split
  · rename_i e heq
    have h := congrArg statusOf heq
    rw [h401] at h
    simp [statusOf] at h
  · rename_i r heq
    have h := congrArg statusOf heq
    rw [h401] at h
    simp only [statusOf, Option.some.injEq] at h
    have hst : r.status = 401 := h.symm
    refine ⟨r.text, ?_⟩
    simp [hst]

theorem get_project_components_on401 (cfg : Config) (args : Args) (net : Net) (p : String)
    (hp : Args.get args "project" = Json.str p)
    (hv : validate_project_key p = true)
    (h401 : all401 net) :
    ∃ t, (get_project_components cfg args net).1 = .ok (txt (httpWithBody 401 t)) := by
  unfold get_project_components
  simp only [hp, truthy_str (validate_project_key_nonempty hv), hv, Bool.not_true, Bool.not_false, if_false, if_true,
    Bool.false_eq_true, Bool.or_self, Bool.false_or, Bool.or_false,
    List.isEmpty_cons]
  split
  · rename_i e heq
    have h := congrArg statusOf heq
    rw [h401] at h
    simp [statusOf] at h
  · rename_i r heq
    have h := congrArg statusOf heq
    rw [h401] at h
    simp only [statusOf, Option.some.injEq] at h
    have hst : r.status = 401 := h.symm
    refine ⟨r.text, ?_⟩
    simp [hst]

theorem get_project_versions_on401 (cfg : Config) (args : Args) (net : Net) (p : String)
    (hp : Args.get args "project" = Json.str p)
    (hv : validate_project_key p = true)
    (h401 : all401 net) :
    ∃ t, (get_project_versions cfg args net).1 = .ok (txt (httpWithBody 401 t)) := by
  unfold get_project_versions
  simp only [hp, truthy_str (validate_project_key_nonempty hv), hv, Bool.not_true, Bool.not_false, if_false, if_true,
    Bool.false_eq_true, Bool.or_self, Bool.false_or, Bool.or_false,
    List.isEmpty_cons]
  split
  · rename_i e heq
    have h := congrArg statusOf heq
    rw [h401] at h
    simp [statusOf] at h
  · rename_i r heq
    have h := congrArg statusOf heq
    rw [h401] at h
    simp only [statusOf, Option.some.injEq] at h
    have hst : r.status = 401 := h.symm
    refine ⟨r.text, ?_⟩
    simp [hst]

theorem get_custom_fields_on401 (cfg : Config) (args : Args) (net : Net)
    (h401 : all401 net) :
    ∃ t, (get_custom_fields cfg args net).1 = .ok (txt (httpWithBody 401 t)) := by
  unfold get_custom_fields
  simp only [statusOf, Bool.not_true, Bool.not_false, if_false, if_true,
    Bool.false_eq_true, Bool.or_self, Bool.false_or, Bool.or_false,
    List.isEmpty_cons]
  split
  · rename_i e heq
    have h := congrArg statusOf heq
    rw [h401] at h
    simp [statusOf] at h
  · rename_i r heq
    have h := congrArg statusOf heq
    rw [h401] at h
    simp only [statusOf, Option.some.injEq] at h
    have hst : r.status = 401 := h.symm
    refine ⟨r.text, ?_⟩
    simp [hst]

theorem get_sprints_on401 (cfg : Config) (args : Args) (net : Net)
    (hb : (Args.get args "board_id").truthy = true)
    (h401 : all401 net) :
    ∃ t, (get_sprints cfg args net).1 = .ok (txt (httpWithBody 401 t)) := by
  unfold get_sprints
  simp only [hb, Bool.not_true, Bool.not_false, if_false, if_true,
    Bool.false_eq_true, Bool.or_self, Bool.false_or, Bool.or_false,
    List.isEmpty_cons]
  split
  · rename_i e heq
    have h := congrArg statusOf heq
    rw [h401] at h
    simp [statusOf] at h
  · rename_i r heq
    have h := congrArg statusOf heq
    rw [h401] at h
    simp only [statusOf, Option.some.injEq] at h
    have hst : r.status = 401 := h.symm
    refine ⟨r.text, ?_⟩
    simp [hst]

theorem get_boards_on401 (cfg : Config) (args : Args) (net : Net)
    (h401 : all401 net) :
    ∃ t, (get_boards cfg args net).1 = .ok (txt (httpWithBody 401 t)) := by
  unfold get_boards
  simp only [statusOf, Bool.not_true, Bool.not_false, if_false, if_true,
    Bool.false_eq_true, Bool.or_self, Bool.false_or, Bool.or_false,
    List.isEmpty_cons]
  split
  · rename_i e heq
    have h := congrArg statusOf heq
    rw [h401] at h
    simp [statusOf] at h
  · rename_i r heq
    have h := congrArg statusOf heq
    rw [h401] at h
    simp only [statusOf, Option.some.injEq] at h
    have hst : r.status = 401 := h.symm
    refine ⟨r.text, ?_⟩
    simp [hst]

theorem get_sprint_issues_on401 (cfg : Config) (args : Args) (net : Net)
    (hs : (Args.get args "sprint_id").truthy = true)
    (h401 : all401 net) :
    ∃ t, (get_sprint_issues cfg args net).1 = .ok (txt (httpWithBody 401 t)) := by
  unfold get_sprint_issues
  simp only [hs, Bool.not_true, Bool.not_false, if_false, if_true,
    Bool.false_eq_true, Bool.or_self, Bool.false_or, Bool.or_false,
    List.isEmpty_cons]
  split
  · rename_i e heq
    have h := congrArg statusOf heq
    rw [h401] at h
    simp [statusOf] at h
  · rename_i r heq
    have h := congrArg statusOf heq
    rw [h401] at h
    simp only [statusOf, Option.some.injEq] at h
    have hst : r.status = 401 := h.symm
    refine ⟨r.text, ?_⟩
    simp [hst]

theorem link_issues_on401 (cfg : Config) (args : Args) (net : Net) (ik ok' : String)
    (hi : Args.get args "inward_key" = Json.str ik)
    (ho : Args.get args "outward_key" = Json.str ok')
    (hv1 : validate_issue_key ik = true) (hv2 : validate_issue_key ok' = true)
    (hlt : (Args.get args "link_type").truthy = true)
    (h401 : all401 net) :
    ∃ t, (link_issues cfg args net).1 = .ok (txt (httpWithBody 401 t)) := by
  unfold link_issues
  simp only [hi, ho, truthy_str (validate_issue_key_nonempty hv1), truthy_str (validate_issue_key_nonempty hv2), hv1, hv2, hlt, Bool.not_true, Bool.not_false, if_false, if_true,
    Bool.false_eq_true, Bool.or_self, Bool.false_or, Bool.or_false,
    List.isEmpty_cons]
  split
  · rename_i e heq
    have h := congrArg statusOf heq
    rw [h401] at h
    simp [statusOf] at h
  · rename_i r heq
    have h := congrArg statusOf heq
    rw [h401] at h
    simp only [statusOf, Option.some.injEq] at h
    have hst : r.status = 401 := h.symm
    refine ⟨r.text, ?_⟩
    simp [hst]

theorem get_subtasks_on401 (cfg : Config) (args : Args) (net : Net) (k : String)
    (hk : Args.get args "key" = Json.str k) (hv : validate_issue_key k = true)
    (h401 : all401 net) :
    ∃ t, (get_subtasks cfg args net).1 = .ok (txt (httpWithBody 401 t)) := by
  unfold get_subtasks
  simp only [hk, truthy_str (validate_issue_key_nonempty hv), hv, Bool.not_true, Bool.not_false, if_false, if_true,
    Bool.false_eq_true, Bool.or_self, Bool.false_or, Bool.or_false,
    List.isEmpty_cons]
  split
  · rename_i e heq
    have h := congrArg statusOf heq
    rw [h401] at h
    simp [statusOf] at h
  · rename_i r heq
    have h := congrArg statusOf heq
    rw [h401] at h
    simp only [statusOf, Option.some.injEq] at h
    have hst : r.status = 401 := h.symm
    refine ⟨r.text, ?_⟩
    simp [hst]

theorem add_worklog_on401 (cfg : Config) (args : Args) (net : Net) (k : String)
    (hk : Args.get args "key" = Json.str k) (hv : validate_issue_key k = true)
    (hts : (Args.get args "time_spent").truthy = true)
    (h401 : all401 net) :
    ∃ t, (add_worklog cfg args net).1 = .ok (txt (httpWithBody 401 t)) := by
  unfold add_worklog
  simp only [hk, truthy_str (validate_issue_key_nonempty hv), hv, hts, Bool.not_true, Bool.not_false, if_false, if_true,
    Bool.false_eq_true, Bool.or_self, Bool.false_or, Bool.or_false,
    List.isEmpty_cons]
  split
  · rename_i e heq
    have h := congrArg statusOf heq
    rw [h401] at h
    simp [statusOf] at h
  · rename_i r heq
    have h := congrArg statusOf heq
    rw [h401] at h
    simp only [statusOf, Option.some.injEq] at h
    have hst : r.status = 401 := h.symm
    refine ⟨r.text, ?_⟩
    simp [hst]

theorem get_users_on401 (cfg : Config) (args : Args) (net : Net) (p : String)
    (hp : Args.get args "project" = Json.str p)
    (hv : validate_project_key p = true)
    (h401 : all401 net) :
    ∃ t, (get_users cfg args net).1 = .ok (txt (httpWithBody 401 t)) := by
  unfold get_users
  simp only [hp, truthy_str (validate_project_key_nonempty hv), hv, Bool.not_true, Bool.not_false, if_false, if_true,
    Bool.false_eq_true, Bool.or_self, Bool.false_or, Bool.or_false,
    List.isEmpty_cons]
  split
  · rename_i e heq
    have h := congrArg statusOf heq
    rw [h401] at h
    simp [statusOf] at h
  · rename_i r heq
    have h := congrArg statusOf heq
    rw [h401] at h
    simp only [statusOf, Option.some.injEq] at h
    have hst : r.status = 401 := h.symm
    refine ⟨r.text, ?_⟩
    simp [hst]

theorem list_webhooks_on401 (cfg : Config) (args : Args) (net : Net)
    (h401 : all401 net) :
    ∃ t, (list_webhooks cfg args net).1 = .ok (txt (httpWithBody 401 t)) := by
  unfold list_webhooks
  simp only [statusOf, Bool.not_true, Bool.not_false, if_false, if_true,
    Bool.false_eq_true, Bool.or_self, Bool.false_or, Bool.or_false,
    List.isEmpty_cons]
  split
  · rename_i e heq
    have h := congrArg statusOf heq
    rw [h401] at h
    simp [statusOf] at h
  · rename_i r heq
    have h := congrArg statusOf heq
    rw [h401] at h
    simp only [statusOf, Option.some.injEq] at h
    have hst : r.status = 401 := h.symm
    refine ⟨r.text, ?_⟩
    simp [hst]

theorem add_watcher_on401 (cfg : Config) (args : Args) (net : Net) (k : String)
    (hk : Args.get args "key" = Json.str k) (hv : validate_issue_key k = true)
    (hu : (Args.get args "username").truthy = true)
    (h401 : all401 net) :
    ∃ t, (add_watcher cfg args net).1 = .ok (txt (httpWithBody 401 t)) := by
  unfold add_watcher
  simp only [hk, truthy_str (validate_issue_key_nonempty hv), hv, hu, Bool.not_true, Bool.not_false, if_false, if_true,
    Bool.false_eq_true, Bool.or_self, Bool.false_or, Bool.or_false,
    List.isEmpty_cons]
  split
  · rename_i e heq
    have h := congrArg statusOf heq
    rw [h401] at h
    simp [statusOf] at h
  · rename_i r heq
    have h := congrArg statusOf heq
    rw [h401] at h
    simp only [statusOf, Option.some.injEq] at h
    have hst : r.status = 401 := h.symm
    refine ⟨r.text, ?_⟩
    simp [hst]

theorem get_watchers_on401 (cfg : Config) (args : Args) (net : Net) (k : String)
    (hk : Args.get args "key" = Json.str k) (hv : validate_issue_key k = true)
    (h401 : all401 net) :
    ∃ t, (get_watchers cfg args net).1 = .ok (txt (httpWithBody 401 t)) := by
  unfold get_watchers
  simp only [hk, truthy_str (validate_issue_key_nonempty hv), hv, Bool.not_true, Bool.not_false, if_false, if_true,
    Bool.false_eq_true, Bool.or_self, Bool.false_or, Bool.or_false,
    List.isEmpty_cons]
  split
  · rename_i e heq
    have h := congrArg statusOf heq
    rw [h401] at h
    simp [statusOf] at h
  · rename_i r heq
    have h := congrArg statusOf heq
    rw [h401] at h
    simp only [statusOf, Option.some.injEq] at h
    have hst : r.status = 401 := h.symm
    refine ⟨r.text, ?_⟩
    simp [hst]

theorem get_issue_links_on401 (cfg : Config) (args : Args) (net : Net) (k : String)
    (hk : Args.get args "key" = Json.str k) (hv : validate_issue_key k = true)
    (h401 : all401 net) :
    ∃ t, (get_issue_links cfg args net).1 = .ok (txt (httpWithBody 401 t)) := by
  unfold get_issue_links
  simp only [hk, truthy_str (validate_issue_key_nonempty hv), hv, Bool.not_true, Bool.not_false, if_false, if_true,
    Bool.false_eq_true, Bool.or_self, Bool.false_or, Bool.or_false,
    List.isEmpty_cons]
  split
  · rename_i e heq
    have h := congrArg statusOf heq
    rw [h401] at h
    simp [statusOf] at h
  · rename_i r heq
    have h := congrArg statusOf heq
    rw [h401] at h
    simp only [statusOf, Option.some.injEq] at h
    have hst : r.status = 401 := h.symm
    refine ⟨r.text, ?_⟩
    simp [hst]

theorem get_time_tracking_report_on401 (cfg : Config) (args : Args) (net : Net) (p : String)
    (hp : Args.get args "project" = Json.str p)
    (hv : validate_project_key p = true)
    (h401 : all401 net) :
    ∃ t, (get_time_tracking_report cfg args net).1 = .ok (txt (httpWithBody 401 t)) := by
  unfold get_time_tracking_report
  simp only [hp, truthy_str (validate_project_key_nonempty hv), hv, Bool.not_true, Bool.not_false, if_false, if_true,
    Bool.false_eq_true, Bool.or_self, Bool.false_or, Bool.or_false,
    List.isEmpty_cons]
  split
  · rename_i e heq
    have h := congrArg statusOf heq
    rw [h401] at h
    simp [statusOf] at h
  · rename_i r heq
    have h := congrArg statusOf heq
    rw [h401] at h
    simp only [statusOf, Option.some.injEq] at h
    have hst : r.status = 401 := h.symm
    refine ⟨r.text, ?_⟩
    simp [hst]

theorem get_project_roles_on401 (cfg : Config) (args : Args) (net : Net) (p : String)
    (hp : Args.get args "project" = Json.str p)
    (hv : validate_project_key p = true)
    (h401 : all401 net) :
    ∃ t, (get_project_roles cfg args net).1 = .ok (txt (httpWithBody 401 t)) := by
  unfold get_project_roles
  simp only [hp, truthy_str (validate_project_key_nonempty hv), hv, Bool.not_true, Bool.not_false, if_false, if_true,
    Bool.false_eq_true, Bool.or_self, Bool.false_or, Bool.or_false,
    List.isEmpty_cons]
  split
  · rename_i e heq
    have h := congrArg statusOf heq
    rw [h401] at h
    simp [statusOf] at h
  · rename_i r heq
    have h := congrArg statusOf heq
    rw [h401] at h
    simp only [statusOf, Option.some.injEq] at h
    have hst : r.status = 401 := h.symm
    refine ⟨r.text, ?_⟩
    simp [hst]

theorem export_issues_on401 (cfg : Config) (args : Args) (net : Net) (fmt : String)
    (hfmt : Args.getD args "format" (Json.str "json") = Json.str fmt)
    (hj : (Args.get args "jql").truthy = true)
    (h401 : all401 net) :
    ∃ t, (export_issues cfg args net).1 = .ok (txt (httpWithBody 401 t)) := by
  unfold export_issues
  simp only [hfmt, hj, Bool.not_true, Bool.not_false, if_false, if_true,
    Bool.false_eq_true, Bool.or_self, Bool.false_or, Bool.or_false,
    List.isEmpty_cons]
  split
  · rename_i e heq
    have h := congrArg statusOf heq
    rw [h401] at h
    simp [statusOf] at h
  · rename_i r heq
    have h := congrArg statusOf heq
    rw [h401] at h
    simp only [statusOf, Option.some.injEq] at h
    have hst : r.status = 401 := h.symm
    refine ⟨r.text, ?_⟩
    simp [hst]

theorem create_webhook_on401 (cfg : Config) (args : Args) (net : Net) (evs : List Json)
    (hn : (Args.get args "name").truthy = true)
    (hu : (Args.get args "url").truthy = true)
    (hev : Args.getD args "events" (Json.arr []) = Json.arr evs)
    (hevne : evs ≠ [])
    (h401 : all401 net) :
    ∃ t, (create_webhook cfg args net).1 = .ok (txt (httpWithBody 401 t)) := by
  unfold create_webhook
  simp only [hn, hu, hev, truthy_arr hevne, Bool.not_true, Bool.not_false, if_false, if_true,
    Bool.false_eq_true, Bool.or_self, Bool.false_or, Bool.or_false,
    List.isEmpty_cons]
  split
  · rename_i e heq
    have h := congrArg statusOf heq
    rw [h401] at h
    simp [statusOf] at h
  · rename_i r heq
    have h := congrArg statusOf heq
    rw [h401] at h
    simp only [statusOf, Option.some.injEq] at h
    have hst : r.status = 401 := h.symm
    refine ⟨r.text, ?_⟩
    simp [hst]

theorem create_version_on401 (cfg : Config) (args : Args) (net : Net) (p : String)
    (hp : Args.get args "project" = Json.str p)
    (hv : validate_project_key p = true)
    (hn : (Args.get args "name").truthy = true)
    (h401 : all401 net) :
    ∃ t, (create_version cfg args net).1 = .ok (txt (httpWithBody 401 t)) := by
  unfold create_version
  simp only [hp, truthy_str (validate_project_key_nonempty hv), hv, hn, Bool.not_true, Bool.not_false, if_false, if_true,
    Bool.false_eq_true, Bool.or_self, Bool.false_or, Bool.or_false,
    List.isEmpty_cons]
  split
  · rename_i e heq
    have h := congrArg statusOf heq
    rw [h401] at h
    simp [statusOf] at h
  · rename_i r heq
    have h := congrArg statusOf heq
    rw [h401] at h
    simp only [statusOf, Option.some.injEq] at h
    have hst : r.status = 401 := h.symm
    refine ⟨r.text, ?_⟩
    simp [hst]

theorem get_user_permissions_on401 (cfg : Config) (args : Args) (net : Net) (p : String)
    (hp : Args.get args "project" = Json.str p)
    (hv : validate_project_key p = true)
    (hu : (Args.get args "username").truthy = true)
    (h401 : all401 net) :
    ∃ t, (get_user_permissions cfg args net).1 = .ok (txt (httpWithBody 401 t)) := by
  unfold get_user_permissions
  simp only [hp, truthy_str (validate_project_key_nonempty hv), hv, hu, Bool.not_true, Bool.not_false, if_false, if_true,
    Bool.false_eq_true, Bool.or_self, Bool.false_or, Bool.or_false,
    List.isEmpty_cons]
  split
  · rename_i e heq
    have h := congrArg statusOf heq
    rw [h401] at h
    simp [statusOf] at h
  · rename_i r heq
    have h := congrArg statusOf heq
    rw [h401] at h
    simp only [statusOf, Option.some.injEq] at h
    have hst : r.status = 401 := h.symm
    refine ⟨r.text, ?_⟩
    simp [hst]

theorem get_workflows_on401 (cfg : Config) (args : Args) (net : Net)
    (h401 : all401 net) :
    ∃ t, (get_workflows cfg args net).1 = .ok (txt (httpWithBody 401 t)) := by
  unfold get_workflows
  simp only [statusOf, Bool.not_true, Bool.not_false, if_false, if_true,
    Bool.false_eq_true, Bool.or_self, Bool.false_or, Bool.or_false,
    List.isEmpty_cons]
  split
  · rename_i e heq
    have h := congrArg statusOf heq
    rw [h401] at h
    simp [statusOf] at h
  · rename_i r heq
    have h := congrArg statusOf heq
    rw [h401] at h
    simp only [statusOf, Option.some.injEq] at h
    have hst : r.status = 401 := h.symm
    refine ⟨r.text, ?_⟩
    simp [hst]

theorem release_version_on401 (cfg : Config) (args : Args) (net : Net)
    (hvid : (Args.get args "version_id").truthy = true)
    (h401 : all401 net) :
    ∃ t, (release_version cfg args net).1 = .ok (txt (httpWithBody 401 t)) := by
  unfold release_version
  simp only [hvid, Bool.not_true, Bool.not_false, if_false, if_true,
    Bool.false_eq_true, Bool.or_self, Bool.false_or, Bool.or_false,
    List.isEmpty_cons]
  split
  · rename_i e heq
    have h := congrArg statusOf heq
    rw [h401] at h
    simp [statusOf] at h
  · rename_i r heq
    have h := congrArg statusOf heq
    rw [h401] at h
    simp only [statusOf, Option.some.injEq] at h
    have hst : r.status = 401 := h.symm
    refine ⟨r.text, ?_⟩
    simp [hst]

theorem get_burndown_data_on401 (cfg : Config) (args : Args) (net : Net)
    (hs : (Args.get args "sprint_id").truthy = true)
    (h401 : all401 net) :
    ∃ t, (get_burndown_data cfg args net).1 = .ok (txt (httpWithBody 401 t)) := by
  unfold get_burndown_data
  simp only [hs, Bool.not_true, Bool.not_false, if_false, if_true,
    Bool.false_eq_true, Bool.or_self, Bool.false_or, Bool.or_false,
    List.isEmpty_cons]
  split
  · rename_i e heq
    have h := congrArg statusOf heq
    rw [h401] at h
    simp [statusOf] at h
  · rename_i r heq
    have h := congrArg statusOf heq
    rw [h401] at h
    simp only [statusOf, Option.some.injEq] at h
    have hst : r.status = 401 := h.symm
    refine ⟨r.text, ?_⟩
    simp [hst]

theorem transition_issue_on401 (cfg : Config) (args : Args) (net : Net) (k : String)
    (hk : Args.get args "key" = Json.str k) (hv : validate_issue_key k = true)
    (htr : (Args.get args "transition").truthy = true)
    (h401 : all401 net) :
    (transition_issue cfg args net).1 = .ok (txt ("Error: Failed to get transitions - " ++ toString (401 : Nat))) := by
  unfold transition_issue
  simp only [hk, truthy_str (validate_issue_key_nonempty hv), hv, htr, Bool.not_true, Bool.not_false, if_false, if_true,
    Bool.false_eq_true, Bool.or_self, Bool.false_or, Bool.or_false,
    List.isEmpty_cons]
  split
  · rename_i e heq
    have h := congrArg statusOf heq
    rw [h401] at h
    simp [statusOf] at h
  · rename_i r heq
    have h := congrArg statusOf heq
    rw [h401] at h
    simp only [statusOf, Option.some.injEq] at h
    have hst : r.status = 401 := h.symm
    simp [hst]

theorem create_subtask_on401 (cfg : Config) (args : Args) (net : Net) (pk : String)
    (hk : Args.get args "parent_key" = Json.str pk)
    (hv : validate_issue_key pk = true)
    (hsum : (Args.get args "summary").truthy = true)
    (h401 : all401 net) :
    (create_subtask cfg args net).1 = .ok (txt ("Error: Parent issue not found - " ++ toString (401 : Nat))) := by
  unfold create_subtask
  simp only [hk, truthy_str (validate_issue_key_nonempty hv), hv, hsum, Bool.not_true, Bool.not_false, if_false, if_true,
    Bool.false_eq_true, Bool.or_self, Bool.false_or, Bool.or_false,
    List.isEmpty_cons]
  split
  · rename_i e heq
    have h := congrArg statusOf heq
    rw [h401] at h
    simp [statusOf] at h
  · rename_i r heq
    have h := congrArg statusOf heq
    rw [h401] at h
    simp only [statusOf, Option.some.injEq] at h
    have hst : r.status = 401 := h.symm
    simp [hst]

theorem clone_issue_on401 (cfg : Config) (args : Args) (net : Net) (k : String)
    (hk : Args.get args "key" = Json.str k) (hv : validate_issue_key k = true)
    (hsum : (Args.get args "summary").truthy = true)
    (h401 : all401 net) :
    (clone_issue cfg args net).1 = .ok (txt ("Error: Original issue not found - " ++ toString (401 : Nat))) := by
  unfold clone_issue
  simp only [hk, truthy_str (validate_issue_key_nonempty hv), hv, hsum, Bool.not_true, Bool.not_false, if_false, if_true,
    Bool.false_eq_true, Bool.or_self, Bool.false_or, Bool.or_false,
    List.isEmpty_cons]
  split
  · rename_i e heq
    have h := congrArg statusOf heq
    rw [h401] at h
    simp [statusOf] at h
  · rename_i r heq
    have h := congrArg statusOf heq
    rw [h401] at h
    simp only [statusOf, Option.some.injEq] at h
    have hst : r.status = 401 := h.symm
    simp [hst]

theorem containsSub_append_left {a : String} (b pat : String)
    (h : containsSub a pat = true) : containsSub (a ++ b) pat = true := by
  simp only [containsSub, decide_eq_true_eq] at h ⊢
  obtain ⟨s, t, hst⟩ := h
  exact ⟨s, t ++ b.data, by rw [String.data_append, ← hst]; simp⟩

/-- Both marker phrases occur in the dedicated 401 message. -/
theorem authFailed401_phrases :
    containsSub authFailed401 "Error:" = true ∧
    containsSub authFailed401 "Generate new API token" = true := by
  exact ⟨by decide, by decide⟩

/-- The generic HTTP-error message always carries the "Error:" marker
but never mentions token regeneration for an empty body. -/
theorem httpWithBody_error_marker (c : Nat) (t : String) :
    containsSub (httpWithBody c t) "Error:" = true := by
  unfold httpWithBody
  exact containsSub_append_left _ _ (containsSub_append_left _ _
    (containsSub_append_left _ _ (by decide)))

theorem bulkUpdateLoop_all401 (cfg : Config) (updates : Json) (net : Net)
    (h401 : all401 net) :
    ∀ n ks, (bulkUpdateLoop cfg updates net n ks).1 =
      ks.map (fun key => "❌ " ++ pyStr key ++ ": Failed - " ++ toString (401 : Nat)) := by
  intro n ks
  induction ks generalizing n with
  | nil => rfl
  | cons key rest ih =>
    simp only [bulkUpdateLoop, List.map_cons]
    split
    · rename_i e heq
      have h := congrArg statusOf heq
      rw [h401] at h
      simp [statusOf] at h
    · rename_i r heq
      have h := congrArg statusOf heq
      rw [h401] at h
      simp only [statusOf, Option.some.injEq] at h
      have hst : r.status = 401 := h.symm
      simp [hst, ih]

theorem bulkTransitionLoop_all401 (cfg : Config) (transition : Json) (net : Net)
    (h401 : all401 net) :
    ∀ n ks, (bulkTransitionLoop cfg transition net n ks).1 =
      ks.map (fun key => "❌ " ++ pyStr key ++ ": Failed to get transitions") := by
  intro n ks
  induction ks generalizing n with
  | nil => rfl
  | cons key rest ih =>
    simp only [bulkTransitionLoop, List.map_cons]
    split
    · rename_i e heq
      have h := congrArg statusOf heq
      rw [h401] at h
      simp [statusOf] at h
    · rename_i r heq
      have h := congrArg statusOf heq
      rw [h401] at h
      simp only [statusOf, Option.some.injEq] at h
      have hst : r.status = 401 := h.symm
      simp [hst, ih]

theorem addToSprintCollect_all401 (cfg : Config) (net : Net)
    (h401 : all401 net) :
    ∀ n ks, (addToSprintCollect cfg net n ks).1 = .ok [] := by
  intro n ks
  induction ks generalizing n with
  | nil => rfl
  | cons key rest ih =>
    simp only [addToSprintCollect]
    split
    · rename_i e heq
      have h := congrArg statusOf heq
      rw [h401] at h
      simp [statusOf] at h
    · rename_i r heq
      have h := congrArg statusOf heq
      rw [h401] at h
      simp only [statusOf, Option.some.injEq] at h
      have hst : r.status = 401 := h.symm
      simp [hst, ih]

theorem bulk_update_issues_on401 (cfg : Config) (args : Args) (net : Net)
    (ks : List Json)
    (hkeys : Args.getD args "keys" (Json.arr []) = Json.arr ks)
    (hks : ks ≠ [])
    (hupd : (Args.getD args "updates" (Json.obj [])).truthy = true)
    (hfi : firstInvalidKey ks = .ok none)
    (h401 : all401 net) :
    (bulk_update_issues cfg args net).1 = .ok (txt
      ("Bulk update results (" ++ toString ks.length ++ " issues):\n" ++
        String.intercalate "\n"
          (ks.map (fun key => "❌ " ++ pyStr key ++ ": Failed - " ++ toString (401 : Nat))))) := by
  unfold bulk_update_issues
  simp [hkeys, truthy_arr hks, hupd, hfi,
    bulkUpdateLoop_all401 cfg (Args.getD args "updates" (Json.obj [])) net h401 0 ks]

theorem bulk_transition_issues_on401 (cfg : Config) (args : Args) (net : Net)
    (ks : List Json)
    (hkeys : Args.getD args "keys" (Json.arr []) = Json.arr ks)
    (hks : ks ≠ [])
    (htr : (Args.get args "transition").truthy = true)
    (hfi : firstInvalidKey ks = .ok none)
    (h401 : all401 net) :
    (bulk_transition_issues cfg args net).1 = .ok (txt
      ("Bulk transition results (" ++ toString ks.length ++ " issues):\n" ++
        String.intercalate "\n"
          (ks.map (fun key => "❌ " ++ pyStr key ++ ": Failed to get transitions")))) := by
  unfold bulk_transition_issues
  simp [hkeys, truthy_arr hks, htr, hfi,
    bulkTransitionLoop_all401 cfg (Args.get args "transition") net h401 0 ks]

theorem add_to_sprint_on401 (cfg : Config) (args : Args) (net : Net)
    (ks : List Json)
    (hsid : (Args.get args "sprint_id").truthy = true)
    (hkeys : Args.getD args "keys" (Json.arr []) = Json.arr ks)
    (hks : ks ≠ [])
    (hfi : firstInvalidKey ks = .ok none)
    (h401 : all401 net) :
    (add_to_sprint cfg args net).1 = .ok (txt "Error: No valid issues found") := by
  unfold add_to_sprint
  rcases hc : addToSprintCollect cfg net 0 ks with ⟨ec, tr⟩
  have h1 : ec = .ok [] := by
    have h2 := addToSprintCollect_all401 cfg net h401 0 ks
    rw [hc] at h2
    exact h2
  subst h1
  simp [hsid, hkeys, truthy_arr hks, hfi, hc]

theorem get_issue_on404 (cfg : Config) (args : Args) (net : Net) (k : String)
    (hk : Args.get args "key" = Json.str k) (hv : validate_issue_key k = true)
    (h404 : all404 net) :
    (get_issue cfg args net).1 =
      .ok (txt ("Error: Issue '" ++ k ++ "' not found. Check issue key and permissions.")) ∧
    containsSub ("Error: Issue '" ++ k ++ "' not found. Check issue key and permissions.")
      "not found" = true := by
  constructor
  · unfold get_issue
    simp only [hk, truthy_str (validate_issue_key_nonempty hv), hv,
      Bool.not_true, Bool.not_false, if_false, if_true,
      Bool.false_eq_true, Bool.or_self, Bool.false_or, Bool.or_false,
      List.isEmpty_cons]
    split
    · rename_i e heq
      have h := congrArg statusOf heq
      rw [h404] at h
      simp [statusOf] at h
    · rename_i r heq
      have h := congrArg statusOf heq
      rw [h404] at h
      simp only [statusOf, Option.some.injEq] at h
      have hst : r.status = 404 := h.symm
      simp [hst]
  · exact containsSub_append_right _ (by decide)

/-- Claim C5 (corrected): with every HTTP response carrying status 401,
exactly the ten handlers with a dedicated 401 branch return the message
containing "Error:" and the "Generate new API token" guidance; most
other handlers return the generic "Error: HTTP 401 - body" text, which
carries the "Error:" marker but whose regeneration guidance depends only
on the response body; transition_issue, create_subtask and clone_issue
surface fixed "... - 401" texts without guidance; bulk_update_issues and
bulk_transition_issues return per-item failure lines; add_to_sprint,
whose per-key lookups all fail, returns the single text
"Error: No valid issues found"; and get_issue on a 404 response returns
text containing "not found". -/
theorem C5_http_error_signals :
    (∀ (cfg : Config) (args : Args) (net : Net) (k : String)
    (_hk : Args.get args "key" = Json.str k) (_hv : validate_issue_key k = true) (_h401 : all401 net),
    (get_issue cfg args net).1 = .ok (txt authFailed401)) ∧
    containsSub authFailed401 "Error:" = true ∧
    containsSub authFailed401 "Generate new API token" = true ∧
    (∀ (c : Nat) (t : String), containsSub (httpWithBody c t) "Error:" = true) ∧
    (∀ (cfg : Config) (args : Args) (net : Net) (l : Int)
    (_hl : Args.getD args "limit" (Json.num 10) = Json.num l)
    (_hp : Args.getD args "project" (Json.str "") = Json.str "") (_h401 : all401 net),
    (get_user_stories cfg args net).1 = .ok (txt authFailed401)) ∧
    (∀ (cfg : Config) (args : Args) (net : Net) (_h401 : all401 net),
    (get_projects cfg args net).1 = .ok (txt authFailed401)) ∧
    (∀ (cfg : Config) (args : Args) (net : Net) (l : Int) (q : String)
    (_hl : Args.getD args "limit" (Json.num 50) = Json.num l)
    (_hq : Args.get args "jql" = Json.str q) (_hqne : q ≠ "") (_h401 : all401 net),
    (search_issues cfg args net).1 = .ok (txt authFailed401)) ∧
    (∀ (cfg : Config) (args : Args) (net : Net) (p : String)
    (_hp : Args.get args "project" = Json.str p)
    (_hv : validate_project_key p = true) (_h401 : all401 net),
    (get_project_stats cfg args net).1 = .ok (txt authFailed401)) ∧
    (∀ (cfg : Config) (args : Args) (net : Net) (l : Int)
    (_hl : Args.getD args "limit" (Json.num 20) = Json.num l) (_h401 : all401 net),
    (get_recent_issues cfg args net).1 = .ok (txt authFailed401)) ∧
    (∀ (cfg : Config) (args : Args) (net : Net) (l : Int)
    (_hl : Args.getD args "limit" (Json.num 50) = Json.num l)
    (_ha : (Args.get args "assignee").truthy = true) (_h401 : all401 net),
    (get_issues_by_assignee cfg args net).1 = .ok (txt authFailed401)) ∧
    (∀ (cfg : Config) (args : Args) (net : Net) (p : String)
    (_hp : Args.get args "project" = Json.str p)
    (_hv : validate_project_key p = true)
    (_hsum : (Args.get args "summary").truthy = true) (_h401 : all401 net),
    (create_issue cfg args net).1 = .ok (txt authFailed401)) ∧
    (∀ (cfg : Config) (args : Args) (net : Net) (k s : String)
    (_hk : Args.get args "key" = Json.str k) (_hv : validate_issue_key k = true)
    (_hs : Args.get args "summary" = Json.str s) (_hsne : s ≠ "")
    (_hdesc : Args.get args "description" = Json.null)
    (_hprio : Args.get args "priority" = Json.null)
    (_hassg : Args.get args "assignee" = Json.null) (_h401 : all401 net),
    (update_issue cfg args net).1 = .ok (txt authFailed401)) ∧
    (∀ (cfg : Config) (args : Args) (net : Net) (l : Int) (q : String)
    (_hl : Args.getD args "limit" (Json.num 50) = Json.num l)
    (_hq : Args.get args "jql" = Json.str q) (_hqne : q ≠ "")
    (_hf : Args.getD args "fields" (Json.arr []) = Json.arr [])
    (_he : Args.getD args "expand" (Json.arr []) = Json.arr []) (_h401 : all401 net),
    (advanced_jql_search cfg args net).1 = .ok (txt authFailed401)) ∧
    (∀ (cfg : Config) (args : Args) (net : Net) (k : String)
    (_hk : Args.get args "key" = Json.str k) (_hv : validate_issue_key k = true) (_h401 : all401 net),
    ∃ t, (get_transitions cfg args net).1 = .ok (txt (httpWithBody 401 t))) ∧
    (∀ (cfg : Config) (args : Args) (net : Net) (k : String)
    (_hk : Args.get args "key" = Json.str k) (_hv : validate_issue_key k = true)
    (_hc : (Args.get args "comment").truthy = true) (_h401 : all401 net),
    ∃ t, (add_comment cfg args net).1 = .ok (txt (httpWithBody 401 t))) ∧
    (∀ (cfg : Config) (args : Args) (net : Net) (k : String)
    (_hk : Args.get args "key" = Json.str k) (_hv : validate_issue_key k = true) (_h401 : all401 net),
    ∃ t, (list_attachments cfg args net).1 = .ok (txt (httpWithBody 401 t))) ∧
    (∀ (cfg : Config) (args : Args) (net : Net) (p : String)
    (_hp : Args.get args "project" = Json.str p)
    (_hv : validate_project_key p = true) (_h401 : all401 net),
    ∃ t, (get_issue_types cfg args net).1 = .ok (txt (httpWithBody 401 t))) ∧
    (∀ (cfg : Config) (args : Args) (net : Net) (k : String)
    (_hk : Args.get args "key" = Json.str k) (_hv : validate_issue_key k = true) (fp : String)
    (_hfp : Args.get args "file_path" = Json.str fp) (_hfpne : fp ≠ "")
    (_hex : cfg.fileExists fp = true) (_h401 : all401 net),
    ∃ t, (upload_attachment cfg args net).1 = .ok (txt (httpWithBody 401 t))) ∧
    (∀ (cfg : Config) (args : Args) (net : Net) (u : String)
    (_hurl : Args.get args "attachment_url" = Json.str u) (_hune : u ≠ "")
    (_hsp : (Args.get args "save_path").truthy = true) (_h401 : all401 net),
    ∃ t, (download_attachment cfg args net).1 = .ok (txt (httpWithBody 401 t))) ∧
    (∀ (cfg : Config) (args : Args) (net : Net) (k : String)
    (_hk : Args.get args "key" = Json.str k) (_hv : validate_issue_key k = true)
    (_ha : Args.get args "assignee" = Json.null) (_h401 : all401 net),
    ∃ t, (assign_issue cfg args net).1 = .ok (txt (httpWithBody 401 t))) ∧
    (∀ (cfg : Config) (args : Args) (net : Net) (p : String)
    (_hp : Args.get args "project" = Json.str p)
    (_hv : validate_project_key p = true) (_h401 : all401 net),
    ∃ t, (get_project_components cfg args net).1 = .ok (txt (httpWithBody 401 t))) ∧
    (∀ (cfg : Config) (args : Args) (net : Net) (p : String)
    (_hp : Args.get args "project" = Json.str p)
    (_hv : validate_project_key p = true) (_h401 : all401 net),
    ∃ t, (get_project_versions cfg args net).1 = .ok (txt (httpWithBody 401 t))) ∧
    (∀ (cfg : Config) (args : Args) (net : Net) (_h401 : all401 net),
    ∃ t, (get_custom_fields cfg args net).1 = .ok (txt (httpWithBody 401 t))) ∧
    (∀ (cfg : Config) (args : Args) (net : Net)
    (_hb : (Args.get args "board_id").truthy = true) (_h401 : all401 net),
    ∃ t, (get_sprints cfg args net).1 = .ok (txt (httpWithBody 401 t))) ∧
    (∀ (cfg : Config) (args : Args) (net : Net) (_h401 : all401 net),
    ∃ t, (get_boards cfg args net).1 = .ok (txt (httpWithBody 401 t))) ∧
    (∀ (cfg : Config) (args : Args) (net : Net)
    (_hs : (Args.get args "sprint_id").truthy = true) (_h401 : all401 net),
    ∃ t, (get_sprint_issues cfg args net).1 = .ok (txt (httpWithBody 401 t))) ∧
    (∀ (cfg : Config) (args : Args) (net : Net) (ik ok' : String)
    (_hi : Args.get args "inward_key" = Json.str ik)
    (_ho : Args.get args "outward_key" = Json.str ok')
    (_hv1 : validate_issue_key ik = true) (_hv2 : validate_issue_key ok' = true)
    (_hlt : (Args.get args "link_type").truthy = true) (_h401 : all401 net),
    ∃ t, (link_issues cfg args net).1 = .ok (txt (httpWithBody 401 t))) ∧
    (∀ (cfg : Config) (args : Args) (net : Net) (k : String)
    (_hk : Args.get args "key" = Json.str k) (_hv : validate_issue_key k = true) (_h401 : all401 net),
    ∃ t, (get_subtasks cfg args net).1 = .ok (txt (httpWithBody 401 t))) ∧
    (∀ (cfg : Config) (args : Args) (net : Net) (k : String)
    (_hk : Args.get args "key" = Json.str k) (_hv : validate_issue_key k = true)
    (_hts : (Args.get args "time_spent").truthy = true) (_h401 : all401 net),
    ∃ t, (add_worklog cfg args net).1 = .ok (txt (httpWithBody 401 t))) ∧
    (∀ (cfg : Config) (args : Args) (net : Net) (p : String)
    (_hp : Args.get args "project" = Json.str p)
    (_hv : validate_project_key p = true) (_h401 : all401 net),
    ∃ t, (get_users cfg args net).1 = .ok (txt (httpWithBody 401 t))) ∧
    (∀ (cfg : Config) (args : Args) (net : Net) (_h401 : all401 net),
    ∃ t, (list_webhooks cfg args net).1 = .ok (txt (httpWithBody 401 t))) ∧
    (∀ (cfg : Config) (args : Args) (net : Net) (k : String)
    (_hk : Args.get args "key" = Json.str k) (_hv : validate_issue_key k = true)
    (_hu : (Args.get args "username").truthy = true) (_h401 : all401 net),
    ∃ t, (add_watcher cfg args net).1 = .ok (txt (httpWithBody 401 t))) ∧
    (∀ (cfg : Config) (args : Args) (net : Net) (k : String)
    (_hk : Args.get args "key" = Json.str k) (_hv : validate_issue_key k = true) (_h401 : all401 net),
    ∃ t, (get_watchers cfg args net).1 = .ok (txt (httpWithBody 401 t))) ∧
    (∀ (cfg : Config) (args : Args) (net : Net) (k : String)
    (_hk : Args.get args "key" = Json.str k) (_hv : validate_issue_key k = true) (_h401 : all401 net),
    ∃ t, (get_issue_links cfg args net).1 = .ok (txt (httpWithBody 401 t))) ∧
    (∀ (cfg : Config) (args : Args) (net : Net) (p : String)
    (_hp : Args.get args "project" = Json.str p)
    (_hv : validate_project_key p = true) (_h401 : all401 net),
    ∃ t, (get_time_tracking_report cfg args net).1 = .ok (txt (httpWithBody 401 t))) ∧
    (∀ (cfg : Config) (args : Args) (net : Net) (p : String)
    (_hp : Args.get args "project" = Json.str p)
    (_hv : validate_project_key p = true) (_h401 : all401 net),
    ∃ t, (get_project_roles cfg args net).1 = .ok (txt (httpWithBody 401 t))) ∧
    (∀ (cfg : Config) (args : Args) (net : Net) (fmt : String)
    (_hfmt : Args.getD args "format" (Json.str "json") = Json.str fmt)
    (_hj : (Args.get args "jql").truthy = true) (_h401 : all401 net),
    ∃ t, (export_issues cfg args net).1 = .ok (txt (httpWithBody 401 t))) ∧
    (∀ (cfg : Config) (args : Args) (net : Net) (evs : List Json)
    (_hn : (Args.get args "name").truthy = true)
    (_hu : (Args.get args "url").truthy = true)
    (_hev : Args.getD args "events" (Json.arr []) = Json.arr evs)
    (_hevne : evs ≠ []) (_h401 : all401 net),
    ∃ t, (create_webhook cfg args net).1 = .ok (txt (httpWithBody 401 t))) ∧
    (∀ (cfg : Config) (args : Args) (net : Net) (p : String)
    (_hp : Args.get args "project" = Json.str p)
    (_hv : validate_project_key p = true)
    (_hn : (Args.get args "name").truthy = true) (_h401 : all401 net),
    ∃ t, (create_version cfg args net).1 = .ok (txt (httpWithBody 401 t))) ∧
    (∀ (cfg : Config) (args : Args) (net : Net) (p : String)
    (_hp : Args.get args "project" = Json.str p)
    (_hv : validate_project_key p = true)
    (_hu : (Args.get args "username").truthy = true) (_h401 : all401 net),
    ∃ t, (get_user_permissions cfg args net).1 = .ok (txt (httpWithBody 401 t))) ∧
    (∀ (cfg : Config) (args : Args) (net : Net) (_h401 : all401 net),
    ∃ t, (get_workflows cfg args net).1 = .ok (txt (httpWithBody 401 t))) ∧
    (∀ (cfg : Config) (args : Args) (net : Net)
    (_hvid : (Args.get args "version_id").truthy = true) (_h401 : all401 net),
    ∃ t, (release_version cfg args net).1 = .ok (txt (httpWithBody 401 t))) ∧
    (∀ (cfg : Config) (args : Args) (net : Net)
    (_hs : (Args.get args "sprint_id").truthy = true) (_h401 : all401 net),
    ∃ t, (get_burndown_data cfg args net).1 = .ok (txt (httpWithBody 401 t))) ∧
    (∀ (cfg : Config) (args : Args) (net : Net) (k : String)
    (_hk : Args.get args "key" = Json.str k) (_hv : validate_issue_key k = true)
    (_htr : (Args.get args "transition").truthy = true) (_h401 : all401 net),
    (transition_issue cfg args net).1 = .ok (txt ("Error: Failed to get transitions - " ++ toString (401 : Nat)))) ∧
    (∀ (cfg : Config) (args : Args) (net : Net) (pk : String)
    (_hk : Args.get args "parent_key" = Json.str pk)
    (_hv : validate_issue_key pk = true)
    (_hsum : (Args.get args "summary").truthy = true) (_h401 : all401 net),
    (create_subtask cfg args net).1 = .ok (txt ("Error: Parent issue not found - " ++ toString (401 : Nat)))) ∧
    (∀ (cfg : Config) (args : Args) (net : Net) (k : String)
    (_hk : Args.get args "key" = Json.str k) (_hv : validate_issue_key k = true)
    (_hsum : (Args.get args "summary").truthy = true) (_h401 : all401 net),
    (clone_issue cfg args net).1 = .ok (txt ("Error: Original issue not found - " ++ toString (401 : Nat)))) ∧
    (∀ (cfg : Config) (args : Args) (net : Net)
    (ks : List Json)
    (_hkeys : Args.getD args "keys" (Json.arr []) = Json.arr ks)
    (_hks : ks ≠ [])
    (_hupd : (Args.getD args "updates" (Json.obj [])).truthy = true)
    (_hfi : firstInvalidKey ks = .ok none) (_h401 : all401 net),
    (bulk_update_issues cfg args net).1 = .ok (txt
      ("Bulk update results (" ++ toString ks.length ++ " issues):\n" ++
        String.intercalate "\n"
          (ks.map (fun key => "❌ " ++ pyStr key ++ ": Failed - " ++ toString (401 : Nat)))))) ∧
    (∀ (cfg : Config) (args : Args) (net : Net)
    (ks : List Json)
    (_hkeys : Args.getD args "keys" (Json.arr []) = Json.arr ks)
    (_hks : ks ≠ [])
    (_htr : (Args.get args "transition").truthy = true)
    (_hfi : firstInvalidKey ks = .ok none) (_h401 : all401 net),
    (bulk_transition_issues cfg args net).1 = .ok (txt
      ("Bulk transition results (" ++ toString ks.length ++ " issues):\n" ++
        String.intercalate "\n"
          (ks.map (fun key => "❌ " ++ pyStr key ++ ": Failed to get transitions"))))) ∧
    (∀ (cfg : Config) (args : Args) (net : Net)
    (ks : List Json)
    (_hsid : (Args.get args "sprint_id").truthy = true)
    (_hkeys : Args.getD args "keys" (Json.arr []) = Json.arr ks)
    (_hks : ks ≠ [])
    (_hfi : firstInvalidKey ks = .ok none) (_h401 : all401 net),
    (add_to_sprint cfg args net).1 = .ok (txt "Error: No valid issues found")) ∧
    (∀ (cfg : Config) (args : Args) (net : Net) (k : String)
    (_hk : Args.get args "key" = Json.str k) (_hv : validate_issue_key k = true) (_h404 : all404 net),
    (get_issue cfg args net).1 =
      .ok (txt ("Error: Issue '" ++ k ++ "' not found. Check issue key and permissions.")) ∧
    containsSub ("Error: Issue '" ++ k ++ "' not found. Check issue key and permissions.")
      "not found" = true) :=
  ⟨get_issue_on401, authFailed401_phrases.1, authFailed401_phrases.2, httpWithBody_error_marker, get_user_stories_on401, get_projects_on401, search_issues_on401, get_project_stats_on401, get_recent_issues_on401, get_issues_by_assignee_on401, create_issue_on401, update_issue_on401, advanced_jql_search_on401, get_transitions_on401, add_comment_on401, list_attachments_on401, get_issue_types_on401, upload_attachment_on401, download_attachment_on401, assign_issue_on401, get_project_components_on401, get_project_versions_on401, get_custom_fields_on401, get_sprints_on401, get_boards_on401, get_sprint_issues_on401, link_issues_on401, get_subtasks_on401, add_worklog_on401, get_users_on401, list_webhooks_on401, add_watcher_on401, get_watchers_on401, get_issue_links_on401, get_time_tracking_report_on401, get_project_roles_on401, export_issues_on401, create_webhook_on401, create_version_on401, get_user_permissions_on401, get_workflows_on401, release_version_on401, get_burndown_data_on401, transition_issue_on401, create_subtask_on401, clone_issue_on401, bulk_update_issues_on401, bulk_transition_issues_on401, add_to_sprint_on401, get_issue_on404⟩

/-- Counterexample to claim C5 as stated: `add_comment` with a valid key
and comment, answered 401 with an empty body, returns the generic
"Error: HTTP 401 - " text, which contains "Error:" but no guidance to
regenerate the API token. -/
theorem C5_counterexample :
    (add_comment
        { url := "https://jira.example", username := "u", apiToken := "t" }
        [("key", Json.str "AB-1"), ("comment", Json.str "hi")]
        (fun _ _ => .resp { status := 401 })).1 =
      .ok (txt "Error: HTTP 401 - ") ∧
    containsSub "Error: HTTP 401 - " "Error:" = true ∧
    containsSub "Error: HTTP 401 - " "Generate new API token" = false :=
  ⟨rfl, by decide, by decide⟩

theorem C5_http_error_signals_witness :
    (get_issue
        { url := "https://jira.example", username := "u", apiToken := "t" }
        [("key", Json.str "AB-1")]
        (fun _ _ => .resp { status := 401 })).1 = .ok (txt authFailed401) :=
  C5_http_error_signals.1
    { url := "https://jira.example", username := "u", apiToken := "t" }
    [("key", Json.str "AB-1")]
    (fun _ _ => .resp { status := 401 })
    "AB-1" rfl (by decide) (fun _ _ => rfl)

end JiraMcp
